import Mathlib

/-!
# Carla OSC control-protocol dispatcher

Shallow embedding of `source/backend/engine/CarlaEngineOscHandlers.cpp`
(`CarlaEngineOsc::handleMessage` and the handlers it calls) and theorems about it.

Conventions of the embedding

* A C string is the list of its characters before the terminating NUL.  Reading the
  position right after the last character yields NUL; reading any later position is a
  read past the terminator, which the embedding reports as `none`.
* A handler returns its `int` result, the dispatcher object after the call and the
  ordered list of calls it made to the outside (diagnostics, liblo sends, engine
  calls, plugin calls).  `carla_debug` lines are compiled out in release builds and
  are not recorded.
* `argc` and `types` are not separate inputs: liblo delivers `argc` equal to the
  number of arguments and `types` equal to the sequence of their type tags, so they
  are computed from `argv`.
* A `lo_arg` is a union; every view of it (`->i`, `->h`, `->f`, `&->s`) can be read
  whatever the tag, so an argument carries all views.
-/

namespace Carla

/-- C string: the characters before the terminating NUL. -/
abbrev CStr := List Char

/-- The terminator character. -/
def NUL : Char := Char.ofNat 0

/-- A string literal of the source as a C string. -/
def cstr (s : String) : CStr := s.toList

/-- Single precision float, kept as its IEEE-754 bit pattern. -/
structure F32 where
  bits : Nat
deriving DecidableEq, Repr

/-- The literal `0.0f`. -/
def F32.zero : F32 := ⟨0⟩

/-- The test `f >= 0.0` (after the exact widening to double): false for NaN,
true for both zeros and for every value with a clear sign bit. -/
def F32.geZero (f : F32) : Bool :=
  let b := f.bits % 2 ^ 32
  let sign := b / 2 ^ 31
  let expo := (b / 2 ^ 23) % 256
  let mant := b % 2 ^ 23
  !(expo == 255 && mant != 0) && (sign == 0 || (expo == 0 && mant == 0))

/-- One `lo_arg` together with its type tag.  The fields are the views of the union:
`i` is `->i` (int32), `h` is `->h` (int64), `f` is `->f`, `s` is `&->s`. -/
structure OscArg where
  tag : Char
  i : Int
  h : Int
  f : F32
  s : CStr
deriving DecidableEq, Repr

instance : Inhabited OscArg := ⟨⟨NUL, 0, 0, F32.zero, []⟩⟩

/-- A 32-bit integer argument (tag `i`). -/
def OscArg.int32 (v : Int) : OscArg := ⟨'i', v, v, F32.zero, []⟩
/-- A 64-bit integer argument (tag `h`). -/
def OscArg.int64 (v : Int) : OscArg := ⟨'h', v, v, F32.zero, []⟩
/-- A float argument (tag `f`). -/
def OscArg.float (v : F32) : OscArg := ⟨'f', 0, 0, v, []⟩
/-- A string argument (tag `s`). -/
def OscArg.str (v : CStr) : OscArg := ⟨'s', 0, 0, F32.zero, v⟩

/-- The `types` string liblo passes along with `argv`. -/
def typesOf (argv : List OscArg) : CStr := argv.map OscArg.tag

/-- Element `argv[k]`; every use is preceded by a check of `argc`. -/
def argAt (argv : List OscArg) (k : Nat) : OscArg := argv.getD k default

/-- Conversion `static_cast<uint32_t>`. -/
def toU32 (v : Int) : Nat := (v % 2 ^ 32).toNat
/-- Conversion `static_cast<uint64_t>`. -/
def toU64 (v : Int) : Nat := (v % 2 ^ 64).toNat
/-- Conversion `static_cast<uint8_t>`. -/
def toU8 (v : Int) : Nat := (v % 2 ^ 8).toNat
/-- Conversion `static_cast<int16_t>`. -/
def toI16 (v : Int) : Int := (v + 2 ^ 15) % 2 ^ 16 - 2 ^ 15

/-- Constants and liblo functions the handlers use but the sources at hand do not
define: the MIDI limits of `CarlaMIDI.h` and liblo's url accessors.  The accessors are
taken to succeed on the url of a request; the handlers use their results without a
null test. -/
structure Env where
  MAX_MIDI_CHANNELS : Int
  MAX_MIDI_NOTE : Int
  MAX_MIDI_VALUE : Int
  MAX_MIDI_CONTROL : Int
  /-- Function `lo_url_get_path(url)`. -/
  lo_url_get_path : CStr → CStr
  /-- Function `lo_address_get_hostname(lo_address_new_from_url(url))`. -/
  lo_url_hostname : CStr → CStr
  /-- Function `lo_address_get_port(lo_address_new_from_url(url))`. -/
  lo_url_port : CStr → CStr

/-- A `lo_address` made by `lo_address_new_with_proto(proto, host, port)`. -/
structure LoTarget where
  tcp : Bool
  host : CStr
  port : CStr
deriving DecidableEq, Repr

/-- Type `CarlaOscData`: the binding of one transport; a null pointer is `none`. -/
structure CarlaOscData where
  owner : Option CStr
  path : Option CStr
  target : Option LoTarget
deriving DecidableEq, Repr

/-- Modelled from the spec: `CarlaOscData::clear()` lives outside the given sources;
the spec calls its effect clearing the binding, so owner, path and target all
become absent. -/
def CarlaOscData.clear (_d : CarlaOscData) : CarlaOscData := ⟨none, none, none⟩

/-- The fields of `CarlaEngineOsc` the handlers read or write. -/
structure CarlaEngineOsc where
  fName : CStr
  fServerPathTCP : CStr
  fServerPathUDP : CStr
  /-- Whether `fServerTCP != nullptr`. -/
  fServerTCP : Bool
  /-- Whether `fServerUDP != nullptr`. -/
  fServerUDP : Bool
  fControlDataTCP : CarlaOscData
  fControlDataUDP : CarlaOscData
deriving DecidableEq, Repr

/-- The reference `isTCP ? fControlDataTCP : fControlDataUDP`, read. -/
def CarlaEngineOsc.controlData (self : CarlaEngineOsc) (isTCP : Bool) : CarlaOscData :=
  if isTCP then self.fControlDataTCP else self.fControlDataUDP

/-- The reference `isTCP ? fControlDataTCP : fControlDataUDP`, assigned. -/
def CarlaEngineOsc.setControlData (self : CarlaEngineOsc) (isTCP : Bool)
    (d : CarlaOscData) : CarlaEngineOsc :=
  if isTCP then { self with fControlDataTCP := d } else { self with fControlDataUDP := d }

/-- A plugin object: `ref` stands for the object itself (its address),
`id` is what `getId()` reports and `name` what `getName()` reports. -/
structure CarlaPlugin where
  ref : Nat
  id : Nat
  name : CStr
deriving DecidableEq, Repr

/-- What the handlers read from the engine. -/
structure CarlaEngine where
  /-- Result of `getCurrentPluginCount()`. -/
  curPluginCount : Nat
  /-- Result of `getPluginUnchecked(index)`; a null pointer is `none`. -/
  plugins : Nat → Option CarlaPlugin
  processMode : Int
  transportMode : Int
  bufferSize : Nat
  /-- Value `static_cast<float>(getSampleRate())`. -/
  sampleRate : F32
  driverName : CStr
  /-- Result of `pData->graph.isUsingExternal()`. -/
  usingExternal : Bool

/-- The messages written with `carla_stderr`, `carla_stderr2` or by a failed
`CARLA_SAFE_ASSERT*`, one constructor per place in the source. -/
inductive Diag
  | safeAssert
  | notForThisClient
  | idOver999
  | invalidMessage
  | wrongId
  | pluginRemoved
  | withoutMethod
  | alreadyRegistered
  | unregisterNotRegistered
  | unregisterOwnerMismatch
  | controlNotRegistered
  | wrongOscType
  | unhandledControl
  | argcMismatch
  | typesMismatch
deriving DecidableEq, Repr

/-- The messages written with `carla_stdout`. -/
inductive Info
  | registered
  | unregistered
deriving DecidableEq, Repr

/-- The engine callback opcodes used by the handlers. -/
inductive CallbackOpcode
  | ENGINE_STARTED
  | PLUGIN_ADDED
deriving DecidableEq, Repr

/-- Calls into the engine, with their arguments in source order. -/
inductive EngineOp
  | callback (sendHost sendOSC : Bool) (action : CallbackOpcode) (pluginId : Nat)
      (value1 value2 value3 : Int) (valuef : F32) (valueStr : CStr)
  | patchbayRefresh (sendHost sendOSC external : Bool)
  | clearXruns
  | setActionCanceled (canceled : Bool)
  | patchbayConnect (groupA portA groupB portB : Nat)
  | patchbayDisconnect (connectionId : Nat)
  | transportPlay
  | transportPause
  | transportBPM (bpm : F32)
  | transportRelocate (frame : Nat)
  | addPlugin (btype ptype : Int) (filename name : Option CStr) (label : CStr)
      (uniqueId : Int) (options : Nat)
  | removePlugin (id : Nat)
  | removeAllPlugins
  | renamePlugin (id : Nat) (newName : CStr)
  | clonePlugin (id : Nat)
  | replacePlugin (id : Nat)
  | switchPlugins (idA idB : Nat)
deriving DecidableEq, Repr

/-- Calls on a plugin, with their arguments in source order. -/
inductive PluginOp
  | setActive (active sendOsc sendCallback : Bool)
  | setDryWet (value : F32) (sendOsc sendCallback : Bool)
  | setVolume (value : F32) (sendOsc sendCallback : Bool)
  | setBalanceLeft (value : F32) (sendOsc sendCallback : Bool)
  | setBalanceRight (value : F32) (sendOsc sendCallback : Bool)
  | setPanning (value : F32) (sendOsc sendCallback : Bool)
  | setParameterValue (parameterId : Nat) (value : F32) (sendGui sendOsc sendCallback : Bool)
  | setParameterMidiCC (parameterId : Nat) (cc : Int) (sendOsc sendCallback : Bool)
  | setParameterMidiChannel (parameterId : Nat) (channel : Nat) (sendOsc sendCallback : Bool)
  | setProgram (index : Int) (sendGui sendOsc sendCallback : Bool)
  | setMidiProgram (index : Int) (sendGui sendOsc sendCallback : Bool)
  | sendMidiSingleNote (channel note velo : Nat) (sendGui sendOsc sendCallback : Bool)
  | handleOscMessage (method : CStr) (argc : Nat) (argv : List OscArg) (types : CStr)
deriving DecidableEq, Repr

/-- One observable step of a handler. -/
inductive Effect
  /-- A diagnostic line. -/
  | diag (d : Diag)
  /-- An informational line. -/
  | info (i : Info)
  /-- The call `fEngine->getPluginUnchecked(index)`. -/
  | getPlugin (index : Nat)
  /-- The call `lo_send_from(lo_address_new_from_url(url), server, LO_TT_IMMEDIATE,
  path, "s", text)`, the server being the TCP one iff `viaTCP`. -/
  | send (url : CStr) (viaTCP : Bool) (path : CStr) (text : CStr)
  /-- A call into the engine. -/
  | engine (op : EngineOp)
  /-- A call on a plugin. -/
  | plugin (p : CarlaPlugin) (op : PluginOp)
deriving DecidableEq, Repr

/-- What a handler leaves behind: returned `int`, dispatcher object, calls made. -/
structure Outcome where
  ret : Int
  self : CarlaEngineOsc
  effects : List Effect
deriving DecidableEq, Repr

/-- Modelled from the spec: the macro `CARLA_ENGINE_OSC_CHECK_OSC_TYPES(argc, types)`
is defined outside the given sources.  By spec 4.2 validation fails (message dropped,
logged) if the actual argument count differs from the declared count or a positional
type tag mismatches; `some d` is the failure with its diagnostic, `none` a pass. -/
def checkOscTypes (argv : List OscArg) (argcToCompare : Nat) (typesToCompare : CStr) :
    Option Diag :=
  if argv.length ≠ argcToCompare then some Diag.argcMismatch
  else if typesOf argv ≠ typesToCompare then some Diag.typesMismatch
  else none

/-- Modelled from the spec: the value a handler returns when
`CARLA_ENGINE_OSC_CHECK_OSC_TYPES` drops the message.  The spec gives no number; 1 is
the value `handleMessage` itself returns for the messages it rejects. -/
def checkOscTypesFailed : Int := 1

/-- A failed `CARLA_SAFE_ASSERT_RETURN(cond, ret)`: the failure is reported and the
function returns `ret`. -/
def assertFailed (self : CarlaEngineOsc) (ret : Int) : Outcome :=
  ⟨ret, self, [Effect.diag Diag.safeAssert]⟩

/-- A message dropped by `CARLA_ENGINE_OSC_CHECK_OSC_TYPES`. -/
def dropped (self : CarlaEngineOsc) (d : Diag) : Outcome :=
  ⟨checkOscTypesFailed, self, [Effect.diag d]⟩

/-- A plugin handler that made its one plugin call and returns 0. -/
def called (self : CarlaEngineOsc) (plugin : CarlaPlugin) (op : PluginOp) : Outcome :=
  ⟨0, self, [Effect.plugin plugin op]⟩

/-- Source: `CarlaEngineOsc::handleMsgSetActive`. -/
def handleMsgSetActive (self : CarlaEngineOsc) (plugin : CarlaPlugin)
    (argv : List OscArg) : Outcome :=
  match checkOscTypes argv 1 (cstr "i") with
  | some d => dropped self d
  | none =>
    let active : Bool := decide ((argAt argv 0).i ≠ 0)
    called self plugin (PluginOp.setActive active false true)

/-- Source: `CarlaEngineOsc::handleMsgSetDryWet`. -/
def handleMsgSetDryWet (self : CarlaEngineOsc) (plugin : CarlaPlugin)
    (argv : List OscArg) : Outcome :=
  match checkOscTypes argv 1 (cstr "f") with
  | some d => dropped self d
  | none =>
    let value := (argAt argv 0).f
    called self plugin (PluginOp.setDryWet value false true)

/-- Source: `CarlaEngineOsc::handleMsgSetVolume`. -/
def handleMsgSetVolume (self : CarlaEngineOsc) (plugin : CarlaPlugin)
    (argv : List OscArg) : Outcome :=
  match checkOscTypes argv 1 (cstr "f") with
  | some d => dropped self d
  | none =>
    let value := (argAt argv 0).f
    called self plugin (PluginOp.setVolume value false true)

/-- Source: `CarlaEngineOsc::handleMsgSetBalanceLeft`. -/
def handleMsgSetBalanceLeft (self : CarlaEngineOsc) (plugin : CarlaPlugin)
    (argv : List OscArg) : Outcome :=
  match checkOscTypes argv 1 (cstr "f") with
  | some d => dropped self d
  | none =>
    let value := (argAt argv 0).f
    called self plugin (PluginOp.setBalanceLeft value false true)

/-- Source: `CarlaEngineOsc::handleMsgSetBalanceRight`. -/
def handleMsgSetBalanceRight (self : CarlaEngineOsc) (plugin : CarlaPlugin)
    (argv : List OscArg) : Outcome :=
  match checkOscTypes argv 1 (cstr "f") with
  | some d => dropped self d
  | none =>
    let value := (argAt argv 0).f
    called self plugin (PluginOp.setBalanceRight value false true)

/-- Source: `CarlaEngineOsc::handleMsgSetPanning`. -/
def handleMsgSetPanning (self : CarlaEngineOsc) (plugin : CarlaPlugin)
    (argv : List OscArg) : Outcome :=
  match checkOscTypes argv 1 (cstr "f") with
  | some d => dropped self d
  | none =>
    let value := (argAt argv 0).f
    called self plugin (PluginOp.setPanning value false true)

/-- Source: `CarlaEngineOsc::handleMsgSetParameterValue`. -/
def handleMsgSetParameterValue (self : CarlaEngineOsc) (plugin : CarlaPlugin)
    (argv : List OscArg) : Outcome :=
  match checkOscTypes argv 2 (cstr "if") with
  | some d => dropped self d
  | none =>
    let index := (argAt argv 0).i
    let value := (argAt argv 1).f
    if ¬ (index ≥ 0) then assertFailed self 0
    else called self plugin (PluginOp.setParameterValue (toU32 index) value true false true)

/-- Source: `CarlaEngineOsc::handleMsgSetParameterMidiCC`. -/
def handleMsgSetParameterMidiCC (env : Env) (self : CarlaEngineOsc) (plugin : CarlaPlugin)
    (argv : List OscArg) : Outcome :=
  match checkOscTypes argv 2 (cstr "ii") with
  | some d => dropped self d
  | none =>
    let index := (argAt argv 0).i
    let cc := (argAt argv 1).i
    if ¬ (index ≥ 0) then assertFailed self 0
    else if ¬ (cc ≥ -1 ∧ cc < env.MAX_MIDI_CONTROL) then assertFailed self 0
    else called self plugin (PluginOp.setParameterMidiCC (toU32 index) (toI16 cc) false true)

/-- Source: `CarlaEngineOsc::handleMsgSetParameterMidiChannel`. -/
def handleMsgSetParameterMidiChannel (env : Env) (self : CarlaEngineOsc)
    (plugin : CarlaPlugin) (argv : List OscArg) : Outcome :=
  match checkOscTypes argv 2 (cstr "ii") with
  | some d => dropped self d
  | none =>
    let index := (argAt argv 0).i
    let channel := (argAt argv 1).i
    if ¬ (index ≥ 0) then assertFailed self 0
    else if ¬ (channel ≥ 0 ∧ channel < env.MAX_MIDI_CHANNELS) then assertFailed self 0
    else called self plugin
      (PluginOp.setParameterMidiChannel (toU32 index) (toU8 channel) false true)

/-- Source: `CarlaEngineOsc::handleMsgSetProgram`. -/
def handleMsgSetProgram (self : CarlaEngineOsc) (plugin : CarlaPlugin)
    (argv : List OscArg) : Outcome :=
  match checkOscTypes argv 1 (cstr "i") with
  | some d => dropped self d
  | none =>
    let index := (argAt argv 0).i
    if ¬ (index ≥ -1) then assertFailed self 0
    else called self plugin (PluginOp.setProgram index true false true)

/-- Source: `CarlaEngineOsc::handleMsgSetMidiProgram`. -/
def handleMsgSetMidiProgram (self : CarlaEngineOsc) (plugin : CarlaPlugin)
    (argv : List OscArg) : Outcome :=
  match checkOscTypes argv 1 (cstr "i") with
  | some d => dropped self d
  | none =>
    let index := (argAt argv 0).i
    if ¬ (index ≥ -1) then assertFailed self 0
    else called self plugin (PluginOp.setMidiProgram index true false true)

/-- Source: `CarlaEngineOsc::handleMsgNoteOn`. -/
def handleMsgNoteOn (env : Env) (self : CarlaEngineOsc) (plugin : CarlaPlugin)
    (argv : List OscArg) : Outcome :=
  match checkOscTypes argv 3 (cstr "iii") with
  | some d => dropped self d
  | none =>
    let channel := (argAt argv 0).i
    let note := (argAt argv 1).i
    let velo := (argAt argv 2).i
    if ¬ (channel ≥ 0 ∧ channel < env.MAX_MIDI_CHANNELS) then assertFailed self 0
    else if ¬ (note ≥ 0 ∧ note < env.MAX_MIDI_NOTE) then assertFailed self 0
    else if ¬ (velo ≥ 0 ∧ velo < env.MAX_MIDI_VALUE) then assertFailed self 0
    else called self plugin
      (PluginOp.sendMidiSingleNote (toU8 channel) (toU8 note) (toU8 velo) true false true)

/-- Source: `CarlaEngineOsc::handleMsgNoteOff`. -/
def handleMsgNoteOff (env : Env) (self : CarlaEngineOsc) (plugin : CarlaPlugin)
    (argv : List OscArg) : Outcome :=
  match checkOscTypes argv 2 (cstr "ii") with
  | some d => dropped self d
  | none =>
    let channel := (argAt argv 0).i
    let note := (argAt argv 1).i
    if ¬ (channel ≥ 0 ∧ channel < env.MAX_MIDI_CHANNELS) then assertFailed self 0
    else if ¬ (note ≥ 0 ∧ note < env.MAX_MIDI_NOTE) then assertFailed self 0
    else called self plugin
      (PluginOp.sendMidiSingleNote (toU8 channel) (toU8 note) 0 true false true)

/-- The loop of `handleMsgRegister` over the loaded plugins, from index `i` for
`n` more rounds: each round looks the plugin up and, unless the pointer is null
(`CARLA_SAFE_ASSERT_CONTINUE`), sends its plugin-added callback. -/
def registerPluginLoop (engine : CarlaEngine) : Nat → Nat → List Effect
  | _, 0 => []
  | i, n + 1 =>
    (Effect.getPlugin i ::
      (match engine.plugins i with
       | none => [Effect.diag Diag.safeAssert]
       | some plugin => [Effect.engine (EngineOp.callback false true
           CallbackOpcode.PLUGIN_ADDED i 0 0 0 F32.zero plugin.name)]))
    ++ registerPluginLoop engine (i + 1) n

/-- The `if (isTCP)` block of `handleMsgRegister`: engine-started callback, the
plugin loop, graph refresh. -/
def registerSnapshot (engine : CarlaEngine) : List Effect :=
  Effect.engine (EngineOp.callback false true CallbackOpcode.ENGINE_STARTED 0
      engine.processMode engine.transportMode (Int.ofNat engine.bufferSize)
      engine.sampleRate engine.driverName)
  :: (registerPluginLoop engine 0 engine.curPluginCount
      ++ [Effect.engine (EngineOp.patchbayRefresh false true engine.usingExternal)])

/-- Source: `CarlaEngineOsc::handleMsgRegister`.  The copies made with
`carla_strdup_safe` and `carla_strdup_free` are taken to succeed. -/
def handleMsgRegister (env : Env) (self : CarlaEngineOsc) (engine : CarlaEngine)
    (isTCP : Bool) (argv : List OscArg) : Outcome :=
  match checkOscTypes argv 1 (cstr "s") with
  | some d => dropped self d
  | none =>
    let url := (argAt argv 0).s
    let oscData := self.controlData isTCP
    if oscData.owner ≠ none then
      let targetPath := env.lo_url_get_path url ++ cstr "/exit-error"
      ⟨0, self, [Effect.diag Diag.alreadyRegistered,
        Effect.send url isTCP targetPath (cstr "OSC already registered to another client")]⟩
    else
      let target : LoTarget := ⟨isTCP, env.lo_url_hostname url, env.lo_url_port url⟩
      let bound : CarlaOscData := ⟨some url, some (env.lo_url_get_path url), some target⟩
      ⟨0, self.setControlData isTCP bound,
        Effect.info Info.registered :: (if isTCP then registerSnapshot engine else [])⟩

/-- Source: `CarlaEngineOsc::handleMsgUnregister`. -/
def handleMsgUnregister (self : CarlaEngineOsc) (isTCP : Bool)
    (argv : List OscArg) : Outcome :=
  match checkOscTypes argv 1 (cstr "s") with
  | some d => dropped self d
  | none =>
    let oscData := self.controlData isTCP
    match oscData.owner with
    | none => ⟨0, self, [Effect.diag Diag.unregisterNotRegistered]⟩
    | some owner =>
      let url := (argAt argv 0).s
      if owner = url then
        ⟨0, self.setControlData isTCP oscData.clear, [Effect.info Info.unregistered]⟩
      else
        ⟨0, self, [Effect.diag Diag.unregisterOwnerMismatch]⟩

/-- An engine call made by `handleMsgControl`, which then returns 0. -/
def engineCalled (self : CarlaEngineOsc) (op : EngineOp) : Outcome :=
  ⟨0, self, [Effect.engine op]⟩

/-- Source: `CarlaEngineOsc::handleMsgControl`.  `types` is never null here. -/
def handleMsgControl (self : CarlaEngineOsc) (method : CStr) (argv : List OscArg) :
    Outcome :=
  let argc := argv.length
  let types (k : Nat) : Char := (argAt argv k).tag
  if method = [] then assertFailed self 0
  else if self.fControlDataTCP.owner = none then
    ⟨0, self, [Effect.diag Diag.controlNotRegistered]⟩
  else if method = cstr "clear_engine_xruns" then
    engineCalled self EngineOp.clearXruns
  else if method = cstr "cancel_engine_action" then
    engineCalled self (EngineOp.setActionCanceled true)
  else if method = cstr "patchbay_connect" then
    if argc ≠ 4 then assertFailed self 0
    else if types 0 ≠ 'i' then assertFailed self 0
    else if types 1 ≠ 'i' then assertFailed self 0
    else if types 2 ≠ 'i' then assertFailed self 0
    else if types 3 ≠ 'i' then assertFailed self 0
    else
      let i0 := (argAt argv 0).i
      if ¬ (i0 ≥ 0) then assertFailed self 0
      else
        let i1 := (argAt argv 1).i
        if ¬ (i1 ≥ 0) then assertFailed self 0
        else
          let i2 := (argAt argv 2).i
          if ¬ (i2 ≥ 0) then assertFailed self 0
          else
            let i3 := (argAt argv 3).i
            if ¬ (i3 ≥ 0) then assertFailed self 0
            else engineCalled self
              (EngineOp.patchbayConnect (toU32 i0) (toU32 i1) (toU32 i2) (toU32 i3))
  else if method = cstr "patchbay_disconnect" then
    if argc ≠ 1 then assertFailed self 0
    else if types 0 ≠ 'i' then assertFailed self 0
    else
      let i := (argAt argv 0).i
      if ¬ (i ≥ 0) then assertFailed self 0
      else engineCalled self (EngineOp.patchbayDisconnect (toU32 i))
  else if method = cstr "patchbay_refresh" then
    if argc ≠ 1 then assertFailed self 0
    else if types 0 ≠ 'i' then assertFailed self 0
    else
      let i := (argAt argv 0).i
      engineCalled self (EngineOp.patchbayRefresh false true (decide (i ≠ 0)))
  else if method = cstr "transport_play" then
    if argc ≠ 0 then assertFailed self 0
    else engineCalled self EngineOp.transportPlay
  else if method = cstr "transport_pause" then
    if argc ≠ 0 then assertFailed self 0
    else engineCalled self EngineOp.transportPause
  else if method = cstr "transport_bpm" then
    if argc ≠ 1 then assertFailed self 0
    else if types 0 ≠ 'f' then assertFailed self 0
    else
      let f := (argAt argv 0).f
      if ¬ (f.geZero = true) then assertFailed self 0
      else engineCalled self (EngineOp.transportBPM f)
  else if method = cstr "transport_relocate" then
    if argc ≠ 1 then assertFailed self 0
    else if types 0 = 'i' then
      let i := (argAt argv 0).i
      if ¬ (i ≥ 0) then assertFailed self 0
      else engineCalled self (EngineOp.transportRelocate (toU64 i))
    else if types 0 = 'h' then
      let h := (argAt argv 0).h
      if ¬ (h ≥ 0) then assertFailed self 0
      else engineCalled self (EngineOp.transportRelocate (toU64 h))
    else ⟨0, self, [Effect.diag Diag.wrongOscType]⟩
  else if method = cstr "add_plugin" then
    if argc ≠ 7 then assertFailed self 0
    else if types 0 ≠ 'i' then assertFailed self 0
    else if types 1 ≠ 'i' then assertFailed self 0
    else if types 2 ≠ 's' then assertFailed self 0
    else if types 3 ≠ 's' then assertFailed self 0
    else if types 4 ≠ 's' then assertFailed self 0
    else if types 6 ≠ 'i' then assertFailed self 0
    else
      let btype := (argAt argv 0).i
      if ¬ (btype ≥ 0) then assertFailed self 0
      else
        let ptype := (argAt argv 1).i
        if ¬ (ptype ≥ 0) then assertFailed self 0
        else
          let filename0 := (argAt argv 2).s
          let filename : Option CStr :=
            if filename0 = cstr "(null)" then none else some filename0
          let name0 := (argAt argv 3).s
          let name : Option CStr := if name0 = cstr "(null)" then none else some name0
          let label := (argAt argv 4).s
          if label = [] then assertFailed self 0
          else
            let finish (uniqueId : Int) : Outcome :=
              let options := (argAt argv 6).i
              if ¬ (options ≥ 0) then assertFailed self 0
              else engineCalled self
                (EngineOp.addPlugin btype ptype filename name label uniqueId (toU32 options))
            if types 5 = 'i' then finish (argAt argv 5).i
            else if types 5 = 'h' then finish (argAt argv 5).h
            else ⟨0, self, [Effect.diag Diag.wrongOscType]⟩
  else if method = cstr "remove_plugin" then
    if argc ≠ 1 then assertFailed self 0
    else if types 0 ≠ 'i' then assertFailed self 0
    else
      let i := (argAt argv 0).i
      if ¬ (i ≥ 0) then assertFailed self 0
      else engineCalled self (EngineOp.removePlugin (toU32 i))
  else if method = cstr "remove_all_plugins" then
    if argc ≠ 0 then assertFailed self 0
    else engineCalled self EngineOp.removeAllPlugins
  else if method = cstr "rename_plugin" then
    if argc ≠ 2 then assertFailed self 0
    else if types 0 ≠ 'i' then assertFailed self 0
    else if types 1 ≠ 's' then assertFailed self 0
    else
      let i := (argAt argv 0).i
      if ¬ (i ≥ 0) then assertFailed self 0
      else
        let s := (argAt argv 0).s
        if s = [] then assertFailed self 0
        else engineCalled self (EngineOp.renamePlugin (toU32 i) s)
  else if method = cstr "clone_plugin" then
    if argc ≠ 1 then assertFailed self 0
    else if types 0 ≠ 'i' then assertFailed self 0
    else
      let i := (argAt argv 0).i
      if ¬ (i ≥ 0) then assertFailed self 0
      else engineCalled self (EngineOp.clonePlugin (toU32 i))
  else if method = cstr "replace_plugin" then
    if argc ≠ 1 then assertFailed self 0
    else if types 0 ≠ 'i' then assertFailed self 0
    else
      let i := (argAt argv 0).i
      if ¬ (i ≥ 0) then assertFailed self 0
      else engineCalled self (EngineOp.replacePlugin (toU32 i))
  else if method = cstr "switch_plugins" then
    if argc ≠ 2 then assertFailed self 0
    else if types 0 ≠ 'i' then assertFailed self 0
    else if types 1 ≠ 'i' then assertFailed self 0
    else
      let i0 := (argAt argv 0).i
      if ¬ (i0 ≥ 0) then assertFailed self 0
      else
        let i1 := (argAt argv 0).i
        if ¬ (i1 ≥ 0) then assertFailed self 0
        else engineCalled self (EngineOp.switchPlugins (toU32 i0) (toU32 i1))
  else ⟨0, self, [Effect.diag Diag.unhandledControl]⟩

/-- The character `path[i]`: `none` when `i` lies after the terminator. -/
def pathAt (path : CStr) (i : Nat) : Option Char :=
  if h : i < path.length then some (path.get ⟨i, h⟩)
  else if i = path.length then some NUL
  else none

/-- Function `std::isdigit` on a path character. -/
def isdigit (c : Char) : Bool := decide (48 ≤ c.toNat ∧ c.toNat ≤ 57)

/-- The value `uint(c - '0')` of a digit character. -/
def digitValue (c : Char) : Nat := c.toNat - 48

/-- Result of the plugin id decoding of `handleMessage`. -/
inductive Decoded
  /-- A probed position lies after the terminator of the path. -/
  | readPastEnd
  /-- The branch "invalid message". -/
  | invalid
  /-- The branch "invalid plugin id, over 999?". -/
  | over999
  /-- The values of `pluginId` and `offset` after the decoding. -/
  | ok (pluginId offset : Nat)
deriving DecidableEq, Repr

/-- The block "Get plugin id from path" of `handleMessage`: the probes of
`path[nameSize+2]`, `path[nameSize+3]`, `path[nameSize+5]`, `path[nameSize+4]`,
in that order. -/
def decodePluginId (path : CStr) (nameSize : Nat) : Decoded :=
  match pathAt path (nameSize + 2) with
  | none => Decoded.readPastEnd
  | some c2 =>
    if isdigit c2 then
      match pathAt path (nameSize + 3) with
      | none => Decoded.readPastEnd
      | some c3 =>
        if isdigit c3 then
          match pathAt path (nameSize + 5) with
          | none => Decoded.readPastEnd
          | some c5 =>
            if isdigit c5 then Decoded.over999
            else
              match pathAt path (nameSize + 4) with
              | none => Decoded.readPastEnd
              | some c4 =>
                if isdigit c4 then
                  Decoded.ok (digitValue c2 * 100 + digitValue c3 * 10 + digitValue c4) 6
                else
                  Decoded.ok (digitValue c2 * 10 + digitValue c3) 5
        else Decoded.ok (digitValue c2) 4
    else Decoded.invalid

/-- The chain "Internal methods" of `handleMessage` down to the call of the plugin's
own `handleOscMessage`. -/
def dispatchMethod (env : Env) (self : CarlaEngineOsc) (plugin : CarlaPlugin)
    (method : CStr) (argv : List OscArg) : Outcome :=
  if method = cstr "set_option" then ⟨0, self, []⟩
  else if method = cstr "set_active" then handleMsgSetActive self plugin argv
  else if method = cstr "set_drywet" then handleMsgSetDryWet self plugin argv
  else if method = cstr "set_volume" then handleMsgSetVolume self plugin argv
  else if method = cstr "set_balance_left" then handleMsgSetBalanceLeft self plugin argv
  else if method = cstr "set_balance_right" then handleMsgSetBalanceRight self plugin argv
  else if method = cstr "set_panning" then handleMsgSetPanning self plugin argv
  else if method = cstr "set_ctrl_channel" then ⟨0, self, []⟩
  else if method = cstr "set_parameter_value" then
    handleMsgSetParameterValue self plugin argv
  else if method = cstr "set_parameter_midi_cc" then
    handleMsgSetParameterMidiCC env self plugin argv
  else if method = cstr "set_parameter_midi_channel" then
    handleMsgSetParameterMidiChannel env self plugin argv
  else if method = cstr "set_program" then handleMsgSetProgram self plugin argv
  else if method = cstr "set_midi_program" then handleMsgSetMidiProgram self plugin argv
  else if method = cstr "set_custom_data" then ⟨0, self, []⟩
  else if method = cstr "set_chunk" then ⟨0, self, []⟩
  else if method = cstr "note_on" then handleMsgNoteOn env self plugin argv
  else if method = cstr "note_off" then handleMsgNoteOff env self plugin argv
  else
    ⟨0, self, [Effect.plugin plugin
      (PluginOp.handleOscMessage method argv.length argv (typesOf argv))]⟩

/-- The part of `handleMessage` from the range check of the decoded `pluginId`
to the end; `start` is `nameSize + offset`.  `none`: the method copy would start
after the terminator of the path. -/
def handlePluginId (env : Env) (self : CarlaEngineOsc) (engine : CarlaEngine)
    (path : CStr) (start : Nat) (pluginId : Nat) (argv : List OscArg) : Option Outcome :=
  if pluginId > engine.curPluginCount then
    some ⟨0, self, [Effect.diag Diag.wrongId]⟩
  else
    match engine.plugins pluginId with
    | none => some ⟨0, self, [Effect.getPlugin pluginId, Effect.diag Diag.pluginRemoved]⟩
    | some plugin =>
      if plugin.id ≠ pluginId then
        some ⟨0, self, [Effect.getPlugin pluginId, Effect.diag Diag.pluginRemoved]⟩
      else if start > path.length then none
      else
        let method := (path.drop start).take 32
        if method = [] then
          some ⟨0, self, [Effect.getPlugin pluginId, Effect.diag Diag.withoutMethod]⟩
        else
          let out := dispatchMethod env self plugin method argv
          some { out with effects := Effect.getPlugin pluginId :: out.effects }

/-- Source: `CarlaEngineOsc::handleMessage`.  `none`: the call reads the path after
its terminator. -/
def handleMessage (env : Env) (self : CarlaEngineOsc) (engine : CarlaEngine)
    (isTCP : Bool) (path : CStr) (argv : List OscArg) : Option Outcome :=
  if self.fName = [] then some (assertFailed self 1)
  else if path = [] then some (assertFailed self 1)
  else if isTCP = true ∧ self.fServerPathTCP = [] then some (assertFailed self 1)
  else if isTCP = true ∧ self.fServerTCP = false then some (assertFailed self 1)
  else if isTCP = false ∧ self.fServerPathUDP = [] then some (assertFailed self 1)
  else if isTCP = false ∧ self.fServerUDP = false then some (assertFailed self 1)
  else if path = cstr "/register" then some (handleMsgRegister env self engine isTCP argv)
  else if path = cstr "/unregister" then some (handleMsgUnregister self isTCP argv)
  else if path.take 6 = cstr "/ctrl/" then
    if isTCP = false then some (assertFailed self 1)
    else some (handleMsgControl self (path.drop 6) argv)
  else
    let nameSize := self.fName.length
    if path.length ≤ nameSize ∨ (path.drop 1).take nameSize ≠ self.fName then
      some ⟨1, self, [Effect.diag Diag.notForThisClient]⟩
    else
      match decodePluginId path nameSize with
      | Decoded.readPastEnd => none
      | Decoded.over999 => some ⟨1, self, [Effect.diag Diag.idOver999]⟩
      | Decoded.invalid => some ⟨1, self, [Effect.diag Diag.invalidMessage]⟩
      | Decoded.ok pluginId offset =>
        handlePluginId env self engine path (nameSize + offset) pluginId argv


/-! ## Reading a run: calls, routing predicates, sample inputs -/

/-- The plugin calls among the effects, in order. -/
def pluginCalls (es : List Effect) : List (CarlaPlugin × PluginOp) :=
  es.filterMap fun e => match e with
    | Effect.plugin p op => some (p, op)
    | _ => none

/-- The engine calls among the effects, in order. -/
def engineCalls (es : List Effect) : List EngineOp :=
  es.filterMap fun e => match e with
    | Effect.engine op => some op
    | _ => none

/-- The diagnostics among the effects, in order. -/
def diagnostics (es : List Effect) : List Diag :=
  es.filterMap fun e => match e with
    | Effect.diag d => some d
    | _ => none

/-- The indices looked up with `getPluginUnchecked`, in order. -/
def lookups (es : List Effect) : List Nat :=
  es.filterMap fun e => match e with
    | Effect.getPlugin i => some i
    | _ => none

/-- What every plugin handler leaves behind: the dispatcher untouched, and either
nothing, one diagnostic of the validation kind, or one call on the plugin it was
given (and then the result 0). -/
def HandlerShape (self : CarlaEngineOsc) (plugin : CarlaPlugin) (out : Outcome) : Prop :=
  out.self = self ∧
  ((out.effects = [] ∧ out.ret = 0) ∨
   (∃ d, out.effects = [Effect.diag d] ∧
      (d = Diag.safeAssert ∨ d = Diag.argcMismatch ∨ d = Diag.typesMismatch)) ∨
   (∃ op, out.effects = [Effect.plugin plugin op] ∧ out.ret = 0))

/-- What `handleMsgControl` leaves behind: the dispatcher untouched, the result 0, and
either one diagnostic or one engine call. -/
def ControlShape (self : CarlaEngineOsc) (out : Outcome) : Prop :=
  out.self = self ∧ out.ret = 0 ∧
  ((∃ d, out.effects = [Effect.diag d]) ∨ (∃ op, out.effects = [Effect.engine op]))

/-- The defensive assertions at the top of `handleMessage` hold: the root name is set
and the server of the receiving transport is up. -/
def serverReady (self : CarlaEngineOsc) (isTCP : Bool) : Prop :=
  self.fName ≠ [] ∧
  (if isTCP = true then self.fServerPathTCP ≠ [] ∧ self.fServerTCP = true
   else self.fServerPathUDP ≠ [] ∧ self.fServerUDP = true)

instance (self : CarlaEngineOsc) (isTCP : Bool) : Decidable (serverReady self isTCP) :=
  inferInstanceAs (Decidable (self.fName ≠ [] ∧
    (if isTCP = true then self.fServerPathTCP ≠ [] ∧ self.fServerTCP = true
     else self.fServerPathUDP ≠ [] ∧ self.fServerUDP = true)))

/-- The message gets as far as the decoding of the plugin id: the assertions hold, the
path is none of `/register`, `/unregister`, `/ctrl/...`, and it passes the test
"message is for this client". -/
def reachesDecoder (self : CarlaEngineOsc) (isTCP : Bool) (path : CStr) : Prop :=
  serverReady self isTCP ∧ path ≠ [] ∧ path ≠ cstr "/register" ∧
  path ≠ cstr "/unregister" ∧ path.take 6 ≠ cstr "/ctrl/" ∧
  self.fName.length < path.length ∧ (path.drop 1).take self.fName.length = self.fName

instance (self : CarlaEngineOsc) (isTCP : Bool) (path : CStr) :
    Decidable (reachesDecoder self isTCP path) :=
  inferInstanceAs (Decidable (serverReady self isTCP ∧ path ≠ [] ∧ path ≠ cstr "/register" ∧
    path ≠ cstr "/unregister" ∧ path.take 6 ≠ cstr "/ctrl/" ∧
    self.fName.length < path.length ∧ (path.drop 1).take self.fName.length = self.fName))

/-- The message gets as far as the decoding of the plugin id, and the decoding
yields plugin id `i` and offset `off`. -/
def decodesTo (self : CarlaEngineOsc) (isTCP : Bool) (path : CStr) (i off : Nat) : Prop :=
  reachesDecoder self isTCP path ∧ decodePluginId path self.fName.length = Decoded.ok i off

instance (self : CarlaEngineOsc) (isTCP : Bool) (path : CStr) (i off : Nat) :
    Decidable (decodesTo self isTCP path i off) :=
  inferInstanceAs (Decidable (reachesDecoder self isTCP path ∧
    decodePluginId path self.fName.length = Decoded.ok i off))

/-- The part of `handleMessage` after the test "message is for this client". -/
def afterRootCheck (env : Env) (self : CarlaEngineOsc) (engine : CarlaEngine)
    (path : CStr) (argv : List OscArg) : Option Outcome :=
  match decodePluginId path self.fName.length with
  | Decoded.readPastEnd => none
  | Decoded.over999 => some ⟨1, self, [Effect.diag Diag.idOver999]⟩
  | Decoded.invalid => some ⟨1, self, [Effect.diag Diag.invalidMessage]⟩
  | Decoded.ok pluginId offset =>
    handlePluginId env self engine path (self.fName.length + offset) pluginId argv

/-- The limits of `CarlaMIDI.h` and a stand-in for liblo's url accessors. -/
def exampleEnv : Env :=
  ⟨16, 128, 128, 120, fun _ => cstr "/ctrl", fun _ => cstr "localhost", fun _ => cstr "22752"⟩

/-- A dispatcher named `Carla` with both servers up and no client registered. -/
def exampleOsc : CarlaEngineOsc :=
  ⟨cstr "Carla", cstr "osc.tcp://localhost:22752/Carla", cstr "osc.udp://localhost:22752/Carla",
    true, true, ⟨none, none, none⟩, ⟨none, none, none⟩⟩

/-- An engine that counts one plugin: slot 0 holds an object that reports id 3 (a stale
entry), and slot 1, the first slot past the count, holds an object that reports id 1. -/
def staleEngine : CarlaEngine :=
  ⟨1, fun i => if i = 0 then some ⟨100, 3, cstr "old"⟩
      else if i = 1 then some ⟨101, 1, cstr "next"⟩ else none,
    0, 0, 512, F32.zero, cstr "JACK", false⟩

/-- A dispatcher named `Carla` whose TCP transport is bound to a first client. -/
def boundOsc : CarlaEngineOsc :=
  { exampleOsc with
    fControlDataTCP := ⟨some (cstr "osc.tcp://10.0.0.1:9000/first"), some (cstr "/first"),
      some ⟨true, cstr "10.0.0.1", cstr "9000"⟩⟩ }

/-- The argument count and type string each plugin handler hands to
`CARLA_ENGINE_OSC_CHECK_OSC_TYPES`, by the method name that selects the handler. -/
def declaredSignatures : List (CStr × Nat × CStr) :=
  [(cstr "set_active", 1, cstr "i"),
   (cstr "set_drywet", 1, cstr "f"),
   (cstr "set_volume", 1, cstr "f"),
   (cstr "set_balance_left", 1, cstr "f"),
   (cstr "set_balance_right", 1, cstr "f"),
   (cstr "set_panning", 1, cstr "f"),
   (cstr "set_parameter_value", 2, cstr "if"),
   (cstr "set_parameter_midi_cc", 2, cstr "ii"),
   (cstr "set_parameter_midi_channel", 2, cstr "ii"),
   (cstr "set_program", 1, cstr "i"),
   (cstr "set_midi_program", 1, cstr "i"),
   (cstr "note_on", 3, cstr "iii"),
   (cstr "note_off", 2, cstr "ii")]

/-- An outcome with the lookup of plugin `i` put in front of its effects. -/
def afterLookup (i : Nat) (out : Outcome) : Outcome :=
  { out with effects := Effect.getPlugin i :: out.effects }

/-- The character that writes the decimal digit `d`. -/
def digitChar (d : Nat) : Char := Char.ofNat (48 + d)

/-- The number a list of decimal digits writes, most significant digit first. -/
def decimalValue (ds : List Nat) : Nat := ds.foldl (fun acc d => 10 * acc + d) 0

/-- The path `/root/digits/method` of a plugin command. -/
def pluginPath (root : CStr) (ds : List Nat) (method : CStr) : CStr :=
  '/' :: root ++ '/' :: ds.map digitChar ++ '/' :: method

/-- The method names `handleMsgControl` compares against, in source order. -/
def controlMethodNames : List CStr :=
  [cstr "clear_engine_xruns", cstr "cancel_engine_action", cstr "patchbay_connect",
   cstr "patchbay_disconnect", cstr "patchbay_refresh", cstr "transport_play",
   cstr "transport_pause", cstr "transport_bpm", cstr "transport_relocate",
   cstr "add_plugin", cstr "remove_plugin", cstr "remove_all_plugins", cstr "rename_plugin",
   cstr "clone_plugin", cstr "replace_plugin", cstr "switch_plugins"]

/-- An engine with fifty plugins, the plugin in slot `i` reporting id `i`. -/
def fiftyPlugins : CarlaEngine :=
  ⟨50, fun i => if i < 50 then some ⟨200 + i, i, cstr "plugin"⟩ else none,
    0, 0, 512, F32.zero, cstr "JACK", false⟩

/-- A dispatcher whose root name is `ctrl`, with both servers up and no client
registered. -/
def ctrlNamedOsc : CarlaEngineOsc := { exampleOsc with fName := cstr "ctrl" }

/-- The three range assertions of `handleMsgNoteOn`, on the wire values. -/
def noteOnInRange (env : Env) (channel note velo : Int) : Prop :=
  (channel ≥ 0 ∧ channel < env.MAX_MIDI_CHANNELS) ∧ (note ≥ 0 ∧ note < env.MAX_MIDI_NOTE) ∧
  (velo ≥ 0 ∧ velo < env.MAX_MIDI_VALUE)

instance (env : Env) (channel note velo : Int) : Decidable (noteOnInRange env channel note velo) :=
  inferInstanceAs (Decidable ((channel ≥ 0 ∧ channel < env.MAX_MIDI_CHANNELS) ∧
    (note ≥ 0 ∧ note < env.MAX_MIDI_NOTE) ∧ (velo ≥ 0 ∧ velo < env.MAX_MIDI_VALUE)))

/-- The values an `int32_t` can hold. -/
def isInt32 (v : Int) : Prop := -2 ^ 31 ≤ v ∧ v < 2 ^ 31

instance (v : Int) : Decidable (isInt32 v) :=
  inferInstanceAs (Decidable (-2 ^ 31 ≤ v ∧ v < 2 ^ 31))

/-- The values an `int64_t` can hold. -/
def isInt64 (v : Int) : Prop := -2 ^ 63 ≤ v ∧ v < 2 ^ 63

instance (v : Int) : Decidable (isInt64 v) :=
  inferInstanceAs (Decidable (-2 ^ 63 ≤ v ∧ v < 2 ^ 63))

/-- The 32-bit integer 3 as it lies in a message on a little-endian host, bytes
`03 00 00 00`: read as an integer it is 3, read as a string (`&arg->s`) it is the one
character with code 3. -/
def intThreeArg : OscArg := ⟨'i', 3, 3, ⟨3⟩, [Char.ofNat 3]⟩

/-- The method names the chain "Internal methods" of `handleMessage` compares against,
in source order. -/
def internalMethodNames : List CStr :=
  [cstr "set_option", cstr "set_active", cstr "set_drywet", cstr "set_volume",
   cstr "set_balance_left", cstr "set_balance_right", cstr "set_panning",
   cstr "set_ctrl_channel", cstr "set_parameter_value", cstr "set_parameter_midi_cc",
   cstr "set_parameter_midi_channel", cstr "set_program", cstr "set_midi_program",
   cstr "set_custom_data", cstr "set_chunk", cstr "note_on", cstr "note_off"]

/-- The range assertions a plugin handler makes after its type check, by the method
name that selects the handler; handlers without range assertion accept every value. -/
def rangeChecksPass (env : Env) (name : CStr) (argv : List OscArg) : Prop :=
  if name = cstr "set_parameter_value" then (argAt argv 0).i ≥ 0
  else if name = cstr "set_parameter_midi_cc" then
    (argAt argv 0).i ≥ 0 ∧ ((argAt argv 1).i ≥ -1 ∧ (argAt argv 1).i < env.MAX_MIDI_CONTROL)
  else if name = cstr "set_parameter_midi_channel" then
    (argAt argv 0).i ≥ 0 ∧ ((argAt argv 1).i ≥ 0 ∧ (argAt argv 1).i < env.MAX_MIDI_CHANNELS)
  else if name = cstr "set_program" then (argAt argv 0).i ≥ -1
  else if name = cstr "set_midi_program" then (argAt argv 0).i ≥ -1
  else if name = cstr "note_on" then
    noteOnInRange env (argAt argv 0).i (argAt argv 1).i (argAt argv 2).i
  else if name = cstr "note_off" then
    ((argAt argv 0).i ≥ 0 ∧ (argAt argv 0).i < env.MAX_MIDI_CHANNELS) ∧
    ((argAt argv 1).i ≥ 0 ∧ (argAt argv 1).i < env.MAX_MIDI_NOTE)
  else True

instance (env : Env) (name : CStr) (argv : List OscArg) :
    Decidable (rangeChecksPass env name argv) := by
  unfold rangeChecksPass
  exact inferInstance

/-- The snapshot in the words of the spec: one engine-started notification with the
engine configuration, one plugin-added notification for each loaded plugin in the
order of the indices `0, 1, ..., count - 1`, carrying the index and the plugin's name,
one graph refresh. -/
def expectedSnapshot (engine : CarlaEngine) : List EngineOp :=
  EngineOp.callback false true CallbackOpcode.ENGINE_STARTED 0 engine.processMode
      engine.transportMode (Int.ofNat engine.bufferSize) engine.sampleRate engine.driverName
  :: ((List.range engine.curPluginCount).filterMap (fun i =>
        (engine.plugins i).map (fun plugin =>
          EngineOp.callback false true CallbackOpcode.PLUGIN_ADDED i 0 0 0 F32.zero plugin.name))
      ++ [EngineOp.patchbayRefresh false true engine.usingExternal])

/-- The messages sent with `lo_send_from` among the effects, by the url they go to. -/
def sends (es : List Effect) : List CStr :=
  es.filterMap fun e => match e with
    | Effect.send url _ _ _ => some url
    | _ => none

/-- The argument count each branch of `handleMsgControl` asserts, by method name; the
branches `clear_engine_xruns` and `cancel_engine_action` assert none. -/
def controlAssertedArgc : List (CStr × Nat) :=
  [(cstr "patchbay_connect", 4), (cstr "patchbay_disconnect", 1),
   (cstr "patchbay_refresh", 1), (cstr "transport_play", 0), (cstr "transport_pause", 0),
   (cstr "transport_bpm", 1), (cstr "transport_relocate", 1), (cstr "add_plugin", 7),
   (cstr "remove_plugin", 1), (cstr "remove_all_plugins", 0), (cstr "rename_plugin", 2),
   (cstr "clone_plugin", 1), (cstr "replace_plugin", 1), (cstr "switch_plugins", 2)]

/-- The plugin commands the chain "Internal methods" answers with `return 0` alone. -/
def unimplementedMethodNames : List CStr :=
  [cstr "set_option", cstr "set_ctrl_channel", cstr "set_custom_data", cstr "set_chunk"]

/-- A dispatcher named `Carla` whose UDP transport is bound and whose TCP transport is
not. -/
def udpBoundOsc : CarlaEngineOsc :=
  { exampleOsc with
    fControlDataUDP := ⟨some (cstr "osc.udp://10.0.0.1:9000/first"), some (cstr "/first"),
      some ⟨false, cstr "10.0.0.1", cstr "9000"⟩⟩ }

/-- Echo suppression on one plugin call: a mutator is called with its send-over-OSC
flag false and its callback flag true; the plugin's own `handleOscMessage` takes no
such flags. -/
def PluginOp.echoSuppressed : PluginOp → Prop
  | PluginOp.setActive _ sendOsc sendCallback => sendOsc = false ∧ sendCallback = true
  | PluginOp.setDryWet _ sendOsc sendCallback => sendOsc = false ∧ sendCallback = true
  | PluginOp.setVolume _ sendOsc sendCallback => sendOsc = false ∧ sendCallback = true
  | PluginOp.setBalanceLeft _ sendOsc sendCallback => sendOsc = false ∧ sendCallback = true
  | PluginOp.setBalanceRight _ sendOsc sendCallback => sendOsc = false ∧ sendCallback = true
  | PluginOp.setPanning _ sendOsc sendCallback => sendOsc = false ∧ sendCallback = true
  | PluginOp.setParameterValue _ _ _ sendOsc sendCallback =>
    sendOsc = false ∧ sendCallback = true
  | PluginOp.setParameterMidiCC _ _ sendOsc sendCallback =>
    sendOsc = false ∧ sendCallback = true
  | PluginOp.setParameterMidiChannel _ _ sendOsc sendCallback =>
    sendOsc = false ∧ sendCallback = true
  | PluginOp.setProgram _ _ sendOsc sendCallback => sendOsc = false ∧ sendCallback = true
  | PluginOp.setMidiProgram _ _ sendOsc sendCallback => sendOsc = false ∧ sendCallback = true
  | PluginOp.sendMidiSingleNote _ _ _ _ sendOsc sendCallback =>
    sendOsc = false ∧ sendCallback = true
  | PluginOp.handleOscMessage _ _ _ _ => True

/-- Every plugin call of an outcome is echo-suppressed. -/
def EchoShape (out : Outcome) : Prop :=
  ∀ p op, Effect.plugin p op ∈ out.effects → op.echoSuppressed

/-- The MIDI limits fit the types the handlers convert to: channel, note and value
limits fit `uint8_t`, the controller limit fits `int16_t`. -/
def limitsFit (env : Env) : Prop :=
  env.MAX_MIDI_CHANNELS ≤ 256 ∧ env.MAX_MIDI_NOTE ≤ 256 ∧ env.MAX_MIDI_VALUE ≤ 256 ∧
  env.MAX_MIDI_CONTROL ≤ 32768

instance (env : Env) : Decidable (limitsFit env) :=
  inferInstanceAs (Decidable (env.MAX_MIDI_CHANNELS ≤ 256 ∧ env.MAX_MIDI_NOTE ≤ 256 ∧
    env.MAX_MIDI_VALUE ≤ 256 ∧ env.MAX_MIDI_CONTROL ≤ 32768))

/-- The integer views of every argument hold values of their wire types. -/
def wireArgs (argv : List OscArg) : Prop := ∀ a ∈ argv, isInt32 a.i ∧ isInt64 a.h

instance (argv : List OscArg) : Decidable (wireArgs argv) :=
  inferInstanceAs (Decidable (∀ a ∈ argv, isInt32 a.i ∧ isInt64 a.h))

/-- An effect hands on the wire values unchanged: each converted number a call
receives (unsigned 32-bit index, id or options, unsigned 8-bit channel, note or
velocity, signed 16-bit controller number, unsigned 64-bit frame) equals the number
in the argument it was read from.  The second index of `switchPlugins` is read from
argument 0 by the code, and `note_off` passes the literal velocity 0. -/
def wireFaithful (argv : List OscArg) (e : Effect) : Prop :=
  match e with
  | Effect.engine op =>
    match op with
    | EngineOp.patchbayConnect a b c d =>
      Int.ofNat a = (argAt argv 0).i ∧ Int.ofNat b = (argAt argv 1).i ∧
      Int.ofNat c = (argAt argv 2).i ∧ Int.ofNat d = (argAt argv 3).i
    | EngineOp.patchbayDisconnect id => Int.ofNat id = (argAt argv 0).i
    | EngineOp.transportRelocate frame =>
      ((argAt argv 0).tag = 'i' → Int.ofNat frame = (argAt argv 0).i) ∧
      ((argAt argv 0).tag ≠ 'i' → Int.ofNat frame = (argAt argv 0).h)
    | EngineOp.addPlugin _ _ _ _ _ _ options => Int.ofNat options = (argAt argv 6).i
    | EngineOp.removePlugin id => Int.ofNat id = (argAt argv 0).i
    | EngineOp.renamePlugin id _ => Int.ofNat id = (argAt argv 0).i
    | EngineOp.clonePlugin id => Int.ofNat id = (argAt argv 0).i
    | EngineOp.replacePlugin id => Int.ofNat id = (argAt argv 0).i
    | EngineOp.switchPlugins a b =>
      Int.ofNat a = (argAt argv 0).i ∧ Int.ofNat b = (argAt argv 0).i
    | _ => True
  | Effect.plugin _ op =>
    match op with
    | PluginOp.setParameterValue id _ _ _ _ => Int.ofNat id = (argAt argv 0).i
    | PluginOp.setParameterMidiCC id cc _ _ =>
      Int.ofNat id = (argAt argv 0).i ∧ cc = (argAt argv 1).i
    | PluginOp.setParameterMidiChannel id channel _ _ =>
      Int.ofNat id = (argAt argv 0).i ∧ Int.ofNat channel = (argAt argv 1).i
    | PluginOp.sendMidiSingleNote channel note velo _ _ _ =>
      Int.ofNat channel = (argAt argv 0).i ∧ Int.ofNat note = (argAt argv 1).i ∧
      (Int.ofNat velo = (argAt argv 2).i ∨ (argv.length = 2 ∧ velo = 0))
    | _ => True
  | _ => True

/-- Every effect of an outcome hands on the wire values unchanged. -/
def WireShape (argv : List OscArg) (out : Outcome) : Prop :=
  ∀ e ∈ out.effects, wireFaithful argv e

/-! ## The image cache: `ImageCache::Pimpl` of `juce_ImageCache.cpp` -/

/-- Source: `ImageCache::Pimpl::Item`.  Of the member `image` the entry keeps the value
`image.getReferenceCount()` gives; `lastUseTime` is a `uint32`. -/
structure Item where
  /-- The value of `image.getReferenceCount()`. -/
  refCount : Int
  /-- The member `hashCode`. -/
  hashCode : Int
  /-- The member `lastUseTime`, a number below `2 ^ 32`. -/
  lastUseTime : Nat
deriving DecidableEq, Repr

/-- The members of `ImageCache::Pimpl` the sweep reads or writes: the array `images`,
`cacheTimeout` (an `unsigned int`), and whether the timer runs. -/
structure Pimpl where
  /-- The member `images`. -/
  images : List Item
  /-- The member `cacheTimeout`. -/
  cacheTimeout : Nat
  /-- The value of `isTimerRunning()`. -/
  timerRunning : Bool
deriving DecidableEq, Repr

/-- The test `now > item.lastUseTime + cacheTimeout || now < item.lastUseTime - 1000` of
`timerCallback`: the sum and the difference are taken in unsigned 32-bit arithmetic. -/
def removalTest (now cacheTimeout lastUseTime : Nat) : Bool :=
  decide (now > (lastUseTime + cacheTimeout) % 2 ^ 32) ||
  decide (now < (lastUseTime + 2 ^ 32 - 1000) % 2 ^ 32)

/-- The loop `for (int i = images.size(); --i >= 0;)` of `timerCallback`.  The counter
is the value of `i` before the decrement, so the round run at `i + 1` handles the
entry at index `i`. -/
def timerLoop (now cacheTimeout : Nat) : Nat → List Item → List Item
  | 0, images => images
  | i + 1, images =>
    match images.get? i with
    | none => timerLoop now cacheTimeout i images
    | some item =>
      if item.refCount ≤ 1 then
        if removalTest now cacheTimeout item.lastUseTime = true then
          timerLoop now cacheTimeout i (images.eraseIdx i)
        else timerLoop now cacheTimeout i images
      else timerLoop now cacheTimeout i (images.set i { item with lastUseTime := now })

/-- Source: `ImageCache::Pimpl::timerCallback`; `now` is the value read from
`Time::getApproximateMillisecondCounter()`. -/
def Pimpl.timerCallback (self : Pimpl) (now : Nat) : Pimpl :=
  let images := timerLoop now self.cacheTimeout self.images.length self.images
  { self with
    images := images
    timerRunning := if images.isEmpty = true then false else self.timerRunning }

/-- What one round of the sweep leaves of an entry: nothing if it is removed, the
entry with its last-use time renewed if it has other references, else the entry. -/
def sweepItem (now cacheTimeout : Nat) (item : Item) : Option Item :=
  if item.refCount ≤ 1 then
    if removalTest now cacheTimeout item.lastUseTime = true then none else some item
  else some { item with lastUseTime := now }

/-- A cache with the default timeout holding one entry that only the cache references,
last used 100 ms before the counter wraps. -/
def lateCache : Pimpl := ⟨[⟨1, 11, 4294967196⟩], 5000, true⟩

/-- A cache with the default timeout holding one entry that only the cache references,
last used when the counter stood at 500 ms. -/
def earlyCache : Pimpl := ⟨[⟨1, 11, 500⟩], 5000, true⟩

/-! ## Theorems -/

theorem shape_ite {self : CarlaEngineOsc} {plugin : CarlaPlugin} {c : Prop} [Decidable c]
    {a b : Outcome} (ha : HandlerShape self plugin a) (hb : HandlerShape self plugin b) :
    HandlerShape self plugin (if c then a else b) := by
  split <;> assumption

theorem shape_dropped (self : CarlaEngineOsc) (plugin : CarlaPlugin) (argv : List OscArg)
    (n : Nat) (sig : CStr) (d : Diag) (h : checkOscTypes argv n sig = some d) :
    HandlerShape self plugin (dropped self d) := by
  refine ⟨rfl, Or.inr (Or.inl ⟨d, rfl, ?_⟩)⟩
  unfold checkOscTypes at h
  split_ifs at h <;> simp at h <;> simp [← h]

theorem shape_assertFailed (self : CarlaEngineOsc) (plugin : CarlaPlugin) (r : Int) :
    HandlerShape self plugin (assertFailed self r) :=
  ⟨rfl, Or.inr (Or.inl ⟨Diag.safeAssert, rfl, Or.inl rfl⟩)⟩

theorem shape_called (self : CarlaEngineOsc) (plugin : CarlaPlugin) (op : PluginOp) :
    HandlerShape self plugin (called self plugin op) :=
  ⟨rfl, Or.inr (Or.inr ⟨op, rfl, rfl⟩)⟩

theorem shape_SetActive (self : CarlaEngineOsc) (plugin : CarlaPlugin)
    (argv : List OscArg) : HandlerShape self plugin (handleMsgSetActive self plugin argv) := by
  unfold handleMsgSetActive
  split
  · next d h => exact shape_dropped self plugin argv _ _ d h
  · exact shape_called _ _ _

theorem shape_SetDryWet (self : CarlaEngineOsc) (plugin : CarlaPlugin)
    (argv : List OscArg) : HandlerShape self plugin (handleMsgSetDryWet self plugin argv) := by
  unfold handleMsgSetDryWet
  split
  · next d h => exact shape_dropped self plugin argv _ _ d h
  · exact shape_called _ _ _

theorem shape_SetVolume (self : CarlaEngineOsc) (plugin : CarlaPlugin)
    (argv : List OscArg) : HandlerShape self plugin (handleMsgSetVolume self plugin argv) := by
  unfold handleMsgSetVolume
  split
  · next d h => exact shape_dropped self plugin argv _ _ d h
  · exact shape_called _ _ _

theorem shape_SetBalanceLeft (self : CarlaEngineOsc) (plugin : CarlaPlugin)
    (argv : List OscArg) : HandlerShape self plugin (handleMsgSetBalanceLeft self plugin argv) := by
  unfold handleMsgSetBalanceLeft
  split
  · next d h => exact shape_dropped self plugin argv _ _ d h
  · exact shape_called _ _ _

theorem shape_SetBalanceRight (self : CarlaEngineOsc) (plugin : CarlaPlugin)
    (argv : List OscArg) : HandlerShape self plugin (handleMsgSetBalanceRight self plugin argv) := by
  unfold handleMsgSetBalanceRight
  split
  · next d h => exact shape_dropped self plugin argv _ _ d h
  · exact shape_called _ _ _

theorem shape_SetPanning (self : CarlaEngineOsc) (plugin : CarlaPlugin)
    (argv : List OscArg) : HandlerShape self plugin (handleMsgSetPanning self plugin argv) := by
  unfold handleMsgSetPanning
  split
  · next d h => exact shape_dropped self plugin argv _ _ d h
  · exact shape_called _ _ _

theorem shape_SetParameterValue (self : CarlaEngineOsc) (plugin : CarlaPlugin)
    (argv : List OscArg) : HandlerShape self plugin (handleMsgSetParameterValue self plugin argv) := by
  unfold handleMsgSetParameterValue
  split
  · next d h => exact shape_dropped self plugin argv _ _ d h
  · dsimp only
    repeat' apply shape_ite
    all_goals first | exact shape_called _ _ _ | exact shape_assertFailed _ _ _

theorem shape_SetProgram (self : CarlaEngineOsc) (plugin : CarlaPlugin)
    (argv : List OscArg) : HandlerShape self plugin (handleMsgSetProgram self plugin argv) := by
  unfold handleMsgSetProgram
  split
  · next d h => exact shape_dropped self plugin argv _ _ d h
  · dsimp only
    repeat' apply shape_ite
    all_goals first | exact shape_called _ _ _ | exact shape_assertFailed _ _ _

theorem shape_SetMidiProgram (self : CarlaEngineOsc) (plugin : CarlaPlugin)
    (argv : List OscArg) : HandlerShape self plugin (handleMsgSetMidiProgram self plugin argv) := by
  unfold handleMsgSetMidiProgram
  split
  · next d h => exact shape_dropped self plugin argv _ _ d h
  · dsimp only
    repeat' apply shape_ite
    all_goals first | exact shape_called _ _ _ | exact shape_assertFailed _ _ _

theorem shape_SetParameterMidiCC (env : Env) (self : CarlaEngineOsc) (plugin : CarlaPlugin)
    (argv : List OscArg) : HandlerShape self plugin (handleMsgSetParameterMidiCC env self plugin argv) := by
  unfold handleMsgSetParameterMidiCC
  split
  · next d h => exact shape_dropped self plugin argv _ _ d h
  · dsimp only
    repeat' apply shape_ite
    all_goals first | exact shape_called _ _ _ | exact shape_assertFailed _ _ _

theorem shape_SetParameterMidiChannel (env : Env) (self : CarlaEngineOsc) (plugin : CarlaPlugin)
    (argv : List OscArg) : HandlerShape self plugin (handleMsgSetParameterMidiChannel env self plugin argv) := by
  unfold handleMsgSetParameterMidiChannel
  split
  · next d h => exact shape_dropped self plugin argv _ _ d h
  · dsimp only
    repeat' apply shape_ite
    all_goals first | exact shape_called _ _ _ | exact shape_assertFailed _ _ _

theorem shape_NoteOn (env : Env) (self : CarlaEngineOsc) (plugin : CarlaPlugin)
    (argv : List OscArg) : HandlerShape self plugin (handleMsgNoteOn env self plugin argv) := by
  unfold handleMsgNoteOn
  split
  · next d h => exact shape_dropped self plugin argv _ _ d h
  · dsimp only
    repeat' apply shape_ite
    all_goals first | exact shape_called _ _ _ | exact shape_assertFailed _ _ _

theorem shape_NoteOff (env : Env) (self : CarlaEngineOsc) (plugin : CarlaPlugin)
    (argv : List OscArg) : HandlerShape self plugin (handleMsgNoteOff env self plugin argv) := by
  unfold handleMsgNoteOff
  split
  · next d h => exact shape_dropped self plugin argv _ _ d h
  · dsimp only
    repeat' apply shape_ite
    all_goals first | exact shape_called _ _ _ | exact shape_assertFailed _ _ _

/-- Every branch of the method chain has the shape of a plugin handler. -/
theorem shape_dispatchMethod (env : Env) (self : CarlaEngineOsc) (plugin : CarlaPlugin)
    (method : CStr) (argv : List OscArg) :
    HandlerShape self plugin (dispatchMethod env self plugin method argv) := by
  unfold dispatchMethod
  repeat' apply shape_ite
  all_goals first
    | exact ⟨rfl, Or.inl ⟨rfl, rfl⟩⟩
    | exact ⟨rfl, Or.inr (Or.inr ⟨_, rfl, rfl⟩)⟩
    | exact shape_SetActive self plugin argv
    | exact shape_SetDryWet self plugin argv
    | exact shape_SetVolume self plugin argv
    | exact shape_SetBalanceLeft self plugin argv
    | exact shape_SetBalanceRight self plugin argv
    | exact shape_SetPanning self plugin argv
    | exact shape_SetParameterValue self plugin argv
    | exact shape_SetProgram self plugin argv
    | exact shape_SetMidiProgram self plugin argv
    | exact shape_SetParameterMidiCC env self plugin argv
    | exact shape_SetParameterMidiChannel env self plugin argv
    | exact shape_NoteOn env self plugin argv
    | exact shape_NoteOff env self plugin argv

theorem control_ite {self : CarlaEngineOsc} {c : Prop} [Decidable c] {a b : Outcome}
    (ha : ControlShape self a) (hb : ControlShape self b) :
    ControlShape self (if c then a else b) := by
  split <;> assumption

/-- Every branch of `handleMsgControl` ends in one diagnostic or one engine call. -/
theorem shape_handleMsgControl (self : CarlaEngineOsc) (method : CStr) (argv : List OscArg) :
    ControlShape self (handleMsgControl self method argv) := by
  unfold handleMsgControl
  dsimp only
  repeat' apply control_ite
  all_goals first
    | exact ⟨rfl, rfl, Or.inl ⟨_, rfl⟩⟩
    | exact ⟨rfl, rfl, Or.inr ⟨_, rfl⟩⟩

theorem serverReady_asserts {self : CarlaEngineOsc} {isTCP : Bool}
    (h : serverReady self isTCP) :
    self.fName ≠ [] ∧ ¬ (isTCP = true ∧ self.fServerPathTCP = []) ∧
    ¬ (isTCP = true ∧ self.fServerTCP = false) ∧
    ¬ (isTCP = false ∧ self.fServerPathUDP = []) ∧
    ¬ (isTCP = false ∧ self.fServerUDP = false) := by
  obtain ⟨h1, h2⟩ := h
  cases isTCP <;> simp_all

/-- A message that reaches the decoder is handled by the decoder and what follows. -/
theorem handleMessage_of_reachesDecoder (env : Env) (self : CarlaEngineOsc)
    (engine : CarlaEngine) (isTCP : Bool) (path : CStr) (argv : List OscArg)
    (h : reachesDecoder self isTCP path) :
    handleMessage env self engine isTCP path argv = afterRootCheck env self engine path argv := by
  obtain ⟨hr, h0, h1, h2, h3, h4, h5⟩ := h
  obtain ⟨a1, a2, a3, a4, a5⟩ := serverReady_asserts hr
  have h6 : ¬ (path.length ≤ self.fName.length ∨
      (path.drop 1).take self.fName.length ≠ self.fName) := by
    rintro (h | h)
    · omega
    · exact h h5
  unfold handleMessage afterRootCheck
  rw [if_neg a1, if_neg h0, if_neg a2, if_neg a3, if_neg a4, if_neg a5, if_neg h1, if_neg h2,
    if_neg h3]
  dsimp only
  rw [if_neg h6]

/-- A message that decodes to `i` is handled by the range check and what follows. -/
theorem handleMessage_of_decodesTo (env : Env) (self : CarlaEngineOsc)
    (engine : CarlaEngine) (isTCP : Bool) (path : CStr) (argv : List OscArg) (i off : Nat)
    (h : decodesTo self isTCP path i off) :
    handleMessage env self engine isTCP path argv =
      handlePluginId env self engine path (self.fName.length + off) i argv := by
  rw [handleMessage_of_reachesDecoder env self engine isTCP path argv h.1]
  unfold afterRootCheck
  rw [h.2]

theorem mem_pluginCalls {es : List Effect} {p : CarlaPlugin} {op : PluginOp} :
    (p, op) ∈ pluginCalls es ↔ Effect.plugin p op ∈ es := by
  unfold pluginCalls
  rw [List.mem_filterMap]
  constructor
  · rintro ⟨e, he, h⟩
    cases e <;> simp at h
    obtain ⟨rfl, rfl⟩ := h
    exact he
  · intro h
    exact ⟨_, h, rfl⟩

theorem pluginCalls_append (a b : List Effect) :
    pluginCalls (a ++ b) = pluginCalls a ++ pluginCalls b := by
  unfold pluginCalls
  exact List.filterMap_append _ _ _

theorem pluginCalls_registerPluginLoop (engine : CarlaEngine) (n i : Nat) :
    pluginCalls (registerPluginLoop engine i n) = [] := by
  induction n generalizing i with
  | zero => rfl
  | succ n ih =>
    unfold registerPluginLoop
    rw [pluginCalls_append, ih (i + 1), List.append_nil]
    cases engine.plugins i <;> rfl

theorem pluginCalls_registerSnapshot (engine : CarlaEngine) :
    pluginCalls (registerSnapshot engine) = [] := by
  unfold registerSnapshot
  rw [← List.singleton_append, pluginCalls_append, pluginCalls_append,
    pluginCalls_registerPluginLoop]
  rfl

theorem pluginCalls_handleMsgRegister (env : Env) (self : CarlaEngineOsc)
    (engine : CarlaEngine) (isTCP : Bool) (argv : List OscArg) :
    pluginCalls (handleMsgRegister env self engine isTCP argv).effects = [] := by
  unfold handleMsgRegister
  split
  · rfl
  · dsimp only
    split
    · rfl
    · cases isTCP
      · rfl
      · rw [if_pos rfl, ← List.singleton_append, pluginCalls_append,
          pluginCalls_registerSnapshot]
        rfl

theorem pluginCalls_handleMsgUnregister (self : CarlaEngineOsc) (isTCP : Bool)
    (argv : List OscArg) :
    pluginCalls (handleMsgUnregister self isTCP argv).effects = [] := by
  unfold handleMsgUnregister
  split
  · rfl
  · dsimp only
    split
    · rfl
    · split <;> rfl

theorem pluginCalls_handleMsgControl (self : CarlaEngineOsc) (method : CStr)
    (argv : List OscArg) :
    pluginCalls (handleMsgControl self method argv).effects = [] := by
  obtain ⟨_, _, ⟨d, h⟩ | ⟨op, h⟩⟩ := shape_handleMsgControl self method argv <;>
    rw [h] <;> rfl

/-- A message that does not reach the decoder makes no plugin call. -/
theorem pluginCalls_nil_of_not_reachesDecoder (env : Env) (self : CarlaEngineOsc)
    (engine : CarlaEngine) (isTCP : Bool) (path : CStr) (argv : List OscArg)
    (out : Outcome) (hn : ¬ reachesDecoder self isTCP path)
    (h : handleMessage env self engine isTCP path argv = some out) :
    pluginCalls out.effects = [] := by
  unfold handleMessage at h
  by_cases c1 : self.fName = []
  · rw [if_pos c1] at h; cases h; rfl
  rw [if_neg c1] at h
  by_cases c2 : path = []
  · rw [if_pos c2] at h; cases h; rfl
  rw [if_neg c2] at h
  by_cases c3 : isTCP = true ∧ self.fServerPathTCP = []
  · rw [if_pos c3] at h; cases h; rfl
  rw [if_neg c3] at h
  by_cases c4 : isTCP = true ∧ self.fServerTCP = false
  · rw [if_pos c4] at h; cases h; rfl
  rw [if_neg c4] at h
  by_cases c5 : isTCP = false ∧ self.fServerPathUDP = []
  · rw [if_pos c5] at h; cases h; rfl
  rw [if_neg c5] at h
  by_cases c6 : isTCP = false ∧ self.fServerUDP = false
  · rw [if_pos c6] at h; cases h; rfl
  rw [if_neg c6] at h
  by_cases c7 : path = cstr "/register"
  · rw [if_pos c7] at h; cases h; exact pluginCalls_handleMsgRegister _ _ _ _ _
  rw [if_neg c7] at h
  by_cases c8 : path = cstr "/unregister"
  · rw [if_pos c8] at h; cases h; exact pluginCalls_handleMsgUnregister _ _ _
  rw [if_neg c8] at h
  by_cases c9 : path.take 6 = cstr "/ctrl/"
  · rw [if_pos c9] at h
    by_cases c : isTCP = false
    · rw [if_pos c] at h; cases h; rfl
    · rw [if_neg c] at h; cases h; exact pluginCalls_handleMsgControl _ _ _
  rw [if_neg c9] at h
  dsimp only at h
  by_cases c10 : path.length ≤ self.fName.length ∨
      (path.drop 1).take self.fName.length ≠ self.fName
  · rw [if_pos c10] at h; cases h; rfl
  exfalso
  apply hn
  refine ⟨⟨c1, ?_⟩, c2, c7, c8, c9, ?_, ?_⟩
  · cases isTCP <;> simp_all
  · by_contra hlt
    exact c10 (Or.inl (by omega))
  · by_contra hne
    exact c10 (Or.inr hne)

theorem handlePluginId_plugin_mem (env : Env) (self : CarlaEngineOsc) (engine : CarlaEngine)
    (path : CStr) (start i : Nat) (argv : List OscArg) (out : Outcome) (p : CarlaPlugin)
    (op : PluginOp) (h : handlePluginId env self engine path start i argv = some out)
    (hm : Effect.plugin p op ∈ out.effects) :
    engine.plugins i = some p ∧ p.id = i := by
  unfold handlePluginId at h
  split at h
  · cases h; simp at hm
  · split at h
    · cases h; simp at hm
    · next plugin hp =>
      dsimp only at h
      split_ifs at h with c1 c2 c3
      · cases h; simp at hm
      · cases h; simp at hm
      · simp only [Option.some.injEq] at h
        subst h
        have hs := shape_dispatchMethod env self plugin ((path.drop start).take 32) argv
        simp only [List.mem_cons, reduceCtorEq, false_or] at hm
        obtain ⟨_, ⟨h1, _⟩ | ⟨d, h1, _⟩ | ⟨op', h1, _⟩⟩ := hs
        · rw [h1] at hm; simp at hm
        · rw [h1] at hm; simp at hm
        · rw [h1] at hm
          simp only [List.mem_singleton, Effect.plugin.injEq] at hm
          rw [hm.1, hp]
          exact ⟨rfl, not_not.mp c1⟩

theorem handlePluginId_unresolved (env : Env) (self : CarlaEngineOsc) (engine : CarlaEngine)
    (path : CStr) (start i : Nat) (argv : List OscArg)
    (hu : ∀ p, engine.plugins i = some p → p.id ≠ i) :
    ∃ d, handlePluginId env self engine path start i argv = some ⟨0, self, d⟩ ∧
      (d = [Effect.diag Diag.wrongId] ∨
       d = [Effect.getPlugin i, Effect.diag Diag.pluginRemoved]) := by
  unfold handlePluginId
  split
  · exact ⟨_, rfl, Or.inl rfl⟩
  · split
    · exact ⟨_, rfl, Or.inr rfl⟩
    · next plugin hp =>
      rw [if_pos (hu plugin hp)]
      exact ⟨_, rfl, Or.inr rfl⟩

/-- C1: a plugin call made by `handleMessage` is made on the plugin the engine returns
for the decoded index, and only if that plugin reports the decoded index as its id;
when the lookup gives nothing or a plugin with another id, the message makes no plugin
call and the result is 0. -/
theorem handleMessage_acts_only_on_resolved_plugin (env : Env) (self : CarlaEngineOsc)
    (engine : CarlaEngine) (isTCP : Bool) (path : CStr) (argv : List OscArg) :
    (∀ out p op, handleMessage env self engine isTCP path argv = some out →
        Effect.plugin p op ∈ out.effects →
        ∃ i off, decodesTo self isTCP path i off ∧ engine.plugins i = some p ∧ p.id = i) ∧
    (∀ i off, decodesTo self isTCP path i off →
        (∀ p, engine.plugins i = some p → p.id ≠ i) →
        ∃ out, handleMessage env self engine isTCP path argv = some out ∧ out.ret = 0 ∧
          pluginCalls out.effects = []) := by
  constructor
  · intro out p op h hm
    by_cases hr : reachesDecoder self isTCP path
    · rw [handleMessage_of_reachesDecoder env self engine isTCP path argv hr] at h
      unfold afterRootCheck at h
      cases hd : decodePluginId path self.fName.length with
      | readPastEnd => rw [hd] at h; cases h
      | invalid => rw [hd] at h; cases h; simp at hm
      | over999 => rw [hd] at h; cases h; simp at hm
      | ok i off =>
        rw [hd] at h
        exact ⟨i, off, ⟨hr, hd⟩, handlePluginId_plugin_mem env self engine path _ i argv out p op h hm⟩
    · have := pluginCalls_nil_of_not_reachesDecoder env self engine isTCP path argv out hr h
      rw [← mem_pluginCalls, this] at hm
      cases hm
  · intro i off hd hu
    rw [handleMessage_of_decodesTo env self engine isTCP path argv i off hd]
    obtain ⟨d, h, hd' | hd'⟩ := handlePluginId_unresolved env self engine path
      (self.fName.length + off) i argv hu
    · exact ⟨_, h, rfl, by rw [hd']; rfl⟩
    · exact ⟨_, h, rfl, by rw [hd']; rfl⟩

/-- C1 at a sample input: slot 0 holds a plugin that reports id 3, so a message for
index 0 makes no plugin call. -/
theorem handleMessage_acts_only_on_resolved_plugin_witness :
    ∃ out, handleMessage exampleEnv exampleOsc staleEngine true (cstr "/Carla/0/set_volume")
        [OscArg.float ⟨1065353216⟩] = some out ∧ out.ret = 0 ∧ pluginCalls out.effects = [] :=
  (handleMessage_acts_only_on_resolved_plugin exampleEnv exampleOsc staleEngine true
    (cstr "/Carla/0/set_volume") [OscArg.float ⟨1065353216⟩]).2 0 4 (by decide)
    (by intro p hp; cases hp; decide)

theorem handleMessage_register (env : Env) (self : CarlaEngineOsc) (engine : CarlaEngine)
    (isTCP : Bool) (argv : List OscArg) (h : serverReady self isTCP) :
    handleMessage env self engine isTCP (cstr "/register") argv =
      some (handleMsgRegister env self engine isTCP argv) := by
  obtain ⟨a1, a2, a3, a4, a5⟩ := serverReady_asserts h
  unfold handleMessage
  rw [if_neg a1, if_neg (by decide), if_neg a2, if_neg a3, if_neg a4, if_neg a5, if_pos rfl]

theorem handleMessage_unregister (env : Env) (self : CarlaEngineOsc) (engine : CarlaEngine)
    (isTCP : Bool) (argv : List OscArg) (h : serverReady self isTCP) :
    handleMessage env self engine isTCP (cstr "/unregister") argv =
      some (handleMsgUnregister self isTCP argv) := by
  obtain ⟨a1, a2, a3, a4, a5⟩ := serverReady_asserts h
  unfold handleMessage
  rw [if_neg a1, if_neg (by decide), if_neg a2, if_neg a3, if_neg a4, if_neg a5,
    if_neg (by decide), if_pos rfl]

theorem checkOscTypes_one_string (a : OscArg) (hs : a.tag = 's') :
    checkOscTypes [a] 1 (cstr "s") = none := by
  simp [checkOscTypes, typesOf, hs, cstr]

theorem handleMsgRegister_bound (env : Env) (self : CarlaEngineOsc) (engine : CarlaEngine)
    (isTCP : Bool) (a : OscArg) (hs : a.tag = 's')
    (hb : (self.controlData isTCP).owner ≠ none) :
    handleMsgRegister env self engine isTCP [a] =
      ⟨0, self, [Effect.diag Diag.alreadyRegistered,
        Effect.send a.s isTCP (env.lo_url_get_path a.s ++ cstr "/exit-error")
          (cstr "OSC already registered to another client")]⟩ := by
  unfold handleMsgRegister
  rw [checkOscTypes_one_string a hs]
  dsimp only
  rw [if_pos hb]
  rfl

theorem handleMsgRegister_free (env : Env) (self : CarlaEngineOsc) (engine : CarlaEngine)
    (isTCP : Bool) (a : OscArg) (hs : a.tag = 's')
    (hf : (self.controlData isTCP).owner = none) :
    handleMsgRegister env self engine isTCP [a] =
      ⟨0, self.setControlData isTCP ⟨some a.s, some (env.lo_url_get_path a.s),
          some ⟨isTCP, env.lo_url_hostname a.s, env.lo_url_port a.s⟩⟩,
        Effect.info Info.registered :: (if isTCP = true then registerSnapshot engine else [])⟩ := by
  unfold handleMsgRegister
  rw [checkOscTypes_one_string a hs]
  dsimp only
  rw [if_neg (not_not.mpr hf)]
  rfl

theorem handleMsgUnregister_string (self : CarlaEngineOsc) (isTCP : Bool) (a : OscArg)
    (hs : a.tag = 's') :
    handleMsgUnregister self isTCP [a] =
      match (self.controlData isTCP).owner with
      | none => ⟨0, self, [Effect.diag Diag.unregisterNotRegistered]⟩
      | some owner =>
        if owner = a.s then
          ⟨0, self.setControlData isTCP ⟨none, none, none⟩, [Effect.info Info.unregistered]⟩
        else ⟨0, self, [Effect.diag Diag.unregisterOwnerMismatch]⟩ := by
  unfold handleMsgUnregister
  rw [checkOscTypes_one_string a hs]
  rfl

theorem controlData_setControlData (self : CarlaEngineOsc) (isTCP : Bool)
    (d : CarlaOscData) : (self.setControlData isTCP d).controlData isTCP = d := by
  cases isTCP <;> rfl

theorem serverReady_setControlData (self : CarlaEngineOsc) (isTCP t : Bool)
    (d : CarlaOscData) (h : serverReady self isTCP) :
    serverReady (self.setControlData t d) isTCP := by
  cases t <;> exact h

theorem mem_registerPluginLoop (engine : CarlaEngine) (n i : Nat) (e : Effect)
    (h : e ∈ registerPluginLoop engine i n) :
    (∃ j, e = Effect.getPlugin j) ∨ e = Effect.diag Diag.safeAssert ∨
      ∃ op, e = Effect.engine op := by
  induction n generalizing i with
  | zero => cases h
  | succ n ih =>
    unfold registerPluginLoop at h
    rw [List.mem_append] at h
    rcases h with h | h
    · cases hp : engine.plugins i <;> rw [hp] at h <;> simp at h <;> rcases h with h | h
      · exact Or.inl ⟨_, h⟩
      · exact Or.inr (Or.inl h)
      · exact Or.inl ⟨_, h⟩
      · exact Or.inr (Or.inr ⟨_, h⟩)
    · exact ih (i + 1) h

theorem mem_registerSnapshot (engine : CarlaEngine) (e : Effect)
    (h : e ∈ registerSnapshot engine) :
    (∃ j, e = Effect.getPlugin j) ∨ e = Effect.diag Diag.safeAssert ∨
      ∃ op, e = Effect.engine op := by
  unfold registerSnapshot at h
  rw [List.mem_cons, List.mem_append, List.mem_singleton] at h
  rcases h with h | h | h
  · exact Or.inr (Or.inr ⟨_, h⟩)
  · exact mem_registerPluginLoop engine _ _ e h
  · exact Or.inr (Or.inr ⟨_, h⟩)

/-- C3: `/register` on a transport that already has a binding leaves the dispatcher
(owner, path and target of the binding included) as it was, makes no engine call, and
sends exactly one message, the conflict notice, to the address made from the url of the
new request. -/
theorem register_on_bound_transport (env : Env) (self : CarlaEngineOsc)
    (engine : CarlaEngine) (isTCP : Bool) (a : OscArg) (hready : serverReady self isTCP)
    (hs : a.tag = 's') (hb : (self.controlData isTCP).owner ≠ none) :
    handleMessage env self engine isTCP (cstr "/register") [a] =
      some ⟨0, self, [Effect.diag Diag.alreadyRegistered,
        Effect.send a.s isTCP (env.lo_url_get_path a.s ++ cstr "/exit-error")
          (cstr "OSC already registered to another client")]⟩ := by
  rw [handleMessage_register env self engine isTCP [a] hready,
    handleMsgRegister_bound env self engine isTCP a hs hb]

/-- C3 at a sample input: a second client asks to register on the bound TCP transport. -/
theorem register_on_bound_transport_witness :
    handleMessage exampleEnv boundOsc staleEngine true (cstr "/register")
        [OscArg.str (cstr "osc.tcp://10.0.0.2:9000/second")] =
      some ⟨0, boundOsc, [Effect.diag Diag.alreadyRegistered,
        Effect.send (cstr "osc.tcp://10.0.0.2:9000/second") true (cstr "/ctrl/exit-error")
          (cstr "OSC already registered to another client")]⟩ :=
  register_on_bound_transport exampleEnv boundOsc staleEngine true
    (OscArg.str (cstr "osc.tcp://10.0.0.2:9000/second")) (by decide) (by decide) (by decide)

/-- C4: `/unregister` with a string argument returns, and the binding of the transport
is cleared exactly when the argument equals the owner string: with an owner `A` and an
argument different from `A` the dispatcher is unchanged, with the argument equal to `A`
owner, path and target become absent, and without a binding the dispatcher is
unchanged. -/
theorem unregister_clears_iff_owner_matches (env : Env) (self : CarlaEngineOsc)
    (engine : CarlaEngine) (isTCP : Bool) (a : OscArg) (hready : serverReady self isTCP)
    (hs : a.tag = 's') :
    ∃ out, handleMessage env self engine isTCP (cstr "/unregister") [a] = some out ∧
      (∀ A, (self.controlData isTCP).owner = some A → a.s ≠ A → out.self = self) ∧
      (∀ A, (self.controlData isTCP).owner = some A →
        ((out.self.controlData isTCP).owner = none ↔ a.s = A)) ∧
      (∀ A, (self.controlData isTCP).owner = some A → a.s = A →
        out.self = self.setControlData isTCP ⟨none, none, none⟩) ∧
      ((self.controlData isTCP).owner = none → out.self = self) := by
  refine ⟨_, handleMessage_unregister env self engine isTCP [a] hready, ?_, ?_, ?_, ?_⟩
  · intro A hA hne
    rw [handleMsgUnregister_string self isTCP a hs, hA]
    dsimp only
    rw [if_neg (fun h => hne h.symm)]
  · intro A hA
    rw [handleMsgUnregister_string self isTCP a hs, hA]
    dsimp only
    by_cases h : A = a.s
    · rw [if_pos h, controlData_setControlData]
      exact ⟨fun _ => h.symm, fun _ => rfl⟩
    · rw [if_neg h, hA]
      exact ⟨fun h' => (by cases h'), fun h' => absurd h'.symm h⟩
  · intro A hA he
    rw [handleMsgUnregister_string self isTCP a hs, hA]
    dsimp only
    rw [if_pos he.symm]
  · intro hA
    rw [handleMsgUnregister_string self isTCP a hs, hA]

/-- C4 at a sample input: a stranger's `/unregister` on the bound TCP transport. -/
theorem unregister_clears_iff_owner_matches_witness :
    ∃ out, handleMessage exampleEnv boundOsc staleEngine true (cstr "/unregister")
        [OscArg.str (cstr "osc.tcp://10.0.0.2:9000/second")] = some out ∧
      out.self = boundOsc := by
  obtain ⟨out, h, h1, _⟩ := unregister_clears_iff_owner_matches exampleEnv boundOsc
    staleEngine true (OscArg.str (cstr "osc.tcp://10.0.0.2:9000/second")) (by decide)
    (by decide)
  exact ⟨out, h, h1 (cstr "osc.tcp://10.0.0.1:9000/first") (by decide) (by decide)⟩

/-- C5: on a transport without binding, `/register` with `A`, `/unregister` with `A`,
`/register` with `B` all return; after the third the binding is owned by `B`, the third
is not answered with the conflict notice, and on TCP its effects are the registration
line followed by the snapshot: engine-started callback, the plugin loop, graph
refresh. -/
theorem register_unregister_register (env : Env) (self : CarlaEngineOsc)
    (engine1 engine2 engine3 : CarlaEngine) (isTCP : Bool) (a a' b : OscArg)
    (hready : serverReady self isTCP) (ha : a.tag = 's') (ha' : a'.tag = 's')
    (hb : b.tag = 's') (hsame : a'.s = a.s)
    (hfree : (self.controlData isTCP).owner = none) :
    ∃ o1 o2 o3,
      handleMessage env self engine1 isTCP (cstr "/register") [a] = some o1 ∧
      handleMessage env o1.self engine2 isTCP (cstr "/unregister") [a'] = some o2 ∧
      handleMessage env o2.self engine3 isTCP (cstr "/register") [b] = some o3 ∧
      (o1.self.controlData isTCP).owner = some a.s ∧
      (o2.self.controlData isTCP).owner = none ∧
      (o3.self.controlData isTCP).owner = some b.s ∧
      o3.ret = 0 ∧
      Effect.diag Diag.alreadyRegistered ∉ o3.effects ∧
      (∀ url t p x, Effect.send url t p x ∉ o3.effects) ∧
      (isTCP = true → o3.effects =
        Effect.info Info.registered ::
        Effect.engine (EngineOp.callback false true CallbackOpcode.ENGINE_STARTED 0
          engine3.processMode engine3.transportMode (Int.ofNat engine3.bufferSize)
          engine3.sampleRate engine3.driverName) ::
        (registerPluginLoop engine3 0 engine3.curPluginCount ++
          [Effect.engine (EngineOp.patchbayRefresh false true engine3.usingExternal)])) := by
  have e1 := handleMsgRegister_free env self engine1 isTCP a ha hfree
  have r1 := serverReady_setControlData self isTCP isTCP
    ⟨some a.s, some (env.lo_url_get_path a.s),
      some ⟨isTCP, env.lo_url_hostname a.s, env.lo_url_port a.s⟩⟩ hready
  have r2 := serverReady_setControlData _ isTCP isTCP ⟨none, none, none⟩ r1
  have e2 := handleMsgUnregister_string (self.setControlData isTCP
    ⟨some a.s, some (env.lo_url_get_path a.s),
      some ⟨isTCP, env.lo_url_hostname a.s, env.lo_url_port a.s⟩⟩) isTCP a' ha'
  rw [controlData_setControlData] at e2
  dsimp only at e2
  rw [if_pos hsame.symm] at e2
  have e3 := handleMsgRegister_free env _ engine3 isTCP b hb
    (show ((((self.setControlData isTCP
      ⟨some a.s, some (env.lo_url_get_path a.s),
        some ⟨isTCP, env.lo_url_hostname a.s, env.lo_url_port a.s⟩⟩).setControlData isTCP
      ⟨none, none, none⟩).controlData isTCP).owner = none) by
      rw [controlData_setControlData])
  refine Exists.intro (handleMsgRegister env self engine1 isTCP [a]) ?_
  rw [e1]
  refine Exists.intro (handleMsgUnregister (self.setControlData isTCP
    ⟨some a.s, some (env.lo_url_get_path a.s),
      some ⟨isTCP, env.lo_url_hostname a.s, env.lo_url_port a.s⟩⟩) isTCP [a']) ?_
  rw [e2]
  refine Exists.intro (handleMsgRegister env ((self.setControlData isTCP
    ⟨some a.s, some (env.lo_url_get_path a.s),
      some ⟨isTCP, env.lo_url_hostname a.s, env.lo_url_port a.s⟩⟩).setControlData isTCP
      ⟨none, none, none⟩) engine3 isTCP [b]) ?_
  rw [e3]
  refine ⟨?_, ?_, ?_, ?_, ?_, ?_, ?_, ?_, ?_, ?_⟩
  · rw [handleMessage_register env self engine1 isTCP [a] hready, e1]
  · rw [handleMessage_unregister env _ engine2 isTCP [a'] r1, e2]
  · rw [handleMessage_register env _ engine3 isTCP [b] r2, e3]
  · rw [controlData_setControlData]
  · rw [controlData_setControlData]
  · rw [controlData_setControlData]
  · rfl
  · intro hm
    simp only [List.mem_cons, reduceCtorEq, false_or] at hm
    split at hm
    · rcases mem_registerSnapshot engine3 _ hm with ⟨j, h⟩ | h | ⟨op, h⟩ <;> cases h
    · cases hm
  · intro url t p x hm
    simp only [List.mem_cons, reduceCtorEq, false_or] at hm
    split at hm
    · rcases mem_registerSnapshot engine3 _ hm with ⟨j, h⟩ | h | ⟨op, h⟩ <;> cases h
    · cases hm
  · intro ht
    rw [if_pos ht]
    rfl

/-- C5 at a sample input: two clients in turn on the TCP transport of an engine that
counts one plugin. -/
theorem register_unregister_register_witness :
    ∃ o1 o2 o3,
      handleMessage exampleEnv exampleOsc staleEngine true (cstr "/register")
        [OscArg.str (cstr "osc.tcp://10.0.0.1:9000/first")] = some o1 ∧
      handleMessage exampleEnv o1.self staleEngine true (cstr "/unregister")
        [OscArg.str (cstr "osc.tcp://10.0.0.1:9000/first")] = some o2 ∧
      handleMessage exampleEnv o2.self staleEngine true (cstr "/register")
        [OscArg.str (cstr "osc.tcp://10.0.0.2:9000/second")] = some o3 ∧
      (o3.self.controlData true).owner = some (cstr "osc.tcp://10.0.0.2:9000/second") := by
  obtain ⟨o1, o2, o3, h1, h2, h3, _, _, h6, _⟩ := register_unregister_register exampleEnv
    exampleOsc staleEngine staleEngine staleEngine true
    (OscArg.str (cstr "osc.tcp://10.0.0.1:9000/first"))
    (OscArg.str (cstr "osc.tcp://10.0.0.1:9000/first"))
    (OscArg.str (cstr "osc.tcp://10.0.0.2:9000/second"))
    (by decide) (by decide) (by decide) (by decide) (by decide) (by decide)
  exact ⟨o1, o2, o3, h1, h2, h3, h6⟩

theorem dispatchMethod_set_active (env : Env) (self : CarlaEngineOsc) (plugin : CarlaPlugin)
    (argv : List OscArg) :
    dispatchMethod env self plugin (cstr "set_active") argv =
      handleMsgSetActive self plugin argv := rfl

theorem dispatchMethod_set_drywet (env : Env) (self : CarlaEngineOsc) (plugin : CarlaPlugin)
    (argv : List OscArg) :
    dispatchMethod env self plugin (cstr "set_drywet") argv =
      handleMsgSetDryWet self plugin argv := rfl

theorem dispatchMethod_set_volume (env : Env) (self : CarlaEngineOsc) (plugin : CarlaPlugin)
    (argv : List OscArg) :
    dispatchMethod env self plugin (cstr "set_volume") argv =
      handleMsgSetVolume self plugin argv := rfl

theorem dispatchMethod_set_balance_left (env : Env) (self : CarlaEngineOsc) (plugin : CarlaPlugin)
    (argv : List OscArg) :
    dispatchMethod env self plugin (cstr "set_balance_left") argv =
      handleMsgSetBalanceLeft self plugin argv := rfl

theorem dispatchMethod_set_balance_right (env : Env) (self : CarlaEngineOsc) (plugin : CarlaPlugin)
    (argv : List OscArg) :
    dispatchMethod env self plugin (cstr "set_balance_right") argv =
      handleMsgSetBalanceRight self plugin argv := rfl

theorem dispatchMethod_set_panning (env : Env) (self : CarlaEngineOsc) (plugin : CarlaPlugin)
    (argv : List OscArg) :
    dispatchMethod env self plugin (cstr "set_panning") argv =
      handleMsgSetPanning self plugin argv := rfl

theorem dispatchMethod_set_parameter_value (env : Env) (self : CarlaEngineOsc) (plugin : CarlaPlugin)
    (argv : List OscArg) :
    dispatchMethod env self plugin (cstr "set_parameter_value") argv =
      handleMsgSetParameterValue self plugin argv := rfl

theorem dispatchMethod_set_parameter_midi_cc (env : Env) (self : CarlaEngineOsc) (plugin : CarlaPlugin)
    (argv : List OscArg) :
    dispatchMethod env self plugin (cstr "set_parameter_midi_cc") argv =
      handleMsgSetParameterMidiCC env self plugin argv := rfl

theorem dispatchMethod_set_parameter_midi_channel (env : Env) (self : CarlaEngineOsc) (plugin : CarlaPlugin)
    (argv : List OscArg) :
    dispatchMethod env self plugin (cstr "set_parameter_midi_channel") argv =
      handleMsgSetParameterMidiChannel env self plugin argv := rfl

theorem dispatchMethod_set_program (env : Env) (self : CarlaEngineOsc) (plugin : CarlaPlugin)
    (argv : List OscArg) :
    dispatchMethod env self plugin (cstr "set_program") argv =
      handleMsgSetProgram self plugin argv := rfl

theorem dispatchMethod_set_midi_program (env : Env) (self : CarlaEngineOsc) (plugin : CarlaPlugin)
    (argv : List OscArg) :
    dispatchMethod env self plugin (cstr "set_midi_program") argv =
      handleMsgSetMidiProgram self plugin argv := rfl

theorem dispatchMethod_note_on (env : Env) (self : CarlaEngineOsc) (plugin : CarlaPlugin)
    (argv : List OscArg) :
    dispatchMethod env self plugin (cstr "note_on") argv =
      handleMsgNoteOn env self plugin argv := rfl

theorem dispatchMethod_note_off (env : Env) (self : CarlaEngineOsc) (plugin : CarlaPlugin)
    (argv : List OscArg) :
    dispatchMethod env self plugin (cstr "note_off") argv =
      handleMsgNoteOff env self plugin argv := rfl

theorem checkOscTypes_mismatch (argv : List OscArg) (n : Nat) (sig : CStr)
    (h : argv.length ≠ n ∨ typesOf argv ≠ sig) : ∃ d, checkOscTypes argv n sig = some d := by
  unfold checkOscTypes
  by_cases h1 : argv.length ≠ n
  · exact ⟨_, if_pos h1⟩
  · rw [if_neg h1]
    rcases h with h | h
    · exact absurd h h1
    · exact ⟨_, if_pos h⟩

theorem dispatchMethod_mismatch (env : Env) (self : CarlaEngineOsc) (plugin : CarlaPlugin)
    (name : CStr) (n : Nat) (sig : CStr) (argv : List OscArg)
    (hmem : (name, n, sig) ∈ declaredSignatures)
    (hbad : argv.length ≠ n ∨ typesOf argv ≠ sig) :
    ∃ d, dispatchMethod env self plugin name argv = dropped self d := by
  obtain ⟨d, hd⟩ := checkOscTypes_mismatch argv n sig hbad
  refine ⟨d, ?_⟩
  simp only [declaredSignatures, List.mem_cons, Prod.mk.injEq, List.not_mem_nil, or_false] at hmem
  rcases hmem with e | e | e | e | e | e | e | e | e | e | e | e | e <;>
    obtain ⟨hname, hn, hsig⟩ := e <;> subst hname hn hsig
  · rw [dispatchMethod_set_active]; unfold handleMsgSetActive; rw [hd]
  · rw [dispatchMethod_set_drywet]; unfold handleMsgSetDryWet; rw [hd]
  · rw [dispatchMethod_set_volume]; unfold handleMsgSetVolume; rw [hd]
  · rw [dispatchMethod_set_balance_left]; unfold handleMsgSetBalanceLeft; rw [hd]
  · rw [dispatchMethod_set_balance_right]; unfold handleMsgSetBalanceRight; rw [hd]
  · rw [dispatchMethod_set_panning]; unfold handleMsgSetPanning; rw [hd]
  · rw [dispatchMethod_set_parameter_value]; unfold handleMsgSetParameterValue; rw [hd]
  · rw [dispatchMethod_set_parameter_midi_cc]; unfold handleMsgSetParameterMidiCC; rw [hd]
  · rw [dispatchMethod_set_parameter_midi_channel]; unfold handleMsgSetParameterMidiChannel; rw [hd]
  · rw [dispatchMethod_set_program]; unfold handleMsgSetProgram; rw [hd]
  · rw [dispatchMethod_set_midi_program]; unfold handleMsgSetMidiProgram; rw [hd]
  · rw [dispatchMethod_note_on]; unfold handleMsgNoteOn; rw [hd]
  · rw [dispatchMethod_note_off]; unfold handleMsgNoteOff; rw [hd]

/-- With the plugin resolved and a method present, the message goes to the method chain. -/
theorem handlePluginId_resolved (env : Env) (self : CarlaEngineOsc) (engine : CarlaEngine)
    (path : CStr) (start i : Nat) (argv : List OscArg) (p : CarlaPlugin)
    (hle : i ≤ engine.curPluginCount) (hp : engine.plugins i = some p) (hid : p.id = i)
    (hstart : start < path.length) :
    handlePluginId env self engine path start i argv =
      some (afterLookup i (dispatchMethod env self p ((path.drop start).take 32) argv)) := by
  have hm : (path.drop start).take 32 ≠ [] := by
    intro h
    have := congrArg List.length h
    simp only [List.length_take, List.length_drop, List.length_nil] at this
    omega
  unfold handlePluginId
  rw [if_neg (by omega), hp]
  dsimp only
  rw [if_neg (not_not.mpr hid), if_neg (by omega), if_neg hm]
  rfl

theorem handlePluginId_rejected_or_dispatched (env : Env) (self : CarlaEngineOsc)
    (engine : CarlaEngine) (path : CStr) (start i : Nat) (argv : List OscArg)
    (hstart : start < path.length) :
    (∃ eff, handlePluginId env self engine path start i argv = some ⟨0, self, eff⟩ ∧
      (eff = [Effect.diag Diag.wrongId] ∨
       eff = [Effect.getPlugin i, Effect.diag Diag.pluginRemoved])) ∨
    (∃ p, i ≤ engine.curPluginCount ∧ engine.plugins i = some p ∧ p.id = i ∧
      handlePluginId env self engine path start i argv =
        some (afterLookup i (dispatchMethod env self p ((path.drop start).take 32) argv))) := by
  by_cases hgt : i > engine.curPluginCount
  · left
    exact ⟨_, by unfold handlePluginId; rw [if_pos hgt], Or.inl rfl⟩
  · by_cases hres : ∃ p, engine.plugins i = some p ∧ p.id = i
    · obtain ⟨p, hp, hid⟩ := hres
      right
      exact ⟨p, by omega, hp, hid,
        handlePluginId_resolved env self engine path start i argv p (by omega) hp hid hstart⟩
    · left
      exact handlePluginId_unresolved env self engine path start i argv
        (fun p hp hid => hres ⟨p, hp, hid⟩)

/-- An index above the plugin count is answered with the out-of-range diagnostic alone,
before any lookup. -/
theorem handleMessage_index_above_count (env : Env) (self : CarlaEngineOsc)
    (engine : CarlaEngine) (isTCP : Bool) (path : CStr) (argv : List OscArg) (i off : Nat)
    (h : decodesTo self isTCP path i off) (hi : i > engine.curPluginCount) :
    handleMessage env self engine isTCP path argv =
      some ⟨0, self, [Effect.diag Diag.wrongId]⟩ := by
  rw [handleMessage_of_decodesTo env self engine isTCP path argv i off h]
  unfold handlePluginId
  rw [if_pos hi]

/-- C2 (the code departs from it): with one plugin counted, a message for index 1 is
not stopped by the range check; the lookup at index 1 is made and, the slot holding a
plugin that reports id 1, its `setVolume` is called and no diagnostic is written. -/
theorem handleMessage_index_equal_count_calls_plugin :
    decodesTo exampleOsc true (cstr "/Carla/1/set_volume") 1 4 ∧
    staleEngine.curPluginCount = 1 ∧
    handleMessage exampleEnv exampleOsc staleEngine true (cstr "/Carla/1/set_volume")
        [OscArg.float ⟨1065353216⟩] =
      some ⟨0, exampleOsc, [Effect.getPlugin 1,
        Effect.plugin ⟨101, 1, cstr "next"⟩ (PluginOp.setVolume ⟨1065353216⟩ false true)]⟩ := by
  decide

/-- C6: when the argument count or the type string of a message differs from what the
handler of a plugin command declares, the handler makes no plugin call and leaves the
dispatcher as it was; so does the whole of `handleMessage` on a path that decodes to
that command. -/
theorem signature_mismatch_makes_no_plugin_call (env : Env) (self : CarlaEngineOsc)
    (engine : CarlaEngine) (name : CStr) (n : Nat) (sig : CStr) (argv : List OscArg)
    (hmem : (name, n, sig) ∈ declaredSignatures)
    (hbad : argv.length ≠ n ∨ typesOf argv ≠ sig) :
    (∀ plugin, pluginCalls (dispatchMethod env self plugin name argv).effects = [] ∧
      (dispatchMethod env self plugin name argv).self = self) ∧
    (∀ isTCP path i off, decodesTo self isTCP path i off →
      (path.drop (self.fName.length + off)).take 32 = name →
      ∃ out, handleMessage env self engine isTCP path argv = some out ∧
        pluginCalls out.effects = [] ∧ out.self = self) := by
  have hd : ∀ plugin, pluginCalls (dispatchMethod env self plugin name argv).effects = [] ∧
      (dispatchMethod env self plugin name argv).self = self := by
    intro plugin
    obtain ⟨d, h⟩ := dispatchMethod_mismatch env self plugin name n sig argv hmem hbad
    rw [h]
    exact ⟨rfl, rfl⟩
  refine ⟨hd, ?_⟩
  intro isTCP path i off hdec hname
  have hall : ∀ x ∈ declaredSignatures, x.1 ≠ [] := by decide
  have hne : name ≠ [] := hall _ hmem
  have hstart : self.fName.length + off < path.length := by
    by_contra hge
    apply hne
    rw [← hname, List.drop_of_length_le (by omega)]
    rfl
  rw [handleMessage_of_decodesTo env self engine isTCP path argv i off hdec]
  rcases handlePluginId_rejected_or_dispatched env self engine path
    (self.fName.length + off) i argv hstart with ⟨eff, h, rfl | rfl⟩ | ⟨p, _, _, _, h⟩
  · exact ⟨_, h, rfl, rfl⟩
  · exact ⟨_, h, rfl, rfl⟩
  · rw [hname] at h
    exact ⟨_, h, (hd p).1, (hd p).2⟩

/-- C6 at the sample of the claim: `set_parameter_value` with a single float argument
makes no plugin call, so `setParameterValue` is not called. -/
theorem signature_mismatch_makes_no_plugin_call_witness :
    pluginCalls (dispatchMethod exampleEnv exampleOsc ⟨100, 0, cstr "synth"⟩
      (cstr "set_parameter_value") [OscArg.float ⟨1056964608⟩]).effects = [] :=
  ((signature_mismatch_makes_no_plugin_call exampleEnv exampleOsc staleEngine
    (cstr "set_parameter_value") 2 (cstr "if") [OscArg.float ⟨1056964608⟩]
    (by decide) (by decide)).1 ⟨100, 0, cstr "synth"⟩).1

theorem pathAt_eq (path : CStr) (i : Nat) :
    pathAt path i =
      if i < path.length then path[i]? else if i = path.length then some NUL else none := by
  unfold pathAt
  by_cases h : i < path.length
  · rw [dif_pos h, if_pos h, List.getElem?_eq_getElem h]
    rfl
  · rw [dif_neg h, if_neg h]

theorem pathAt_append (pre rest : CStr) (j : Nat) :
    pathAt (pre ++ rest) (pre.length + j) = pathAt rest j := by
  rw [pathAt_eq, pathAt_eq, List.length_append]
  by_cases h : j < rest.length
  · rw [if_pos (by omega), if_pos h, List.getElem?_append_right (by omega)]
    congr 1
    omega
  · rw [if_neg (by omega), if_neg h]
    by_cases h2 : j = rest.length
    · rw [if_pos (by omega), if_pos h2]
    · rw [if_neg (by omega), if_neg h2]

theorem pathAt_cons_succ (c : Char) (rest : CStr) (j : Nat) :
    pathAt (c :: rest) (j + 1) = pathAt rest j := by
  have := pathAt_append [c] rest j
  rw [List.singleton_append, List.length_singleton, Nat.add_comm] at this
  exact this

theorem pathAt_zero (s : CStr) : pathAt s 0 = some (s.headD NUL) := by
  cases s with
  | nil => rfl
  | cons c t => simp [pathAt]

theorem isdigit_digitChar : ∀ d, d < 10 → isdigit (digitChar d) = true := by decide

theorem digitValue_digitChar : ∀ d, d < 10 → digitValue (digitChar d) = d := by decide

theorem decode_three (pre rest : CStr) (ns : Nat) (c1 c2 c3 : Char)
    (hpre : pre.length = ns + 2) (h1 : isdigit c1 = true) (h2 : isdigit c2 = true)
    (h3 : isdigit c3 = true) (hrest : isdigit (rest.headD NUL) = false) :
    decodePluginId (pre ++ c1 :: c2 :: c3 :: rest) ns =
      Decoded.ok (digitValue c1 * 100 + digitValue c2 * 10 + digitValue c3) 6 := by
  have e2 : pathAt (pre ++ c1 :: c2 :: c3 :: rest) (ns + 2) = some c1 := by
    rw [← hpre, ← Nat.add_zero pre.length, pathAt_append, pathAt_zero]; rfl
  have e3 : pathAt (pre ++ c1 :: c2 :: c3 :: rest) (ns + 3) = some c2 := by
    rw [show ns + 3 = pre.length + 1 by omega, pathAt_append, pathAt_cons_succ, pathAt_zero]; rfl
  have e4 : pathAt (pre ++ c1 :: c2 :: c3 :: rest) (ns + 4) = some c3 := by
    rw [show ns + 4 = pre.length + 2 by omega, pathAt_append, pathAt_cons_succ,
      pathAt_cons_succ, pathAt_zero]; rfl
  have e5 : pathAt (pre ++ c1 :: c2 :: c3 :: rest) (ns + 5) = some (rest.headD NUL) := by
    rw [show ns + 5 = pre.length + 3 by omega, pathAt_append, pathAt_cons_succ,
      pathAt_cons_succ, pathAt_cons_succ, pathAt_zero]
  unfold decodePluginId
  rw [e2]; dsimp only
  rw [if_pos h1, e3]; dsimp only
  rw [if_pos h2, e5]; dsimp only
  rw [if_neg (by rw [hrest]; decide), e4]; dsimp only
  rw [if_pos h3]

theorem decode_two (pre rest : CStr) (ns : Nat) (c1 c2 c3 : Char)
    (hpre : pre.length = ns + 2) (h1 : isdigit c1 = true) (h2 : isdigit c2 = true)
    (h3 : isdigit c3 = false) (hrest : isdigit (rest.headD NUL) = false) :
    decodePluginId (pre ++ c1 :: c2 :: c3 :: rest) ns =
      Decoded.ok (digitValue c1 * 10 + digitValue c2) 5 := by
  have e2 : pathAt (pre ++ c1 :: c2 :: c3 :: rest) (ns + 2) = some c1 := by
    rw [← hpre, ← Nat.add_zero pre.length, pathAt_append, pathAt_zero]; rfl
  have e3 : pathAt (pre ++ c1 :: c2 :: c3 :: rest) (ns + 3) = some c2 := by
    rw [show ns + 3 = pre.length + 1 by omega, pathAt_append, pathAt_cons_succ, pathAt_zero]; rfl
  have e4 : pathAt (pre ++ c1 :: c2 :: c3 :: rest) (ns + 4) = some c3 := by
    rw [show ns + 4 = pre.length + 2 by omega, pathAt_append, pathAt_cons_succ,
      pathAt_cons_succ, pathAt_zero]; rfl
  have e5 : pathAt (pre ++ c1 :: c2 :: c3 :: rest) (ns + 5) = some (rest.headD NUL) := by
    rw [show ns + 5 = pre.length + 3 by omega, pathAt_append, pathAt_cons_succ,
      pathAt_cons_succ, pathAt_cons_succ, pathAt_zero]
  unfold decodePluginId
  rw [e2]; dsimp only
  rw [if_pos h1, e3]; dsimp only
  rw [if_pos h2, e5]; dsimp only
  rw [if_neg (by rw [hrest]; decide), e4]; dsimp only
  rw [if_neg (by rw [h3]; decide)]

theorem decode_one (pre rest : CStr) (ns : Nat) (c1 c2 : Char)
    (hpre : pre.length = ns + 2) (h1 : isdigit c1 = true) (h2 : isdigit c2 = false) :
    decodePluginId (pre ++ c1 :: c2 :: rest) ns = Decoded.ok (digitValue c1) 4 := by
  have e2 : pathAt (pre ++ c1 :: c2 :: rest) (ns + 2) = some c1 := by
    rw [← hpre, ← Nat.add_zero pre.length, pathAt_append, pathAt_zero]; rfl
  have e3 : pathAt (pre ++ c1 :: c2 :: rest) (ns + 3) = some c2 := by
    rw [show ns + 3 = pre.length + 1 by omega, pathAt_append, pathAt_cons_succ, pathAt_zero]; rfl
  unfold decodePluginId
  rw [e2]; dsimp only
  rw [if_pos h1, e3]; dsimp only
  rw [if_neg (by rw [h2]; decide)]

theorem decode_four (pre rest : CStr) (ns : Nat) (c1 c2 c3 c4 : Char)
    (hpre : pre.length = ns + 2) (h1 : isdigit c1 = true) (h2 : isdigit c2 = true)
    (h4 : isdigit c4 = true) :
    decodePluginId (pre ++ c1 :: c2 :: c3 :: c4 :: rest) ns = Decoded.over999 := by
  have e2 : pathAt (pre ++ c1 :: c2 :: c3 :: c4 :: rest) (ns + 2) = some c1 := by
    rw [← hpre, ← Nat.add_zero pre.length, pathAt_append, pathAt_zero]; rfl
  have e3 : pathAt (pre ++ c1 :: c2 :: c3 :: c4 :: rest) (ns + 3) = some c2 := by
    rw [show ns + 3 = pre.length + 1 by omega, pathAt_append, pathAt_cons_succ, pathAt_zero]; rfl
  have e5 : pathAt (pre ++ c1 :: c2 :: c3 :: c4 :: rest) (ns + 5) = some c4 := by
    rw [show ns + 5 = pre.length + 3 by omega, pathAt_append, pathAt_cons_succ,
      pathAt_cons_succ, pathAt_cons_succ, pathAt_zero]; rfl
  unfold decodePluginId
  rw [e2]; dsimp only
  rw [if_pos h1, e3]; dsimp only
  rw [if_pos h2, e5]; dsimp only
  rw [if_pos h4]

theorem handlePluginId_in_range (env : Env) (self : CarlaEngineOsc) (engine : CarlaEngine)
    (path : CStr) (start i : Nat) (argv : List OscArg) (out : Outcome)
    (hle : i ≤ engine.curPluginCount)
    (h : handlePluginId env self engine path start i argv = some out) :
    Effect.diag Diag.wrongId ∉ out.effects ∧ Effect.getPlugin i ∈ out.effects := by
  unfold handlePluginId at h
  rw [if_neg (by omega)] at h
  split at h
  · cases h; simp
  · next plugin hp =>
    dsimp only at h
    split_ifs at h with c1 c2 c3
    · cases h; simp
    · cases h; simp
    · simp only [Option.some.injEq] at h
      subst h
      obtain ⟨_, ⟨h1, _⟩ | ⟨d, h1, hd⟩ | ⟨op, h1, _⟩⟩ :=
        shape_dispatchMethod env self plugin ((path.drop start).take 32) argv
      · simp [h1]
      · rcases hd with rfl | rfl | rfl <;> simp [h1]
      · simp [h1]

theorem handlePluginId_returns (env : Env) (self : CarlaEngineOsc) (engine : CarlaEngine)
    (path : CStr) (start i : Nat) (argv : List OscArg) (hstart : start ≤ path.length) :
    ∃ out, handlePluginId env self engine path start i argv = some out := by
  unfold handlePluginId
  split
  · exact ⟨_, rfl⟩
  · split
    · exact ⟨_, rfl⟩
    · dsimp only
      split_ifs with c1 c2 c3
      · exact ⟨_, rfl⟩
      · omega
      · exact ⟨_, rfl⟩
      · exact ⟨_, rfl⟩

/-- C8: a path whose index segment is the three digits `d1 d2 d3`, followed by
something that is not a digit, decodes to `100*d1 + 10*d2 + d3`; when that number is
below the plugin count the message is not answered with the out-of-range diagnostic,
the lookup at that index is made, and (something following the digits) the call
returns. -/
theorem three_digit_index_decodes (env : Env) (self : CarlaEngineOsc)
    (engine : CarlaEngine) (isTCP : Bool) (pre rest : CStr) (d1 d2 d3 : Nat)
    (argv : List OscArg) (h1 : d1 < 10) (h2 : d2 < 10) (h3 : d3 < 10)
    (hpre : pre.length = self.fName.length + 2)
    (hrest : isdigit (rest.headD NUL) = false)
    (hreach : reachesDecoder self isTCP
      (pre ++ digitChar d1 :: digitChar d2 :: digitChar d3 :: rest)) :
    decodePluginId (pre ++ digitChar d1 :: digitChar d2 :: digitChar d3 :: rest)
        self.fName.length = Decoded.ok (100 * d1 + 10 * d2 + d3) 6 ∧
    (100 * d1 + 10 * d2 + d3 < engine.curPluginCount →
      (∀ out, handleMessage env self engine isTCP
          (pre ++ digitChar d1 :: digitChar d2 :: digitChar d3 :: rest) argv = some out →
        Effect.diag Diag.wrongId ∉ out.effects ∧
        Effect.getPlugin (100 * d1 + 10 * d2 + d3) ∈ out.effects) ∧
      (rest ≠ [] → ∃ out, handleMessage env self engine isTCP
          (pre ++ digitChar d1 :: digitChar d2 :: digitChar d3 :: rest) argv = some out)) := by
  have hdec : decodePluginId (pre ++ digitChar d1 :: digitChar d2 :: digitChar d3 :: rest)
      self.fName.length = Decoded.ok (100 * d1 + 10 * d2 + d3) 6 := by
    rw [decode_three pre rest self.fName.length _ _ _ hpre (isdigit_digitChar d1 h1)
      (isdigit_digitChar d2 h2) (isdigit_digitChar d3 h3) hrest,
      digitValue_digitChar d1 h1, digitValue_digitChar d2 h2, digitValue_digitChar d3 h3]
    congr 1
    omega
  refine ⟨hdec, fun hlt => ⟨?_, ?_⟩⟩
  · intro out h
    rw [handleMessage_of_decodesTo env self engine isTCP _ argv _ 6 ⟨hreach, hdec⟩] at h
    exact handlePluginId_in_range env self engine _ _ _ argv out (by omega) h
  · intro hne
    rw [handleMessage_of_decodesTo env self engine isTCP _ argv _ 6 ⟨hreach, hdec⟩]
    apply handlePluginId_returns
    have : 0 < rest.length := List.length_pos.mpr hne
    simp only [List.length_append, List.length_cons]
    omega

/-- C8 at the sample of the claim: the segment `042` decodes to 42 and, with fifty
plugins, the message is looked up at index 42 instead of being turned away. -/
theorem three_digit_index_decodes_witness :
    decodePluginId (cstr "/Carla/042/set_volume") 5 = Decoded.ok 42 6 ∧
    ∀ out, handleMessage exampleEnv exampleOsc fiftyPlugins true
        (cstr "/Carla/042/set_volume") [OscArg.float ⟨1065353216⟩] = some out →
      Effect.diag Diag.wrongId ∉ out.effects ∧ Effect.getPlugin 42 ∈ out.effects :=
  have h := three_digit_index_decodes exampleEnv exampleOsc fiftyPlugins true
    (cstr "/Carla/") (cstr "/set_volume") 0 4 2 [OscArg.float ⟨1065353216⟩]
    (by decide) (by decide) (by decide) (by decide) (by decide) (by decide)
  ⟨h.1, (h.2 (by decide)).1⟩

theorem control_names_have_no_digit :
    ∀ name ∈ controlMethodNames, ∀ c ∈ name, isdigit c = false := by decide

/-- A control method name that contains a digit matches no control command. -/
theorem handleMsgControl_digit_method (self : CarlaEngineOsc) (method : CStr)
    (argv : List OscArg) (c : Char) (hc : c ∈ method) (hd : isdigit c = true) :
    ∃ d, handleMsgControl self method argv = ⟨0, self, [Effect.diag d]⟩ := by
  have hne : ∀ name ∈ controlMethodNames, ¬ method = name := by
    intro name hn heq
    subst heq
    have := control_names_have_no_digit _ hn c hc
    rw [hd] at this
    cases this
  unfold handleMsgControl
  dsimp only
  by_cases h0 : method = []
  · rw [if_pos h0]; exact ⟨_, rfl⟩
  rw [if_neg h0]
  by_cases h1 : self.fControlDataTCP.owner = none
  · rw [if_pos h1]; exact ⟨_, rfl⟩
  rw [if_neg h1]
  rw [if_neg (hne _ (by decide)), if_neg (hne _ (by decide)), if_neg (hne _ (by decide)),
    if_neg (hne _ (by decide)), if_neg (hne _ (by decide)), if_neg (hne _ (by decide)),
    if_neg (hne _ (by decide)), if_neg (hne _ (by decide)), if_neg (hne _ (by decide)),
    if_neg (hne _ (by decide)), if_neg (hne _ (by decide)), if_neg (hne _ (by decide)),
    if_neg (hne _ (by decide)), if_neg (hne _ (by decide)), if_neg (hne _ (by decide)),
    if_neg (hne _ (by decide))]
  exact ⟨_, rfl⟩

/-- The ways a message can end without reaching the decoder. -/
theorem handleMessage_of_not_reachesDecoder (env : Env) (self : CarlaEngineOsc)
    (engine : CarlaEngine) (isTCP : Bool) (path : CStr) (argv : List OscArg)
    (hn : ¬ reachesDecoder self isTCP path) :
    handleMessage env self engine isTCP path argv = some (assertFailed self 1) ∨
    (path = cstr "/register" ∧ handleMessage env self engine isTCP path argv =
      some (handleMsgRegister env self engine isTCP argv)) ∨
    (path = cstr "/unregister" ∧ handleMessage env self engine isTCP path argv =
      some (handleMsgUnregister self isTCP argv)) ∨
    (path.take 6 = cstr "/ctrl/" ∧ handleMessage env self engine isTCP path argv =
      some (handleMsgControl self (path.drop 6) argv)) ∨
    handleMessage env self engine isTCP path argv =
      some ⟨1, self, [Effect.diag Diag.notForThisClient]⟩ := by
  unfold handleMessage
  by_cases c1 : self.fName = []
  · rw [if_pos c1]; exact Or.inl rfl
  rw [if_neg c1]
  by_cases c2 : path = []
  · rw [if_pos c2]; exact Or.inl rfl
  rw [if_neg c2]
  by_cases c3 : isTCP = true ∧ self.fServerPathTCP = []
  · rw [if_pos c3]; exact Or.inl rfl
  rw [if_neg c3]
  by_cases c4 : isTCP = true ∧ self.fServerTCP = false
  · rw [if_pos c4]; exact Or.inl rfl
  rw [if_neg c4]
  by_cases c5 : isTCP = false ∧ self.fServerPathUDP = []
  · rw [if_pos c5]; exact Or.inl rfl
  rw [if_neg c5]
  by_cases c6 : isTCP = false ∧ self.fServerUDP = false
  · rw [if_pos c6]; exact Or.inl rfl
  rw [if_neg c6]
  by_cases c7 : path = cstr "/register"
  · rw [if_pos c7]; exact Or.inr (Or.inl ⟨c7, rfl⟩)
  rw [if_neg c7]
  by_cases c8 : path = cstr "/unregister"
  · rw [if_pos c8]; exact Or.inr (Or.inr (Or.inl ⟨c8, rfl⟩))
  rw [if_neg c8]
  by_cases c9 : path.take 6 = cstr "/ctrl/"
  · rw [if_pos c9]
    by_cases c : isTCP = false
    · rw [if_pos c]; exact Or.inl rfl
    · rw [if_neg c]; exact Or.inr (Or.inr (Or.inr (Or.inl ⟨c9, rfl⟩)))
  rw [if_neg c9]
  dsimp only
  by_cases c10 : path.length ≤ self.fName.length ∨
      (path.drop 1).take self.fName.length ≠ self.fName
  · rw [if_pos c10]; exact Or.inr (Or.inr (Or.inr (Or.inr rfl)))
  exfalso
  apply hn
  refine ⟨⟨c1, ?_⟩, c2, c7, c8, c9, ?_, ?_⟩
  · cases isTCP <;> simp_all
  · by_contra hlt
    exact c10 (Or.inl (by omega))
  · by_contra hne
    exact c10 (Or.inr hne)

theorem register_paths_have_no_digit :
    (∀ c ∈ cstr "/register", isdigit c = false) ∧
    (∀ c ∈ cstr "/unregister", isdigit c = false) ∧
    (∀ c ∈ cstr "/ctrl/", isdigit c = false) := by decide

/-- C9: a path whose index segment after `/root/` starts with four decimal digits is
turned away whatever the engine holds: the call returns with the dispatcher unchanged
and exactly one effect, a diagnostic, so no plugin is looked up and no handler runs;
when the message gets as far as the decoder, the decoder yields no plugin id and the
diagnostic is the one for an id over 999. -/
theorem four_digit_index_rejected (env : Env) (self : CarlaEngineOsc)
    (engine : CarlaEngine) (isTCP : Bool) (rest : CStr) (d1 d2 d3 d4 : Nat)
    (argv : List OscArg) (h1 : d1 < 10) (h2 : d2 < 10) (_h3 : d3 < 10) (h4 : d4 < 10) :
    ∃ r d, handleMessage env self engine isTCP
        ('/' :: self.fName ++
          '/' :: digitChar d1 :: digitChar d2 :: digitChar d3 :: digitChar d4 :: rest) argv =
        some ⟨r, self, [Effect.diag d]⟩ ∧
      (reachesDecoder self isTCP ('/' :: self.fName ++
          '/' :: digitChar d1 :: digitChar d2 :: digitChar d3 :: digitChar d4 :: rest) →
        r = 1 ∧ d = Diag.idOver999 ∧
        decodePluginId ('/' :: self.fName ++
          '/' :: digitChar d1 :: digitChar d2 :: digitChar d3 :: digitChar d4 :: rest)
          self.fName.length = Decoded.over999) := by
  have hshape : '/' :: self.fName ++
      '/' :: digitChar d1 :: digitChar d2 :: digitChar d3 :: digitChar d4 :: rest =
      ('/' :: self.fName ++ ['/']) ++
        digitChar d1 :: digitChar d2 :: digitChar d3 :: digitChar d4 :: rest := by
    simp
  have hdec := decode_four ('/' :: self.fName ++ ['/']) rest self.fName.length
    (digitChar d1) (digitChar d2) (digitChar d3) (digitChar d4) (by simp)
    (isdigit_digitChar d1 h1) (isdigit_digitChar d2 h2) (isdigit_digitChar d4 h4)
  rw [← hshape] at hdec
  have hmem : digitChar d1 ∈ '/' :: self.fName ++
      '/' :: digitChar d1 :: digitChar d2 :: digitChar d3 :: digitChar d4 :: rest := by
    simp
  generalize '/' :: self.fName ++
      '/' :: digitChar d1 :: digitChar d2 :: digitChar d3 :: digitChar d4 :: rest = path
    at hdec hmem ⊢
  by_cases hr : reachesDecoder self isTCP path
  · refine ⟨1, Diag.idOver999, ?_, fun _ => ⟨rfl, rfl, hdec⟩⟩
    rw [handleMessage_of_reachesDecoder env self engine isTCP path argv hr]
    unfold afterRootCheck
    rw [hdec]
  · rcases handleMessage_of_not_reachesDecoder env self engine isTCP path argv hr with
      h | ⟨hp, _⟩ | ⟨hp, _⟩ | ⟨hp, h⟩ | h
    · exact ⟨1, Diag.safeAssert, h, fun hr' => absurd hr' hr⟩
    · rw [hp] at hmem
      have := register_paths_have_no_digit.1 _ hmem
      rw [isdigit_digitChar d1 h1] at this
      cases this
    · rw [hp] at hmem
      have := register_paths_have_no_digit.2.1 _ hmem
      rw [isdigit_digitChar d1 h1] at this
      cases this
    · have hsplit : digitChar d1 ∈ path.take 6 ++ path.drop 6 := by
        rw [List.take_append_drop]; exact hmem
      rw [List.mem_append] at hsplit
      rcases hsplit with hm | hm
      · rw [hp] at hm
        have := register_paths_have_no_digit.2.2 _ hm
        rw [isdigit_digitChar d1 h1] at this
        cases this
      · obtain ⟨d, hd⟩ := handleMsgControl_digit_method self (path.drop 6) argv
          (digitChar d1) hm (isdigit_digitChar d1 h1)
        rw [hd] at h
        exact ⟨0, d, h, fun hr' => absurd hr' hr⟩
    · exact ⟨1, Diag.notForThisClient, h, fun hr' => absurd hr' hr⟩

/-- C10: a path that starts with `/`, is none of `/register`, `/unregister`,
`/ctrl/...`, and does not begin with `/` followed by the root name is answered with
"message not for this client": result 1, dispatcher unchanged, that one diagnostic and
no other effect. -/
theorem foreign_path_rejected (env : Env) (self : CarlaEngineOsc) (engine : CarlaEngine)
    (isTCP : Bool) (path : CStr) (argv : List OscArg) (hready : serverReady self isTCP)
    (hslash : path.head? = some '/') (hreg : path ≠ cstr "/register")
    (hunreg : path ≠ cstr "/unregister") (hctrl : ¬ (cstr "/ctrl/" <+: path))
    (hroot : ¬ (('/' :: self.fName) <+: path)) :
    handleMessage env self engine isTCP path argv =
      some ⟨1, self, [Effect.diag Diag.notForThisClient]⟩ := by
  obtain ⟨a1, a2, a3, a4, a5⟩ := serverReady_asserts hready
  have h0 : path ≠ [] := by
    intro h; rw [h] at hslash; cases hslash
  have h3 : ¬ path.take 6 = cstr "/ctrl/" := by
    intro h
    apply hctrl
    rw [← h]
    exact List.take_prefix 6 path
  have h6 : path.length ≤ self.fName.length ∨
      (path.drop 1).take self.fName.length ≠ self.fName := by
    right
    intro h
    apply hroot
    cases path with
    | nil => exact absurd rfl h0
    | cons c t =>
      simp only [List.head?_cons, Option.some.injEq] at hslash
      subst hslash
      simp only [List.drop_succ_cons, List.drop_zero] at h
      rw [List.cons_prefix_cons]
      refine ⟨rfl, ?_⟩
      have := List.take_prefix self.fName.length t
      rw [h] at this
      exact this
  unfold handleMessage
  rw [if_neg a1, if_neg h0, if_neg a2, if_neg a3, if_neg a4, if_neg a5, if_neg hreg,
    if_neg hunreg, if_neg h3]
  dsimp only
  rw [if_pos h6]

/-- C10 at a sample input: a message for another instance. -/
theorem foreign_path_rejected_witness :
    handleMessage exampleEnv exampleOsc fiftyPlugins false (cstr "/Other/0/set_volume")
        [OscArg.float ⟨1065353216⟩] =
      some ⟨1, exampleOsc, [Effect.diag Diag.notForThisClient]⟩ :=
  foreign_path_rejected exampleEnv exampleOsc fiftyPlugins false (cstr "/Other/0/set_volume")
    [OscArg.float ⟨1065353216⟩] (by decide) (by decide) (by decide) (by decide) (by decide)
    (by decide)

/-- C9 at a sample input: index segment `1234`. -/
theorem four_digit_index_rejected_witness :
    ∃ r d, handleMessage exampleEnv exampleOsc fiftyPlugins true
        (cstr "/Carla/1234/set_volume") [OscArg.float ⟨1065353216⟩] =
        some ⟨r, exampleOsc, [Effect.diag d]⟩ := by
  obtain ⟨r, d, h, _⟩ := four_digit_index_rejected exampleEnv exampleOsc fiftyPlugins true
    (cstr "/set_volume") 1 2 3 4 [OscArg.float ⟨1065353216⟩]
    (by decide) (by decide) (by decide) (by decide)
  exact ⟨r, d, h⟩

theorem pluginPath_has_digit (root m : CStr) (d : Nat) (ds : List Nat) :
    digitChar d ∈ pluginPath root (d :: ds) m := by
  simp [pluginPath]

theorem reachesDecoder_pluginPath (self : CarlaEngineOsc) (isTCP : Bool) (d : Nat)
    (ds : List Nat) (m : CStr) (hready : serverReady self isTCP) (hd : d < 10)
    (hctrl : ¬ (cstr "/ctrl/" <+: pluginPath self.fName (d :: ds) m)) :
    reachesDecoder self isTCP (pluginPath self.fName (d :: ds) m) := by
  have hmem := pluginPath_has_digit self.fName m d ds
  refine ⟨hready, ?_, ?_, ?_, ?_, ?_, ?_⟩
  · simp [pluginPath]
  · intro h
    rw [h] at hmem
    have := register_paths_have_no_digit.1 _ hmem
    rw [isdigit_digitChar d hd] at this
    cases this
  · intro h
    rw [h] at hmem
    have := register_paths_have_no_digit.2.1 _ hmem
    rw [isdigit_digitChar d hd] at this
    cases this
  · intro h
    apply hctrl
    rw [← h]
    exact List.take_prefix 6 _
  · simp [pluginPath]
    omega
  · simp [pluginPath]

theorem method_of_pluginPath (root m : CStr) (ds : List Nat) (hm32 : m.length ≤ 32) :
    ((pluginPath root ds m).drop (root.length + (ds.length + 3))).take 32 = m := by
  have hsplit : pluginPath root ds m = ('/' :: root ++ '/' :: ds.map digitChar ++ ['/']) ++ m := by
    simp [pluginPath]
  have hl : ('/' :: root ++ '/' :: ds.map digitChar ++ ['/']).length =
      root.length + (ds.length + 3) := by
    simp
    omega
  rw [hsplit, ← hl, List.drop_left, List.take_of_length_le hm32]

/-- C7 (what the code does against the claim): with the index written in two digits and
a method name that starts with a digit, the message is turned away as an id over 999;
and with the root name `ctrl` the path is taken for a control command. -/
theorem plugin_path_not_always_dispatched :
    pluginPath (cstr "Carla") [1, 2] (cstr "3band") = cstr "/Carla/12/3band" ∧
    decodePluginId (cstr "/Carla/12/3band") 5 = Decoded.over999 ∧
    handleMessage exampleEnv exampleOsc fiftyPlugins true (cstr "/Carla/12/3band") [] =
      some ⟨1, exampleOsc, [Effect.diag Diag.idOver999]⟩ ∧
    handleMessage exampleEnv exampleOsc fiftyPlugins true (cstr "/Carla/12/3band") [] ≠
      some (afterLookup 12
        (dispatchMethod exampleEnv exampleOsc ⟨212, 12, cstr "plugin"⟩ (cstr "3band") [])) ∧
    pluginPath (cstr "ctrl") [7] (cstr "set_volume") = cstr "/ctrl/7/set_volume" ∧
    handleMessage exampleEnv ctrlNamedOsc fiftyPlugins true (cstr "/ctrl/7/set_volume")
        [OscArg.float ⟨1065353216⟩] =
      some ⟨0, ctrlNamedOsc, [Effect.diag Diag.controlNotRegistered]⟩ := by
  decide

/-- C7 (amended): with the assertions of `handleMessage` holding, a path
`/root/digits/m` that does not start with `/ctrl/`, whose index is written with one,
two or three digits and whose non-empty method name `m` of at most 32 characters does
not start with a digit when there are two index digits, decodes to the plugin id the
digits write and to the method name `m`; when that id is below the plugin count and
the plugin in that slot reports it, the message is dispatched to that plugin under
`m`. -/
theorem plugin_path_dispatches (env : Env) (self : CarlaEngineOsc) (engine : CarlaEngine)
    (isTCP : Bool) (ds : List Nat) (m : CStr) (argv : List OscArg) (p : CarlaPlugin)
    (hready : serverReady self isTCP)
    (hctrl : ¬ (cstr "/ctrl/" <+: pluginPath self.fName ds m))
    (hds : ∀ d ∈ ds, d < 10) (hlen : 1 ≤ ds.length ∧ ds.length ≤ 3)
    (hm : m ≠ []) (hm32 : m.length ≤ 32)
    (hfirst : ds.length = 2 → isdigit (m.headD NUL) = false)
    (hcount : decimalValue ds < engine.curPluginCount)
    (hp : engine.plugins (decimalValue ds) = some p) (hid : p.id = decimalValue ds) :
    decodesTo self isTCP (pluginPath self.fName ds m) (decimalValue ds) (ds.length + 3) ∧
    ((pluginPath self.fName ds m).drop (self.fName.length + (ds.length + 3))).take 32 = m ∧
    handleMessage env self engine isTCP (pluginPath self.fName ds m) argv =
      some (afterLookup (decimalValue ds) (dispatchMethod env self p m argv)) := by
  have hmeth := method_of_pluginPath self.fName m ds hm32
  have hdec : decodesTo self isTCP (pluginPath self.fName ds m) (decimalValue ds)
      (ds.length + 3) := by
    have hpre : ('/' :: self.fName ++ ['/']).length = self.fName.length + 2 := by simp
    have hslash : isdigit '/' = false := by decide
    match ds, hds, hlen, hfirst, hctrl with
    | [d1], hds, _, _, hctrl =>
      have h1 : d1 < 10 := hds d1 (by simp)
      refine ⟨reachesDecoder_pluginPath self isTCP d1 [] m hready h1 hctrl, ?_⟩
      have := decode_one ('/' :: self.fName ++ ['/']) m self.fName.length (digitChar d1) '/'
        hpre (isdigit_digitChar d1 h1) hslash
      rw [digitValue_digitChar d1 h1] at this
      simpa [pluginPath, decimalValue] using this
    | [d1, d2], hds, _, hfirst, hctrl =>
      have h1 : d1 < 10 := hds d1 (by simp)
      have h2 : d2 < 10 := hds d2 (by simp)
      refine ⟨reachesDecoder_pluginPath self isTCP d1 [d2] m hready h1 hctrl, ?_⟩
      have := decode_two ('/' :: self.fName ++ ['/']) m self.fName.length (digitChar d1)
        (digitChar d2) '/' hpre (isdigit_digitChar d1 h1) (isdigit_digitChar d2 h2) hslash
        (hfirst rfl)
      rw [digitValue_digitChar d1 h1, digitValue_digitChar d2 h2] at this
      have e : decimalValue [d1, d2] = d1 * 10 + d2 := by
        simp [decimalValue]; omega
      rw [e]
      simpa [pluginPath] using this
    | [d1, d2, d3], hds, _, _, hctrl =>
      have h1 : d1 < 10 := hds d1 (by simp)
      have h2 : d2 < 10 := hds d2 (by simp)
      have h3 : d3 < 10 := hds d3 (by simp)
      refine ⟨reachesDecoder_pluginPath self isTCP d1 [d2, d3] m hready h1 hctrl, ?_⟩
      have := decode_three ('/' :: self.fName ++ ['/']) ('/' :: m) self.fName.length
        (digitChar d1) (digitChar d2) (digitChar d3) hpre (isdigit_digitChar d1 h1)
        (isdigit_digitChar d2 h2) (isdigit_digitChar d3 h3) hslash
      rw [digitValue_digitChar d1 h1, digitValue_digitChar d2 h2,
        digitValue_digitChar d3 h3] at this
      have e : decimalValue [d1, d2, d3] = d1 * 100 + d2 * 10 + d3 := by
        simp [decimalValue]; omega
      rw [e]
      simpa [pluginPath] using this
    | [], _, hlen, _, _ => exact absurd hlen.1 (by simp)
    | _ :: _ :: _ :: _ :: _, _, hlen, _, _ => exact absurd hlen.2 (by simp)
  refine ⟨hdec, hmeth, ?_⟩
  have hstart : self.fName.length + (ds.length + 3) < (pluginPath self.fName ds m).length := by
    have : 0 < m.length := List.length_pos.mpr hm
    simp [pluginPath]
    omega
  rw [handleMessage_of_decodesTo env self engine isTCP _ argv _ _ hdec,
    handlePluginId_resolved env self engine _ _ _ argv p (by omega) hp hid hstart, hmeth]

/-- C7 (amended) at a sample input: `set_volume` for plugin 7 of fifty. -/
theorem plugin_path_dispatches_witness :
    handleMessage exampleEnv exampleOsc fiftyPlugins true (cstr "/Carla/7/set_volume")
        [OscArg.float ⟨1065353216⟩] =
      some ⟨0, exampleOsc, [Effect.getPlugin 7,
        Effect.plugin ⟨207, 7, cstr "plugin"⟩ (PluginOp.setVolume ⟨1065353216⟩ false true)]⟩ :=
  (plugin_path_dispatches exampleEnv exampleOsc fiftyPlugins true [7] (cstr "set_volume")
    [OscArg.float ⟨1065353216⟩] ⟨207, 7, cstr "plugin"⟩ (by decide) (by decide) (by decide)
    (by decide) (by decide) (by decide) (by decide) (by decide) (by decide) (by decide)).2.2

/-- C11 (the code departs from it): neither the character after the root name nor the
character after the digits is tested.  `/CarlaX5Yset_volume` has `X` and `Y` where the
shape wants `/`, yet `setVolume` is called on plugin 5; `/Carla25/3/set_volume`, a path
for an instance named `Carla25`, is taken by the instance named `Carla` as a command
`3/set_volume` for its plugin 5. -/
theorem handleMessage_separators_not_checked :
    pathAt (cstr "/CarlaX5Yset_volume") 6 = some 'X' ∧
    pathAt (cstr "/CarlaX5Yset_volume") 8 = some 'Y' ∧
    handleMessage exampleEnv exampleOsc fiftyPlugins true (cstr "/CarlaX5Yset_volume")
        [OscArg.float ⟨1065353216⟩] =
      some ⟨0, exampleOsc, [Effect.getPlugin 5,
        Effect.plugin ⟨205, 5, cstr "plugin"⟩ (PluginOp.setVolume ⟨1065353216⟩ false true)]⟩ ∧
    handleMessage exampleEnv exampleOsc fiftyPlugins true (cstr "/Carla25/3/set_volume")
        [OscArg.float ⟨1065353216⟩] =
      some ⟨0, exampleOsc, [Effect.getPlugin 5,
        Effect.plugin ⟨205, 5, cstr "plugin"⟩
          (PluginOp.handleOscMessage (cstr "3/set_volume") 1 [OscArg.float ⟨1065353216⟩]
            (cstr "f"))]⟩ := by
  decide

theorem checkOscTypes_three_ints (a0 a1 a2 : OscArg) (h0 : a0.tag = 'i') (h1 : a1.tag = 'i')
    (h2 : a2.tag = 'i') : checkOscTypes [a0, a1, a2] 3 (cstr "iii") = none := by
  simp [checkOscTypes, typesOf, h0, h1, h2, cstr]

theorem toU8_of_byte (v : Int) (h0 : 0 ≤ v) (h1 : v < 256) : Int.ofNat (toU8 v) = v := by
  unfold toU8
  have : v % 2 ^ 8 = v := Int.emod_eq_of_lt h0 (by norm_num; exact h1)
  rw [this]
  exact Int.toNat_of_nonneg h0

/-- C12: `note_on` with three 32-bit integers calls `sendMidiSingleNote` once, with the
channel, note and velocity of the message converted to `uint8_t`, when all three range
assertions hold, and makes no plugin call otherwise; the converted values equal the
wire values when the limits fit a byte; velocity `MAX_MIDI_VALUE` makes no call and
velocity `MAX_MIDI_VALUE - 1` (the limit being positive, channel and note in range)
makes the call. -/
theorem noteOn_call_iff_in_range (env : Env) (self : CarlaEngineOsc) (plugin : CarlaPlugin)
    (a0 a1 a2 : OscArg) (h0 : a0.tag = 'i') (h1 : a1.tag = 'i') (h2 : a2.tag = 'i') :
    (noteOnInRange env a0.i a1.i a2.i →
      handleMsgNoteOn env self plugin [a0, a1, a2] =
        ⟨0, self, [Effect.plugin plugin
          (PluginOp.sendMidiSingleNote (toU8 a0.i) (toU8 a1.i) (toU8 a2.i) true false true)]⟩) ∧
    (¬ noteOnInRange env a0.i a1.i a2.i →
      pluginCalls (handleMsgNoteOn env self plugin [a0, a1, a2]).effects = []) ∧
    (noteOnInRange env a0.i a1.i a2.i → env.MAX_MIDI_CHANNELS ≤ 256 →
      env.MAX_MIDI_NOTE ≤ 256 → env.MAX_MIDI_VALUE ≤ 256 →
      Int.ofNat (toU8 a0.i) = a0.i ∧ Int.ofNat (toU8 a1.i) = a1.i ∧
      Int.ofNat (toU8 a2.i) = a2.i) ∧
    (a2.i = env.MAX_MIDI_VALUE →
      pluginCalls (handleMsgNoteOn env self plugin [a0, a1, a2]).effects = []) ∧
    (a2.i = env.MAX_MIDI_VALUE - 1 → 0 < env.MAX_MIDI_VALUE →
      (a0.i ≥ 0 ∧ a0.i < env.MAX_MIDI_CHANNELS) → (a1.i ≥ 0 ∧ a1.i < env.MAX_MIDI_NOTE) →
      pluginCalls (handleMsgNoteOn env self plugin [a0, a1, a2]).effects =
        [(plugin, PluginOp.sendMidiSingleNote (toU8 a0.i) (toU8 a1.i) (toU8 a2.i)
          true false true)]) := by
  have eval : handleMsgNoteOn env self plugin [a0, a1, a2] =
      if ¬ (a0.i ≥ 0 ∧ a0.i < env.MAX_MIDI_CHANNELS) then assertFailed self 0
      else if ¬ (a1.i ≥ 0 ∧ a1.i < env.MAX_MIDI_NOTE) then assertFailed self 0
      else if ¬ (a2.i ≥ 0 ∧ a2.i < env.MAX_MIDI_VALUE) then assertFailed self 0
      else called self plugin
        (PluginOp.sendMidiSingleNote (toU8 a0.i) (toU8 a1.i) (toU8 a2.i) true false true) := by
    unfold handleMsgNoteOn
    rw [checkOscTypes_three_ints a0 a1 a2 h0 h1 h2]
    rfl
  have yes : noteOnInRange env a0.i a1.i a2.i →
      handleMsgNoteOn env self plugin [a0, a1, a2] =
        ⟨0, self, [Effect.plugin plugin
          (PluginOp.sendMidiSingleNote (toU8 a0.i) (toU8 a1.i) (toU8 a2.i) true false true)]⟩ := by
    rintro ⟨c, n, v⟩
    rw [eval, if_neg (not_not.mpr c), if_neg (not_not.mpr n), if_neg (not_not.mpr v)]
    rfl
  have no : ¬ noteOnInRange env a0.i a1.i a2.i →
      pluginCalls (handleMsgNoteOn env self plugin [a0, a1, a2]).effects = [] := by
    intro hn
    rw [eval]
    by_cases c : a0.i ≥ 0 ∧ a0.i < env.MAX_MIDI_CHANNELS
    · rw [if_neg (not_not.mpr c)]
      by_cases n : a1.i ≥ 0 ∧ a1.i < env.MAX_MIDI_NOTE
      · rw [if_neg (not_not.mpr n)]
        by_cases v : a2.i ≥ 0 ∧ a2.i < env.MAX_MIDI_VALUE
        · exact absurd ⟨c, n, v⟩ hn
        · rw [if_pos v]; rfl
      · rw [if_pos n]; rfl
    · rw [if_pos c]; rfl
  refine ⟨yes, no, ?_, ?_, ?_⟩
  · rintro ⟨c, n, v⟩ lc ln lv
    exact ⟨toU8_of_byte _ c.1 (by omega), toU8_of_byte _ n.1 (by omega),
      toU8_of_byte _ v.1 (by omega)⟩
  · intro hv
    apply no
    rintro ⟨_, _, v⟩
    omega
  · intro hv hpos c n
    rw [yes ⟨c, n, by omega⟩]
    rfl

/-- C12 at a sample input: velocity 127 of 128 is played, velocity 128 is not. -/
theorem noteOn_call_iff_in_range_witness :
    handleMsgNoteOn exampleEnv exampleOsc ⟨100, 0, cstr "synth"⟩
        [OscArg.int32 0, OscArg.int32 60, OscArg.int32 127] =
      ⟨0, exampleOsc, [Effect.plugin ⟨100, 0, cstr "synth"⟩
        (PluginOp.sendMidiSingleNote 0 60 127 true false true)]⟩ ∧
    pluginCalls (handleMsgNoteOn exampleEnv exampleOsc ⟨100, 0, cstr "synth"⟩
        [OscArg.int32 0, OscArg.int32 60, OscArg.int32 128]).effects = [] :=
  ⟨(noteOn_call_iff_in_range exampleEnv exampleOsc ⟨100, 0, cstr "synth"⟩
      (OscArg.int32 0) (OscArg.int32 60) (OscArg.int32 127) rfl rfl rfl).1 (by decide),
   (noteOn_call_iff_in_range exampleEnv exampleOsc ⟨100, 0, cstr "synth"⟩
      (OscArg.int32 0) (OscArg.int32 60) (OscArg.int32 128) rfl rfl rfl).2.1 (by decide)⟩

/-- On TCP, with the assertions holding, a path `/ctrl/method` goes to
`handleMsgControl` with that method name. -/
theorem handleMessage_ctrl (env : Env) (self : CarlaEngineOsc) (engine : CarlaEngine)
    (method : CStr) (argv : List OscArg) (h : serverReady self true) :
    handleMessage env self engine true (cstr "/ctrl/" ++ method) argv =
      some (handleMsgControl self method argv) := by
  obtain ⟨a1, a2, a3, a4, a5⟩ := serverReady_asserts h
  have hp : cstr "/ctrl/" ++ method = '/' :: 'c' :: 't' :: 'r' :: 'l' :: '/' :: method := rfl
  have ht : (cstr "/ctrl/" ++ method).take 6 = cstr "/ctrl/" := by rw [hp]; rfl
  have hd : (cstr "/ctrl/" ++ method).drop 6 = method := by rw [hp]; rfl
  have h0 : cstr "/ctrl/" ++ method ≠ [] := by rw [hp]; exact List.cons_ne_nil _ _
  have h1 : cstr "/ctrl/" ++ method ≠ cstr "/register" := by
    intro e
    have := congrArg (List.take 6) e
    rw [ht] at this
    revert this
    decide
  have h2 : cstr "/ctrl/" ++ method ≠ cstr "/unregister" := by
    intro e
    have := congrArg (List.take 6) e
    rw [ht] at this
    revert this
    decide
  unfold handleMessage
  rw [if_neg a1, if_neg h0, if_neg a2, if_neg a3, if_neg a4, if_neg a5, if_neg h1, if_neg h2,
    if_pos ht, if_neg (by decide), hd]

theorem toU32_of_nonneg (v : Int) (h0 : 0 ≤ v) (h1 : v < 2 ^ 32) : Int.ofNat (toU32 v) = v := by
  unfold toU32
  rw [Int.emod_eq_of_lt h0 h1]
  exact Int.toNat_of_nonneg h0

theorem toU64_of_nonneg (v : Int) (h0 : 0 ≤ v) (h1 : v < 2 ^ 64) : Int.ofNat (toU64 v) = v := by
  unfold toU64
  rw [Int.emod_eq_of_lt h0 h1]
  exact Int.toNat_of_nonneg h0

/-- The `add_plugin` branch of `handleMsgControl` on seven arguments, a TCP client being
registered. -/
theorem handleMsgControl_add_plugin (self : CarlaEngineOsc) (a0 a1 a2 a3 a4 a5 a6 : OscArg)
    (hown : ¬ self.fControlDataTCP.owner = none)
    (h0 : a0.tag = 'i') (h1 : a1.tag = 'i') (h2 : a2.tag = 's') (h3 : a3.tag = 's')
    (h4 : a4.tag = 's') (h5 : a5.tag = 'i' ∨ a5.tag = 'h') (h6 : a6.tag = 'i')
    (hb : a0.i ≥ 0) (hp : a1.i ≥ 0) (hl : a4.s ≠ []) (ho : a6.i ≥ 0) :
    handleMsgControl self (cstr "add_plugin") [a0, a1, a2, a3, a4, a5, a6] =
      ⟨0, self, [Effect.engine (EngineOp.addPlugin a0.i a1.i
        (if a2.s = cstr "(null)" then none else some a2.s)
        (if a3.s = cstr "(null)" then none else some a3.s) a4.s
        (if a5.tag = 'i' then a5.i else a5.h) (toU32 a6.i))]⟩ := by
  unfold handleMsgControl
  dsimp only
  rw [if_neg (by decide), if_neg hown, if_neg (by decide), if_neg (by decide), if_neg (by decide), if_neg (by decide), if_neg (by decide), if_neg (by decide), if_neg (by decide), if_neg (by decide), if_neg (by decide), if_pos rfl]
  have e0 : argAt [a0, a1, a2, a3, a4, a5, a6] 0 = a0 := rfl
  have e1 : argAt [a0, a1, a2, a3, a4, a5, a6] 1 = a1 := rfl
  have e2 : argAt [a0, a1, a2, a3, a4, a5, a6] 2 = a2 := rfl
  have e3 : argAt [a0, a1, a2, a3, a4, a5, a6] 3 = a3 := rfl
  have e4 : argAt [a0, a1, a2, a3, a4, a5, a6] 4 = a4 := rfl
  have e5 : argAt [a0, a1, a2, a3, a4, a5, a6] 5 = a5 := rfl
  have e6 : argAt [a0, a1, a2, a3, a4, a5, a6] 6 = a6 := rfl
  rw [e0, e1, e2, e3, e4, e5, e6]
  have hlen : ¬ ([a0, a1, a2, a3, a4, a5, a6].length ≠ 7) := not_not.mpr rfl
  rw [if_neg hlen, if_neg (not_not.mpr h0), if_neg (not_not.mpr h1),
    if_neg (not_not.mpr h2), if_neg (not_not.mpr h3), if_neg (not_not.mpr h4),
    if_neg (not_not.mpr h6), if_neg (not_not.mpr hb), if_neg (not_not.mpr hp), if_neg hl]
  rcases h5 with h5 | h5
  · rw [if_pos h5, if_neg (not_not.mpr ho), if_pos h5]
    rfl
  · have hni : ¬ a5.tag = 'i' := by rw [h5]; decide
    rw [if_neg hni, if_pos h5, if_neg (not_not.mpr ho), if_neg hni]
    rfl

/-- C13: `add_plugin` on TCP with a client registered, seven arguments typed
i,i,s,s,s,(i or h),i, non-negative btype, ptype and options and a non-empty label: the
call returns 0 and its one effect is one `addPlugin`, with filename and name absent
exactly when the argument is the string `(null)` and else unchanged, the label
unchanged, the unique id read from the 32-bit or the 64-bit view according to the tag,
and the options converted to `uint32_t` (the same number for a 32-bit value). -/
theorem add_plugin_forwards_arguments (env : Env) (self : CarlaEngineOsc)
    (engine : CarlaEngine) (a0 a1 a2 a3 a4 a5 a6 : OscArg)
    (hready : serverReady self true) (hown : self.fControlDataTCP.owner ≠ none)
    (h0 : a0.tag = 'i') (h1 : a1.tag = 'i') (h2 : a2.tag = 's') (h3 : a3.tag = 's')
    (h4 : a4.tag = 's') (h5 : a5.tag = 'i' ∨ a5.tag = 'h') (h6 : a6.tag = 'i')
    (hb : a0.i ≥ 0) (hp : a1.i ≥ 0) (hl : a4.s ≠ []) (ho : a6.i ≥ 0) :
    handleMessage env self engine true (cstr "/ctrl/add_plugin")
        [a0, a1, a2, a3, a4, a5, a6] =
      some ⟨0, self, [Effect.engine (EngineOp.addPlugin a0.i a1.i
        (if a2.s = cstr "(null)" then none else some a2.s)
        (if a3.s = cstr "(null)" then none else some a3.s) a4.s
        (if a5.tag = 'i' then a5.i else a5.h) (toU32 a6.i))]⟩ ∧
    (isInt32 a6.i → Int.ofNat (toU32 a6.i) = a6.i) := by
  constructor
  · rw [show cstr "/ctrl/add_plugin" = cstr "/ctrl/" ++ cstr "add_plugin" from rfl,
      handleMessage_ctrl env self engine _ _ hready,
      handleMsgControl_add_plugin self a0 a1 a2 a3 a4 a5 a6 hown h0 h1 h2 h3 h4 h5 h6 hb hp hl ho]
  · intro h32
    exact toU32_of_nonneg _ ho (lt_trans h32.2 (by norm_num))

/-- C13 at the sample of the claim: `(2, 1, "(null)", "(null)", "Reverb", 0, 0)`. -/
theorem add_plugin_forwards_arguments_witness :
    handleMessage exampleEnv boundOsc fiftyPlugins true (cstr "/ctrl/add_plugin")
        [OscArg.int32 2, OscArg.int32 1, OscArg.str (cstr "(null)"),
          OscArg.str (cstr "(null)"), OscArg.str (cstr "Reverb"), OscArg.int32 0,
          OscArg.int32 0] =
      some ⟨0, boundOsc,
        [Effect.engine (EngineOp.addPlugin 2 1 none none (cstr "Reverb") 0 0)]⟩ :=
  (add_plugin_forwards_arguments exampleEnv boundOsc fiftyPlugins (OscArg.int32 2)
    (OscArg.int32 1) (OscArg.str (cstr "(null)")) (OscArg.str (cstr "(null)"))
    (OscArg.str (cstr "Reverb")) (OscArg.int32 0) (OscArg.int32 0) (by decide) (by decide)
    rfl rfl rfl rfl rfl (Or.inl rfl) rfl (by decide) (by decide) (by decide) (by decide)).1

/-- The `rename_plugin` branch of `handleMsgControl` on an integer and a string: index
and name are both read from the first argument. -/
theorem handleMsgControl_rename_plugin (self : CarlaEngineOsc) (a0 a1 : OscArg)
    (hown : ¬ self.fControlDataTCP.owner = none) (h0 : a0.tag = 'i') (h1 : a1.tag = 's') :
    handleMsgControl self (cstr "rename_plugin") [a0, a1] =
      if ¬ (a0.i ≥ 0) then assertFailed self 0
      else if a0.s = [] then assertFailed self 0
      else engineCalled self (EngineOp.renamePlugin (toU32 a0.i) a0.s) := by
  unfold handleMsgControl
  dsimp only
  rw [if_neg (by decide), if_neg hown, if_neg (by decide), if_neg (by decide), if_neg (by decide), if_neg (by decide), if_neg (by decide), if_neg (by decide), if_neg (by decide), if_neg (by decide), if_neg (by decide), if_neg (by decide), if_neg (by decide), if_neg (by decide), if_pos rfl]
  have e0 : argAt [a0, a1] 0 = a0 := rfl
  have e1 : argAt [a0, a1] 1 = a1 := rfl
  have hlen : ¬ ([a0, a1].length ≠ 2) := not_not.mpr rfl
  rw [e0, e1, if_neg hlen, if_neg (not_not.mpr h0), if_neg (not_not.mpr h1)]

/-- C18 (the code departs from it): the new name is read from the first argument, the
integer, instead of the second.  Renaming plugin 3 to `Reverb` calls `renamePlugin`
with the bytes of the integer 3 as the name, and renaming plugin 0, whose integer reads
as the empty string, fails the non-empty assertion and calls nothing. -/
theorem rename_plugin_reads_name_from_index :
    handleMessage exampleEnv boundOsc fiftyPlugins true (cstr "/ctrl/rename_plugin")
        [intThreeArg, OscArg.str (cstr "Reverb")] =
      some ⟨0, boundOsc, [Effect.engine (EngineOp.renamePlugin 3 [Char.ofNat 3])]⟩ ∧
    handleMessage exampleEnv boundOsc fiftyPlugins true (cstr "/ctrl/rename_plugin")
        [OscArg.int32 0, OscArg.str (cstr "Reverb")] =
      some ⟨0, boundOsc, [Effect.diag Diag.safeAssert]⟩ := by
  decide

/-- The `switch_plugins` branch of `handleMsgControl` on two integers: both indices
are read from the first argument. -/
theorem handleMsgControl_switch_plugins (self : CarlaEngineOsc) (a0 a1 : OscArg)
    (hown : ¬ self.fControlDataTCP.owner = none) (h0 : a0.tag = 'i') (h1 : a1.tag = 'i') :
    handleMsgControl self (cstr "switch_plugins") [a0, a1] =
      if ¬ (a0.i ≥ 0) then assertFailed self 0
      else engineCalled self (EngineOp.switchPlugins (toU32 a0.i) (toU32 a0.i)) := by
  unfold handleMsgControl
  dsimp only
  rw [if_neg (by decide), if_neg hown, if_neg (by decide), if_neg (by decide), if_neg (by decide), if_neg (by decide), if_neg (by decide), if_neg (by decide), if_neg (by decide), if_neg (by decide), if_neg (by decide), if_neg (by decide), if_neg (by decide), if_neg (by decide), if_neg (by decide), if_neg (by decide), if_neg (by decide), if_pos rfl]
  have e0 : argAt [a0, a1] 0 = a0 := rfl
  have e1 : argAt [a0, a1] 1 = a1 := rfl
  have hlen : ¬ ([a0, a1].length ≠ 2) := not_not.mpr rfl
  rw [e0, e1, if_neg hlen, if_neg (not_not.mpr h0), if_neg (not_not.mpr h1)]
  by_cases h : a0.i ≥ 0
  · rw [if_neg (not_not.mpr h), if_neg (not_not.mpr h)]
  · rw [if_pos h, if_pos h]

/-- C19 (the code departs from it): the second index is read from the first argument.
`switch_plugins (2, 5)` calls `switchPlugins(2, 2)`, and `switch_plugins (2, -1)` calls
`switchPlugins(2, 2)` although its second index is negative. -/
theorem switch_plugins_reads_first_index_twice :
    handleMessage exampleEnv boundOsc fiftyPlugins true (cstr "/ctrl/switch_plugins")
        [OscArg.int32 2, OscArg.int32 5] =
      some ⟨0, boundOsc, [Effect.engine (EngineOp.switchPlugins 2 2)]⟩ ∧
    handleMessage exampleEnv boundOsc fiftyPlugins true (cstr "/ctrl/switch_plugins")
        [OscArg.int32 2, OscArg.int32 (-1)] =
      some ⟨0, boundOsc, [Effect.engine (EngineOp.switchPlugins 2 2)]⟩ := by
  decide

/-- The `transport_relocate` branch of `handleMsgControl` on one argument. -/
theorem handleMsgControl_transport_relocate (self : CarlaEngineOsc) (a : OscArg)
    (hown : ¬ self.fControlDataTCP.owner = none) :
    handleMsgControl self (cstr "transport_relocate") [a] =
      if a.tag = 'i' then
        (if ¬ (a.i ≥ 0) then assertFailed self 0
         else engineCalled self (EngineOp.transportRelocate (toU64 a.i)))
      else if a.tag = 'h' then
        (if ¬ (a.h ≥ 0) then assertFailed self 0
         else engineCalled self (EngineOp.transportRelocate (toU64 a.h)))
      else ⟨0, self, [Effect.diag Diag.wrongOscType]⟩ := by
  unfold handleMsgControl
  dsimp only
  rw [if_neg (by decide), if_neg hown, if_neg (by decide), if_neg (by decide), if_neg (by decide), if_neg (by decide), if_neg (by decide), if_neg (by decide), if_neg (by decide), if_neg (by decide), if_pos rfl]
  have e0 : argAt [a] 0 = a := rfl
  have hlen : ¬ ([a].length ≠ 1) := not_not.mpr rfl
  rw [e0, if_neg hlen]

/-- C20: `transport_relocate` on TCP with a client registered and one argument returns
0 with the dispatcher unchanged; its engine calls are one `transportRelocate` when the
argument is a 32-bit integer with value `v ≥ 0` or a 64-bit integer with value
`v ≥ 0`, the frame being `v` converted to `uint64_t`, which is `v` itself, and no
engine call for a negative value or any other type tag. -/
theorem transport_relocate_iff_nonneg_integer (env : Env) (self : CarlaEngineOsc)
    (engine : CarlaEngine) (a : OscArg) (hready : serverReady self true)
    (hown : self.fControlDataTCP.owner ≠ none) (h32 : isInt32 a.i) (h64 : isInt64 a.h) :
    ∃ out, handleMessage env self engine true (cstr "/ctrl/transport_relocate") [a] =
        some out ∧ out.ret = 0 ∧ out.self = self ∧ pluginCalls out.effects = [] ∧
      engineCalls out.effects =
        (if a.tag = 'i' ∧ a.i ≥ 0 then [EngineOp.transportRelocate (toU64 a.i)]
         else if a.tag = 'h' ∧ a.h ≥ 0 then [EngineOp.transportRelocate (toU64 a.h)]
         else []) ∧
      (a.i ≥ 0 → Int.ofNat (toU64 a.i) = a.i) ∧ (a.h ≥ 0 → Int.ofNat (toU64 a.h) = a.h) := by
  refine ⟨handleMsgControl self (cstr "transport_relocate") [a], ?_, ?_, ?_, ?_, ?_, ?_, ?_⟩
  · rw [show cstr "/ctrl/transport_relocate" = cstr "/ctrl/" ++ cstr "transport_relocate"
      from rfl, handleMessage_ctrl env self engine _ _ hready]
  · exact (shape_handleMsgControl self _ _).2.1
  · exact (shape_handleMsgControl self _ _).1
  · exact pluginCalls_handleMsgControl self _ _
  · rw [handleMsgControl_transport_relocate self a hown]
    by_cases hi : a.tag = 'i'
    · by_cases hv : a.i ≥ 0
      · simp [hi, hv, engineCalls, engineCalled]
      · simp [hi, hv, engineCalls, assertFailed]
    · by_cases hh : a.tag = 'h'
      · by_cases hv : a.h ≥ 0
        · simp [hi, hh, hv, engineCalls, engineCalled]
        · simp [hi, hh, hv, engineCalls, assertFailed]
      · simp [hi, hh, engineCalls]
  · intro hv
    exact toU64_of_nonneg _ hv (lt_trans h32.2 (by norm_num))
  · intro hv
    exact toU64_of_nonneg _ hv (lt_trans h64.2 (by norm_num))

/-- C20 at sample inputs: a 64-bit frame 48000 is relocated to, a negative 32-bit value
is not. -/
theorem transport_relocate_iff_nonneg_integer_witness :
    (∃ out, handleMessage exampleEnv boundOsc fiftyPlugins true
        (cstr "/ctrl/transport_relocate") [OscArg.int64 48000] = some out ∧
      engineCalls out.effects = [EngineOp.transportRelocate 48000]) ∧
    (∃ out, handleMessage exampleEnv boundOsc fiftyPlugins true
        (cstr "/ctrl/transport_relocate") [OscArg.int32 (-1)] = some out ∧
      engineCalls out.effects = []) := by
  obtain ⟨o1, h1, _, _, _, e1, _⟩ := transport_relocate_iff_nonneg_integer exampleEnv boundOsc
    fiftyPlugins (OscArg.int64 48000) (by decide) (by decide) (by decide) (by decide)
  obtain ⟨o2, h2, _, _, _, e2, _⟩ := transport_relocate_iff_nonneg_integer exampleEnv boundOsc
    fiftyPlugins (OscArg.int32 (-1)) (by decide) (by decide) (by decide) (by decide)
  exact ⟨⟨o1, h1, e1⟩, ⟨o2, h2, e2⟩⟩

/-- A method name outside the chain "Internal methods" goes to the plugin's own
`handleOscMessage`, unchanged and with the arguments as they came. -/
theorem dispatchMethod_other (env : Env) (self : CarlaEngineOsc) (plugin : CarlaPlugin)
    (method : CStr) (argv : List OscArg) (h : method ∉ internalMethodNames) :
    dispatchMethod env self plugin method argv =
      ⟨0, self, [Effect.plugin plugin
        (PluginOp.handleOscMessage method argv.length argv (typesOf argv))]⟩ := by
  have hne : ∀ name ∈ internalMethodNames, ¬ method = name := by
    intro name hn heq
    exact h (heq ▸ hn)
  unfold dispatchMethod
  rw [if_neg (hne _ (by decide)), if_neg (hne _ (by decide)), if_neg (hne _ (by decide)),
    if_neg (hne _ (by decide)), if_neg (hne _ (by decide)), if_neg (hne _ (by decide)),
    if_neg (hne _ (by decide)), if_neg (hne _ (by decide)), if_neg (hne _ (by decide)),
    if_neg (hne _ (by decide)), if_neg (hne _ (by decide)), if_neg (hne _ (by decide)),
    if_neg (hne _ (by decide)), if_neg (hne _ (by decide)), if_neg (hne _ (by decide)),
    if_neg (hne _ (by decide)), if_neg (hne _ (by decide))]

/-- C14 (what the code does against the claim): `set_option`, which is not in the
command table of spec 4.4, is not forwarded to the plugin but dropped without any
plugin call; and a method name of 40 characters is forwarded cut to its first 32. -/
theorem unlisted_method_not_always_forwarded :
    handleMessage exampleEnv exampleOsc fiftyPlugins true (cstr "/Carla/0/set_option")
        [OscArg.int32 1, OscArg.int32 1] =
      some ⟨0, exampleOsc, [Effect.getPlugin 0]⟩ ∧
    handleMessage exampleEnv exampleOsc fiftyPlugins true
        (cstr "/Carla/0/this_method_name_is_longer_than_32_chars") [] =
      some ⟨0, exampleOsc, [Effect.getPlugin 0,
        Effect.plugin ⟨200, 0, cstr "plugin"⟩
          (PluginOp.handleOscMessage (cstr "this_method_name_is_longer_than_") 0 []
            [])]⟩ := by
  decide

/-- C14 (amended): for a resolved plugin and a non-empty decoded method name (the first
32 characters of the text after the index segment, the whole text when it has at most
32) that is none of the names of the chain "Internal methods" (the thirteen commands
of the table and `set_option`, `set_ctrl_channel`, `set_custom_data`, `set_chunk`),
`handleMessage` returns 0 and, after the lookup, makes exactly one plugin call: the
plugin's `handleOscMessage` with the decoded name and the argument count, argument
list and type string as they came. -/
theorem unknown_method_forwarded (env : Env) (self : CarlaEngineOsc) (engine : CarlaEngine)
    (isTCP : Bool) (path : CStr) (argv : List OscArg) (i off : Nat) (p : CarlaPlugin)
    (hdec : decodesTo self isTCP path i off) (hle : i ≤ engine.curPluginCount)
    (hp : engine.plugins i = some p) (hid : p.id = i)
    (hm : (path.drop (self.fName.length + off)).take 32 ≠ [])
    (hnot : (path.drop (self.fName.length + off)).take 32 ∉ internalMethodNames) :
    handleMessage env self engine isTCP path argv =
      some ⟨0, self, [Effect.getPlugin i, Effect.plugin p
        (PluginOp.handleOscMessage ((path.drop (self.fName.length + off)).take 32)
          argv.length argv (typesOf argv))]⟩ ∧
    ((path.drop (self.fName.length + off)).length ≤ 32 →
      (path.drop (self.fName.length + off)).take 32 = path.drop (self.fName.length + off)) := by
  have hstart : self.fName.length + off < path.length := by
    by_contra hge
    apply hm
    rw [List.drop_of_length_le (by omega)]
    rfl
  refine ⟨?_, fun h => List.take_of_length_le h⟩
  rw [handleMessage_of_decodesTo env self engine isTCP path argv i off hdec,
    handlePluginId_resolved env self engine path _ i argv p hle hp hid hstart,
    dispatchMethod_other env self p _ argv hnot]
  rfl

/-- C14 (amended) at a sample input: `configure` goes to the plugin's own handler. -/
theorem unknown_method_forwarded_witness :
    handleMessage exampleEnv exampleOsc fiftyPlugins true (cstr "/Carla/7/configure")
        [OscArg.str (cstr "key"), OscArg.str (cstr "value")] =
      some ⟨0, exampleOsc, [Effect.getPlugin 7, Effect.plugin ⟨207, 7, cstr "plugin"⟩
        (PluginOp.handleOscMessage (cstr "configure") 2
          [OscArg.str (cstr "key"), OscArg.str (cstr "value")] (cstr "ss"))]⟩ :=
  (unknown_method_forwarded exampleEnv exampleOsc fiftyPlugins true (cstr "/Carla/7/configure")
    [OscArg.str (cstr "key"), OscArg.str (cstr "value")] 7 4 ⟨207, 7, cstr "plugin"⟩
    (by decide) (by decide) (by decide) (by decide) (by decide) (by decide)).1

theorem checkOscTypes_pass (argv : List OscArg) (n : Nat) (sig : CStr)
    (hl : argv.length = n) (ht : typesOf argv = sig) : checkOscTypes argv n sig = none := by
  unfold checkOscTypes
  rw [if_neg (not_not.mpr hl), if_neg (not_not.mpr ht)]

/-- A plugin command whose arguments pass the type check and the range assertions of
its handler makes exactly one call, on the plugin the handler was given. -/
theorem dispatchMethod_accepts (env : Env) (self : CarlaEngineOsc) (plugin : CarlaPlugin)
    (name : CStr) (n : Nat) (sig : CStr) (argv : List OscArg)
    (hmem : (name, n, sig) ∈ declaredSignatures) (hl : argv.length = n)
    (ht : typesOf argv = sig) (hr : rangeChecksPass env name argv) :
    ∃ op, dispatchMethod env self plugin name argv = ⟨0, self, [Effect.plugin plugin op]⟩ := by
  have hc := checkOscTypes_pass argv n sig hl ht
  simp only [declaredSignatures, List.mem_cons, Prod.mk.injEq, List.not_mem_nil, or_false] at hmem
  rcases hmem with e | e | e | e | e | e | e | e | e | e | e | e | e <;>
    obtain ⟨hname, hn, hsig⟩ := e <;> subst hname hn hsig
  · rw [dispatchMethod_set_active]; unfold handleMsgSetActive; rw [hc]; exact ⟨_, rfl⟩
  · rw [dispatchMethod_set_drywet]; unfold handleMsgSetDryWet; rw [hc]; exact ⟨_, rfl⟩
  · rw [dispatchMethod_set_volume]; unfold handleMsgSetVolume; rw [hc]; exact ⟨_, rfl⟩
  · rw [dispatchMethod_set_balance_left]; unfold handleMsgSetBalanceLeft; rw [hc]
    exact ⟨_, rfl⟩
  · rw [dispatchMethod_set_balance_right]; unfold handleMsgSetBalanceRight; rw [hc]
    exact ⟨_, rfl⟩
  · rw [dispatchMethod_set_panning]; unfold handleMsgSetPanning; rw [hc]; exact ⟨_, rfl⟩
  · have hr' : (argAt argv 0).i ≥ 0 := hr
    rw [dispatchMethod_set_parameter_value]; unfold handleMsgSetParameterValue; rw [hc]
    dsimp only
    rw [if_neg (not_not.mpr hr')]
    exact ⟨_, rfl⟩
  · have hr' : (argAt argv 0).i ≥ 0 ∧
        ((argAt argv 1).i ≥ -1 ∧ (argAt argv 1).i < env.MAX_MIDI_CONTROL) := hr
    rw [dispatchMethod_set_parameter_midi_cc]; unfold handleMsgSetParameterMidiCC; rw [hc]
    dsimp only
    rw [if_neg (not_not.mpr hr'.1), if_neg (not_not.mpr hr'.2)]
    exact ⟨_, rfl⟩
  · have hr' : (argAt argv 0).i ≥ 0 ∧
        ((argAt argv 1).i ≥ 0 ∧ (argAt argv 1).i < env.MAX_MIDI_CHANNELS) := hr
    rw [dispatchMethod_set_parameter_midi_channel]; unfold handleMsgSetParameterMidiChannel
    rw [hc]
    dsimp only
    rw [if_neg (not_not.mpr hr'.1), if_neg (not_not.mpr hr'.2)]
    exact ⟨_, rfl⟩
  · have hr' : (argAt argv 0).i ≥ -1 := hr
    rw [dispatchMethod_set_program]; unfold handleMsgSetProgram; rw [hc]
    dsimp only
    rw [if_neg (not_not.mpr hr')]
    exact ⟨_, rfl⟩
  · have hr' : (argAt argv 0).i ≥ -1 := hr
    rw [dispatchMethod_set_midi_program]; unfold handleMsgSetMidiProgram; rw [hc]
    dsimp only
    rw [if_neg (not_not.mpr hr')]
    exact ⟨_, rfl⟩
  · have hr' : noteOnInRange env (argAt argv 0).i (argAt argv 1).i (argAt argv 2).i := hr
    obtain ⟨c, k, v⟩ := hr'
    rw [dispatchMethod_note_on]; unfold handleMsgNoteOn; rw [hc]
    dsimp only
    rw [if_neg (not_not.mpr c), if_neg (not_not.mpr k), if_neg (not_not.mpr v)]
    exact ⟨_, rfl⟩
  · have hr' : ((argAt argv 0).i ≥ 0 ∧ (argAt argv 0).i < env.MAX_MIDI_CHANNELS) ∧
        ((argAt argv 1).i ≥ 0 ∧ (argAt argv 1).i < env.MAX_MIDI_NOTE) := hr
    rw [dispatchMethod_note_off]; unfold handleMsgNoteOff; rw [hc]
    dsimp only
    rw [if_neg (not_not.mpr hr'.1), if_neg (not_not.mpr hr'.2)]
    exact ⟨_, rfl⟩

/-- C15: for an index below the plugin count whose plugin reports that index, a path
that decodes to that index and to one of the thirteen implemented plugin commands, and
arguments that pass the declared signature and the range assertions of the command,
`handleMessage` returns 0 and, after the lookup, its only effect is one call on the
plugin at that index. -/
theorem accepted_command_calls_its_plugin_once (env : Env) (self : CarlaEngineOsc)
    (engine : CarlaEngine) (isTCP : Bool) (path : CStr) (argv : List OscArg) (i off : Nat)
    (p : CarlaPlugin) (name : CStr) (n : Nat) (sig : CStr)
    (hdec : decodesTo self isTCP path i off) (hlt : i < engine.curPluginCount)
    (hp : engine.plugins i = some p) (hid : p.id = i)
    (hname : (path.drop (self.fName.length + off)).take 32 = name)
    (hmem : (name, n, sig) ∈ declaredSignatures) (hl : argv.length = n)
    (ht : typesOf argv = sig) (hr : rangeChecksPass env name argv) :
    ∃ op, handleMessage env self engine isTCP path argv =
      some ⟨0, self, [Effect.getPlugin i, Effect.plugin p op]⟩ := by
  have hall : ∀ x ∈ declaredSignatures, x.1 ≠ [] := by decide
  have hne : name ≠ [] := hall _ hmem
  have hstart : self.fName.length + off < path.length := by
    by_contra hge
    apply hne
    rw [← hname, List.drop_of_length_le (by omega)]
    rfl
  obtain ⟨op, hop⟩ := dispatchMethod_accepts env self p name n sig argv hmem hl ht hr
  refine ⟨op, ?_⟩
  rw [handleMessage_of_decodesTo env self engine isTCP path argv i off hdec,
    handlePluginId_resolved env self engine path _ i argv p (by omega) hp hid hstart,
    hname, hop]
  rfl

/-- C15 at a sample input: `note_off` for plugin 3 of fifty. -/
theorem accepted_command_calls_its_plugin_once_witness :
    ∃ op, handleMessage exampleEnv exampleOsc fiftyPlugins false (cstr "/Carla/3/note_off")
        [OscArg.int32 0, OscArg.int32 60] =
      some ⟨0, exampleOsc, [Effect.getPlugin 3, Effect.plugin ⟨203, 3, cstr "plugin"⟩ op]⟩ :=
  accepted_command_calls_its_plugin_once exampleEnv exampleOsc fiftyPlugins false
    (cstr "/Carla/3/note_off") [OscArg.int32 0, OscArg.int32 60] 3 4
    ⟨203, 3, cstr "plugin"⟩ (cstr "note_off") 2 (cstr "ii") (by decide) (by decide)
    (by decide) (by decide) (by decide) (by decide) (by decide) (by decide) (by decide)

theorem engineCalls_append (a b : List Effect) :
    engineCalls (a ++ b) = engineCalls a ++ engineCalls b := by
  unfold engineCalls
  exact List.filterMap_append _ _ _

theorem sends_append (a b : List Effect) : sends (a ++ b) = sends a ++ sends b := by
  unfold sends
  exact List.filterMap_append _ _ _

theorem engineCalls_registerPluginLoop (engine : CarlaEngine) (n i : Nat) :
    engineCalls (registerPluginLoop engine i n) =
      (List.range' i n).filterMap (fun j =>
        (engine.plugins j).map (fun plugin =>
          EngineOp.callback false true CallbackOpcode.PLUGIN_ADDED j 0 0 0 F32.zero
            plugin.name)) := by
  induction n generalizing i with
  | zero => rfl
  | succ n ih =>
    unfold registerPluginLoop
    rw [engineCalls_append, ih (i + 1), List.range'_succ, List.filterMap_cons]
    cases engine.plugins i <;> rfl

theorem sends_registerPluginLoop (engine : CarlaEngine) (n i : Nat) :
    sends (registerPluginLoop engine i n) = [] := by
  induction n generalizing i with
  | zero => rfl
  | succ n ih =>
    unfold registerPluginLoop
    rw [sends_append, ih (i + 1), List.append_nil]
    cases engine.plugins i <;> rfl

/-- The engine calls of the snapshot block are the snapshot as the spec words it. -/
theorem engineCalls_registerSnapshot (engine : CarlaEngine) :
    engineCalls (registerSnapshot engine) = expectedSnapshot engine := by
  unfold registerSnapshot expectedSnapshot
  rw [← List.singleton_append, engineCalls_append, engineCalls_append,
    engineCalls_registerPluginLoop, List.range_eq_range']
  rfl

theorem sends_registerSnapshot (engine : CarlaEngine) : sends (registerSnapshot engine) = [] := by
  unfold registerSnapshot
  rw [← List.singleton_append, sends_append, sends_append, sends_registerPluginLoop]
  rfl

/-- C16: `/register` with a string argument on a transport without binding returns 0
and binds the transport to the url (owner the url, path the url's path, target made
for the transport's protocol from the url's host and port).  On TCP its engine calls
are, in this order, the engine-started callback with the engine configuration, one
plugin-added callback for each loaded plugin by increasing index with that index and
the plugin's name, and the graph refresh, and nothing is sent with `lo_send_from`; on
UDP the only effect is the registration line. -/
theorem register_emits_snapshot_on_tcp_only (env : Env) (self : CarlaEngineOsc)
    (engine : CarlaEngine) (isTCP : Bool) (a : OscArg) (hready : serverReady self isTCP)
    (hs : a.tag = 's') (hfree : (self.controlData isTCP).owner = none) :
    ∃ out, handleMessage env self engine isTCP (cstr "/register") [a] = some out ∧
      out.ret = 0 ∧
      out.self = self.setControlData isTCP ⟨some a.s, some (env.lo_url_get_path a.s),
        some ⟨isTCP, env.lo_url_hostname a.s, env.lo_url_port a.s⟩⟩ ∧
      (isTCP = true → engineCalls out.effects = expectedSnapshot engine ∧
        sends out.effects = [] ∧ pluginCalls out.effects = []) ∧
      (isTCP = false → out.effects = [Effect.info Info.registered]) := by
  refine ⟨_, handleMessage_register env self engine isTCP [a] hready, ?_, ?_, ?_, ?_⟩
  · rw [handleMsgRegister_free env self engine isTCP a hs hfree]
  · rw [handleMsgRegister_free env self engine isTCP a hs hfree]
  · intro ht
    rw [handleMsgRegister_free env self engine isTCP a hs hfree]
    dsimp only
    rw [if_pos ht, ← List.singleton_append, engineCalls_append, sends_append,
      pluginCalls_append, engineCalls_registerSnapshot, sends_registerSnapshot,
      pluginCalls_registerSnapshot]
    exact ⟨rfl, rfl, rfl⟩
  · intro ht
    rw [handleMsgRegister_free env self engine isTCP a hs hfree]
    dsimp only
    rw [if_neg (by rw [ht]; decide)]

/-- C16 at a sample input: a first client registers on TCP with an engine that counts
one plugin. -/
theorem register_emits_snapshot_on_tcp_only_witness :
    ∃ out, handleMessage exampleEnv exampleOsc staleEngine true (cstr "/register")
        [OscArg.str (cstr "osc.tcp://10.0.0.1:9000/first")] = some out ∧
      engineCalls out.effects =
        [EngineOp.callback false true CallbackOpcode.ENGINE_STARTED 0 0 0 512 F32.zero
           (cstr "JACK"),
         EngineOp.callback false true CallbackOpcode.PLUGIN_ADDED 0 0 0 0 F32.zero
           (cstr "old"),
         EngineOp.patchbayRefresh false true false] := by
  obtain ⟨out, h, _, _, ht, _⟩ := register_emits_snapshot_on_tcp_only exampleEnv exampleOsc
    staleEngine true (OscArg.str (cstr "osc.tcp://10.0.0.1:9000/first")) (by decide)
    (by decide) (by decide)
  exact ⟨out, h, (ht rfl).1⟩

theorem controlData_setControlData_other (self : CarlaEngineOsc) (isTCP : Bool)
    (d : CarlaOscData) :
    (self.setControlData isTCP d).controlData (!isTCP) = self.controlData (!isTCP) := by
  cases isTCP <;> rfl

theorem handleMsgRegister_self (env : Env) (self : CarlaEngineOsc) (engine : CarlaEngine)
    (isTCP : Bool) (argv : List OscArg) :
    (handleMsgRegister env self engine isTCP argv).self = self ∨
    ∃ d, (handleMsgRegister env self engine isTCP argv).self = self.setControlData isTCP d := by
  unfold handleMsgRegister
  split
  · exact Or.inl rfl
  · dsimp only
    split
    · exact Or.inl rfl
    · exact Or.inr ⟨_, rfl⟩

theorem handleMsgUnregister_self (self : CarlaEngineOsc) (isTCP : Bool) (argv : List OscArg) :
    (handleMsgUnregister self isTCP argv).self = self ∨
    ∃ d, (handleMsgUnregister self isTCP argv).self = self.setControlData isTCP d := by
  unfold handleMsgUnregister
  split
  · exact Or.inl rfl
  · dsimp only
    split
    · exact Or.inl rfl
    · split
      · exact Or.inr ⟨_, rfl⟩
      · exact Or.inl rfl

theorem handlePluginId_self (env : Env) (self : CarlaEngineOsc) (engine : CarlaEngine)
    (path : CStr) (start i : Nat) (argv : List OscArg) (out : Outcome)
    (h : handlePluginId env self engine path start i argv = some out) : out.self = self := by
  unfold handlePluginId at h
  split at h
  · cases h; rfl
  · split at h
    · cases h; rfl
    · next plugin hp =>
      dsimp only at h
      split_ifs at h with c1 c2 c3
      · cases h; rfl
      · cases h; rfl
      · simp only [Option.some.injEq] at h
        subst h
        exact (shape_dispatchMethod env self plugin _ argv).1

/-- Whatever the message, the dispatcher after the call is the dispatcher before it,
or differs from it in the binding of the receiving transport alone. -/
theorem handleMessage_self (env : Env) (self : CarlaEngineOsc) (engine : CarlaEngine)
    (isTCP : Bool) (path : CStr) (argv : List OscArg) (out : Outcome)
    (h : handleMessage env self engine isTCP path argv = some out) :
    out.self = self ∨ ∃ d, out.self = self.setControlData isTCP d := by
  by_cases hr : reachesDecoder self isTCP path
  · left
    rw [handleMessage_of_reachesDecoder env self engine isTCP path argv hr] at h
    unfold afterRootCheck at h
    cases hd : decodePluginId path self.fName.length with
    | readPastEnd => rw [hd] at h; cases h
    | invalid => rw [hd] at h; cases h; rfl
    | over999 => rw [hd] at h; cases h; rfl
    | ok i off =>
      rw [hd] at h
      exact handlePluginId_self env self engine path _ i argv out h
  · rcases handleMessage_of_not_reachesDecoder env self engine isTCP path argv hr with
      e | ⟨_, e⟩ | ⟨_, e⟩ | ⟨_, e⟩ | e
    · rw [e] at h; cases h; exact Or.inl rfl
    · rw [e] at h; cases h; exact handleMsgRegister_self env self engine isTCP argv
    · rw [e] at h; cases h; exact handleMsgUnregister_self self isTCP argv
    · rw [e] at h; cases h; exact Or.inl (shape_handleMsgControl self _ argv).1
    · rw [e] at h; cases h; exact Or.inl rfl

/-- C17: whatever message is handled on one transport, the binding of the other
transport is the same after the call as before it; and `/register` with a string
argument on a transport without binding binds it whatever the binding of the other
transport is, which it leaves as it was. -/
theorem binding_of_other_transport_unchanged (env : Env) (self : CarlaEngineOsc)
    (engine : CarlaEngine) (isTCP : Bool) (path : CStr) (argv : List OscArg) :
    (∀ out, handleMessage env self engine isTCP path argv = some out →
      out.self.controlData (!isTCP) = self.controlData (!isTCP)) ∧
    (∀ a : OscArg, serverReady self isTCP → a.tag = 's' →
      (self.controlData isTCP).owner = none →
      ∃ out, handleMessage env self engine isTCP (cstr "/register") [a] = some out ∧
        (out.self.controlData isTCP).owner = some a.s ∧
        out.self.controlData (!isTCP) = self.controlData (!isTCP)) := by
  constructor
  · intro out h
    rcases handleMessage_self env self engine isTCP path argv out h with e | ⟨d, e⟩
    · rw [e]
    · rw [e, controlData_setControlData_other]
  · intro a hready hs hfree
    refine ⟨_, handleMessage_register env self engine isTCP [a] hready, ?_, ?_⟩
    · rw [handleMsgRegister_free env self engine isTCP a hs hfree, controlData_setControlData]
    · rw [handleMsgRegister_free env self engine isTCP a hs hfree,
        controlData_setControlData_other]

/-- C17 at a sample input: a client registers on UDP while TCP is bound; the TCP
binding stays. -/
theorem binding_of_other_transport_unchanged_witness :
    ∃ out, handleMessage exampleEnv boundOsc staleEngine false (cstr "/register")
        [OscArg.str (cstr "osc.udp://10.0.0.2:9000/second")] = some out ∧
      (out.self.controlData false).owner = some (cstr "osc.udp://10.0.0.2:9000/second") ∧
      out.self.controlData true = boundOsc.controlData true :=
  (binding_of_other_transport_unchanged exampleEnv boundOsc staleEngine false
    (cstr "/register") [OscArg.str (cstr "osc.udp://10.0.0.2:9000/second")]).2
    (OscArg.str (cstr "osc.udp://10.0.0.2:9000/second")) (by decide) rfl (by decide)

theorem control_argc_patchbay_connect (self : CarlaEngineOsc) (argv : List OscArg)
    (h : argv.length ≠ 4) :
    engineCalls (handleMsgControl self (cstr "patchbay_connect") argv).effects = [] := by
  unfold handleMsgControl
  dsimp only
  rw [if_neg (by decide)]
  by_cases hown : self.fControlDataTCP.owner = none
  · rw [if_pos hown]; rfl
  · rw [if_neg hown, if_neg (by decide), if_neg (by decide), if_pos rfl, if_pos h]
    rfl

theorem control_argc_patchbay_disconnect (self : CarlaEngineOsc) (argv : List OscArg)
    (h : argv.length ≠ 1) :
    engineCalls (handleMsgControl self (cstr "patchbay_disconnect") argv).effects = [] := by
  unfold handleMsgControl
  dsimp only
  rw [if_neg (by decide)]
  by_cases hown : self.fControlDataTCP.owner = none
  · rw [if_pos hown]; rfl
  · rw [if_neg hown, if_neg (by decide), if_neg (by decide), if_neg (by decide), if_pos rfl, if_pos h]
    rfl

theorem control_argc_patchbay_refresh (self : CarlaEngineOsc) (argv : List OscArg)
    (h : argv.length ≠ 1) :
    engineCalls (handleMsgControl self (cstr "patchbay_refresh") argv).effects = [] := by
  unfold handleMsgControl
  dsimp only
  rw [if_neg (by decide)]
  by_cases hown : self.fControlDataTCP.owner = none
  · rw [if_pos hown]; rfl
  · rw [if_neg hown, if_neg (by decide), if_neg (by decide), if_neg (by decide), if_neg (by decide), if_pos rfl, if_pos h]
    rfl

theorem control_argc_transport_play (self : CarlaEngineOsc) (argv : List OscArg)
    (h : argv.length ≠ 0) :
    engineCalls (handleMsgControl self (cstr "transport_play") argv).effects = [] := by
  unfold handleMsgControl
  dsimp only
  rw [if_neg (by decide)]
  by_cases hown : self.fControlDataTCP.owner = none
  · rw [if_pos hown]; rfl
  · rw [if_neg hown, if_neg (by decide), if_neg (by decide), if_neg (by decide), if_neg (by decide), if_neg (by decide), if_pos rfl, if_pos h]
    rfl

theorem control_argc_transport_pause (self : CarlaEngineOsc) (argv : List OscArg)
    (h : argv.length ≠ 0) :
    engineCalls (handleMsgControl self (cstr "transport_pause") argv).effects = [] := by
  unfold handleMsgControl
  dsimp only
  rw [if_neg (by decide)]
  by_cases hown : self.fControlDataTCP.owner = none
  · rw [if_pos hown]; rfl
  · rw [if_neg hown, if_neg (by decide), if_neg (by decide), if_neg (by decide), if_neg (by decide), if_neg (by decide), if_neg (by decide), if_pos rfl, if_pos h]
    rfl

theorem control_argc_transport_bpm (self : CarlaEngineOsc) (argv : List OscArg)
    (h : argv.length ≠ 1) :
    engineCalls (handleMsgControl self (cstr "transport_bpm") argv).effects = [] := by
  unfold handleMsgControl
  dsimp only
  rw [if_neg (by decide)]
  by_cases hown : self.fControlDataTCP.owner = none
  · rw [if_pos hown]; rfl
  · rw [if_neg hown, if_neg (by decide), if_neg (by decide), if_neg (by decide), if_neg (by decide), if_neg (by decide), if_neg (by decide), if_neg (by decide), if_pos rfl, if_pos h]
    rfl

theorem control_argc_transport_relocate (self : CarlaEngineOsc) (argv : List OscArg)
    (h : argv.length ≠ 1) :
    engineCalls (handleMsgControl self (cstr "transport_relocate") argv).effects = [] := by
  unfold handleMsgControl
  dsimp only
  rw [if_neg (by decide)]
  by_cases hown : self.fControlDataTCP.owner = none
  · rw [if_pos hown]; rfl
  · rw [if_neg hown, if_neg (by decide), if_neg (by decide), if_neg (by decide), if_neg (by decide), if_neg (by decide), if_neg (by decide), if_neg (by decide), if_neg (by decide), if_pos rfl, if_pos h]
    rfl

theorem control_argc_add_plugin (self : CarlaEngineOsc) (argv : List OscArg)
    (h : argv.length ≠ 7) :
    engineCalls (handleMsgControl self (cstr "add_plugin") argv).effects = [] := by
  unfold handleMsgControl
  dsimp only
  rw [if_neg (by decide)]
  by_cases hown : self.fControlDataTCP.owner = none
  · rw [if_pos hown]; rfl
  · rw [if_neg hown, if_neg (by decide), if_neg (by decide), if_neg (by decide), if_neg (by decide), if_neg (by decide), if_neg (by decide), if_neg (by decide), if_neg (by decide), if_neg (by decide), if_pos rfl, if_pos h]
    rfl

theorem control_argc_remove_plugin (self : CarlaEngineOsc) (argv : List OscArg)
    (h : argv.length ≠ 1) :
    engineCalls (handleMsgControl self (cstr "remove_plugin") argv).effects = [] := by
  unfold handleMsgControl
  dsimp only
  rw [if_neg (by decide)]
  by_cases hown : self.fControlDataTCP.owner = none
  · rw [if_pos hown]; rfl
  · rw [if_neg hown, if_neg (by decide), if_neg (by decide), if_neg (by decide), if_neg (by decide), if_neg (by decide), if_neg (by decide), if_neg (by decide), if_neg (by decide), if_neg (by decide), if_neg (by decide), if_pos rfl, if_pos h]
    rfl

theorem control_argc_remove_all_plugins (self : CarlaEngineOsc) (argv : List OscArg)
    (h : argv.length ≠ 0) :
    engineCalls (handleMsgControl self (cstr "remove_all_plugins") argv).effects = [] := by
  unfold handleMsgControl
  dsimp only
  rw [if_neg (by decide)]
  by_cases hown : self.fControlDataTCP.owner = none
  · rw [if_pos hown]; rfl
  · rw [if_neg hown, if_neg (by decide), if_neg (by decide), if_neg (by decide), if_neg (by decide), if_neg (by decide), if_neg (by decide), if_neg (by decide), if_neg (by decide), if_neg (by decide), if_neg (by decide), if_neg (by decide), if_pos rfl, if_pos h]
    rfl

theorem control_argc_rename_plugin (self : CarlaEngineOsc) (argv : List OscArg)
    (h : argv.length ≠ 2) :
    engineCalls (handleMsgControl self (cstr "rename_plugin") argv).effects = [] := by
  unfold handleMsgControl
  dsimp only
  rw [if_neg (by decide)]
  by_cases hown : self.fControlDataTCP.owner = none
  · rw [if_pos hown]; rfl
  · rw [if_neg hown, if_neg (by decide), if_neg (by decide), if_neg (by decide), if_neg (by decide), if_neg (by decide), if_neg (by decide), if_neg (by decide), if_neg (by decide), if_neg (by decide), if_neg (by decide), if_neg (by decide), if_neg (by decide), if_pos rfl, if_pos h]
    rfl

theorem control_argc_clone_plugin (self : CarlaEngineOsc) (argv : List OscArg)
    (h : argv.length ≠ 1) :
    engineCalls (handleMsgControl self (cstr "clone_plugin") argv).effects = [] := by
  unfold handleMsgControl
  dsimp only
  rw [if_neg (by decide)]
  by_cases hown : self.fControlDataTCP.owner = none
  · rw [if_pos hown]; rfl
  · rw [if_neg hown, if_neg (by decide), if_neg (by decide), if_neg (by decide), if_neg (by decide), if_neg (by decide), if_neg (by decide), if_neg (by decide), if_neg (by decide), if_neg (by decide), if_neg (by decide), if_neg (by decide), if_neg (by decide), if_neg (by decide), if_pos rfl, if_pos h]
    rfl

theorem control_argc_replace_plugin (self : CarlaEngineOsc) (argv : List OscArg)
    (h : argv.length ≠ 1) :
    engineCalls (handleMsgControl self (cstr "replace_plugin") argv).effects = [] := by
  unfold handleMsgControl
  dsimp only
  rw [if_neg (by decide)]
  by_cases hown : self.fControlDataTCP.owner = none
  · rw [if_pos hown]; rfl
  · rw [if_neg hown, if_neg (by decide), if_neg (by decide), if_neg (by decide), if_neg (by decide), if_neg (by decide), if_neg (by decide), if_neg (by decide), if_neg (by decide), if_neg (by decide), if_neg (by decide), if_neg (by decide), if_neg (by decide), if_neg (by decide), if_neg (by decide), if_pos rfl, if_pos h]
    rfl

theorem control_argc_switch_plugins (self : CarlaEngineOsc) (argv : List OscArg)
    (h : argv.length ≠ 2) :
    engineCalls (handleMsgControl self (cstr "switch_plugins") argv).effects = [] := by
  unfold handleMsgControl
  dsimp only
  rw [if_neg (by decide)]
  by_cases hown : self.fControlDataTCP.owner = none
  · rw [if_pos hown]; rfl
  · rw [if_neg hown, if_neg (by decide), if_neg (by decide), if_neg (by decide), if_neg (by decide), if_neg (by decide), if_neg (by decide), if_neg (by decide), if_neg (by decide), if_neg (by decide), if_neg (by decide), if_neg (by decide), if_neg (by decide), if_neg (by decide), if_neg (by decide), if_neg (by decide), if_pos rfl, if_pos h]
    rfl

/-- Each branch of `handleMsgControl` that asserts an argument count makes no engine
call when the count of the message differs. -/
theorem control_argc_mismatch (self : CarlaEngineOsc) (name : CStr) (n : Nat)
    (argv : List OscArg) (hmem : (name, n) ∈ controlAssertedArgc) (h : argv.length ≠ n) :
    engineCalls (handleMsgControl self name argv).effects = [] := by
  simp only [controlAssertedArgc, List.mem_cons, Prod.mk.injEq, List.not_mem_nil, or_false] at hmem
  rcases hmem with e | e | e | e | e | e | e | e | e | e | e | e | e | e <;>
    obtain ⟨hname, hn⟩ := e <;> subst hname hn
  · exact control_argc_patchbay_connect self argv h
  · exact control_argc_patchbay_disconnect self argv h
  · exact control_argc_patchbay_refresh self argv h
  · exact control_argc_transport_play self argv h
  · exact control_argc_transport_pause self argv h
  · exact control_argc_transport_bpm self argv h
  · exact control_argc_transport_relocate self argv h
  · exact control_argc_add_plugin self argv h
  · exact control_argc_remove_plugin self argv h
  · exact control_argc_remove_all_plugins self argv h
  · exact control_argc_rename_plugin self argv h
  · exact control_argc_clone_plugin self argv h
  · exact control_argc_replace_plugin self argv h
  · exact control_argc_switch_plugins self argv h

/-- C21 (the code departs from it): the branches `clear_engine_xruns` and
`cancel_engine_action` assert no argument count, unlike the other branches without
arguments (`transport_play`, `transport_pause`, `remove_all_plugins`).  With one and
with two arguments they still call `clearXruns` and `setActionCanceled(true)`. -/
theorem control_commands_without_argc_check :
    handleMessage exampleEnv boundOsc fiftyPlugins true (cstr "/ctrl/clear_engine_xruns")
        [OscArg.int32 7] =
      some ⟨0, boundOsc, [Effect.engine EngineOp.clearXruns]⟩ ∧
    handleMessage exampleEnv boundOsc fiftyPlugins true (cstr "/ctrl/cancel_engine_action")
        [OscArg.str (cstr "x"), OscArg.float ⟨0⟩] =
      some ⟨0, boundOsc, [Effect.engine (EngineOp.setActionCanceled true)]⟩ ∧
    handleMessage exampleEnv boundOsc fiftyPlugins true (cstr "/ctrl/transport_play")
        [OscArg.int32 7] =
      some ⟨0, boundOsc, [Effect.diag Diag.safeAssert]⟩ := by
  decide

/-- C22: a path starting with `/ctrl/` received on UDP is answered, whatever the
dispatcher, the method and the arguments, with the failed assertion alone: result 1,
dispatcher unchanged, one diagnostic and no other effect.  Received on TCP, with the
assertions holding, it is handed to `handleMsgControl` with the text after `/ctrl/`
as the method name. -/
theorem ctrl_path_rejected_on_udp (env : Env) (self : CarlaEngineOsc) (engine : CarlaEngine)
    (path : CStr) (argv : List OscArg) (hc : cstr "/ctrl/" <+: path) :
    handleMessage env self engine false path argv =
      some ⟨1, self, [Effect.diag Diag.safeAssert]⟩ ∧
    (serverReady self true →
      handleMessage env self engine true path argv =
        some (handleMsgControl self (path.drop 6) argv)) := by
  obtain ⟨t, rfl⟩ := hc
  have hp : cstr "/ctrl/" ++ t = '/' :: 'c' :: 't' :: 'r' :: 'l' :: '/' :: t := rfl
  have ht : (cstr "/ctrl/" ++ t).take 6 = cstr "/ctrl/" := by rw [hp]; rfl
  have hd : (cstr "/ctrl/" ++ t).drop 6 = t := by rw [hp]; rfl
  constructor
  · have h1 : cstr "/ctrl/" ++ t ≠ cstr "/register" := by
      intro e
      have := congrArg (List.take 6) e
      rw [ht] at this
      revert this
      decide
    have h2 : cstr "/ctrl/" ++ t ≠ cstr "/unregister" := by
      intro e
      have := congrArg (List.take 6) e
      rw [ht] at this
      revert this
      decide
    unfold handleMessage
    by_cases c1 : self.fName = []
    · rw [if_pos c1]; rfl
    rw [if_neg c1]
    by_cases c2 : cstr "/ctrl/" ++ t = []
    · rw [if_pos c2]; rfl
    rw [if_neg c2]
    by_cases c3 : false = true ∧ self.fServerPathTCP = []
    · rw [if_pos c3]; rfl
    rw [if_neg c3]
    by_cases c4 : false = true ∧ self.fServerTCP = false
    · rw [if_pos c4]; rfl
    rw [if_neg c4]
    by_cases c5 : false = false ∧ self.fServerPathUDP = []
    · rw [if_pos c5]; rfl
    rw [if_neg c5]
    by_cases c6 : false = false ∧ self.fServerUDP = false
    · rw [if_pos c6]; rfl
    rw [if_neg c6, if_neg h1, if_neg h2, if_pos ht, if_pos rfl]
    rfl
  · intro hready
    rw [hd]
    exact handleMessage_ctrl env self engine t argv hready

/-- C22 at a sample input: `remove_all_plugins` sent over UDP to a dispatcher with a TCP client
registered. -/
theorem ctrl_path_rejected_on_udp_witness :
    handleMessage exampleEnv boundOsc fiftyPlugins false (cstr "/ctrl/remove_all_plugins") [] =
      some ⟨1, boundOsc, [Effect.diag Diag.safeAssert]⟩ :=
  (ctrl_path_rejected_on_udp exampleEnv boundOsc fiftyPlugins (cstr "/ctrl/remove_all_plugins")
    [] (by decide)).1

/-- C26: without a TCP owner `handleMsgControl` returns 0 with the dispatcher
unchanged and one diagnostic as its only effect, whatever the method name, the
arguments and the UDP binding; so no engine call is made. -/
theorem control_needs_tcp_registration (self : CarlaEngineOsc) (method : CStr)
    (argv : List OscArg) (hnone : self.fControlDataTCP.owner = none) :
    (∃ d, handleMsgControl self method argv = ⟨0, self, [Effect.diag d]⟩) ∧
    engineCalls (handleMsgControl self method argv).effects = [] ∧
    (handleMsgControl self method argv).ret = 0 := by
  have h : ∃ d, handleMsgControl self method argv = ⟨0, self, [Effect.diag d]⟩ := by
    unfold handleMsgControl
    dsimp only
    by_cases h0 : method = []
    · rw [if_pos h0]; exact ⟨_, rfl⟩
    · rw [if_neg h0, if_pos hnone]; exact ⟨_, rfl⟩
  obtain ⟨d, hd⟩ := h
  exact ⟨⟨d, hd⟩, by rw [hd]; rfl, by rw [hd]⟩

/-- C26 at a sample input: `transport_play` with only a UDP client registered. -/
theorem control_needs_tcp_registration_witness :
    handleMsgControl udpBoundOsc (cstr "transport_play") [] =
      ⟨0, udpBoundOsc, [Effect.diag Diag.controlNotRegistered]⟩ ∧
    engineCalls (handleMsgControl udpBoundOsc (cstr "transport_play") []).effects = [] :=
  ⟨by decide,
   (control_needs_tcp_registration udpBoundOsc (cstr "transport_play") [] (by decide)).2.1⟩

/-- C23: for a path that decodes to a plugin id whose plugin is resolved, with `start`
the position after the index segment's separator: if text follows there, the message
is dispatched under the first 32 characters of that text (all of it when it has at
most 32), so two such paths that agree on those 32 characters have the same outcome;
if no text follows, the message is answered with the missing-method diagnostic and no
plugin call. -/
theorem decoded_method_is_first_32_characters (env : Env) (self : CarlaEngineOsc)
    (engine : CarlaEngine) (isTCP : Bool) (path : CStr) (argv : List OscArg) (i off : Nat)
    (p : CarlaPlugin) (hdec : decodesTo self isTCP path i off)
    (hle : i ≤ engine.curPluginCount) (hp : engine.plugins i = some p) (hid : p.id = i) :
    (self.fName.length + off < path.length →
      handleMessage env self engine isTCP path argv =
        some (afterLookup i (dispatchMethod env self p
          ((path.drop (self.fName.length + off)).take 32) argv))) ∧
    ((path.drop (self.fName.length + off)).length ≤ 32 →
      (path.drop (self.fName.length + off)).take 32 = path.drop (self.fName.length + off)) ∧
    (∀ path', decodesTo self isTCP path' i off →
      self.fName.length + off < path.length → self.fName.length + off < path'.length →
      (path'.drop (self.fName.length + off)).take 32 =
        (path.drop (self.fName.length + off)).take 32 →
      handleMessage env self engine isTCP path' argv =
        handleMessage env self engine isTCP path argv) ∧
    (self.fName.length + off = path.length →
      handleMessage env self engine isTCP path argv =
        some ⟨0, self, [Effect.getPlugin i, Effect.diag Diag.withoutMethod]⟩) := by
  have h1 : ∀ q : CStr, decodesTo self isTCP q i off → self.fName.length + off < q.length →
      handleMessage env self engine isTCP q argv =
        some (afterLookup i (dispatchMethod env self p
          ((q.drop (self.fName.length + off)).take 32) argv)) := by
    intro q hq hs
    rw [handleMessage_of_decodesTo env self engine isTCP q argv i off hq,
      handlePluginId_resolved env self engine q _ i argv p hle hp hid hs]
  refine ⟨h1 path hdec, fun h => List.take_of_length_le h, ?_, ?_⟩
  · intro path' hdec' hs hs' he
    rw [h1 path hdec hs, h1 path' hdec' hs', he]
  · intro he
    rw [handleMessage_of_decodesTo env self engine isTCP path argv i off hdec]
    unfold handlePluginId
    rw [if_neg (by omega), hp]
    dsimp only
    rw [if_neg (not_not.mpr hid), if_neg (by omega), List.drop_of_length_le (by omega)]
    rfl

/-- C23 at a sample input: a method text of 40 characters is dispatched under its first
32 characters. -/
theorem decoded_method_is_first_32_characters_witness :
    handleMessage exampleEnv exampleOsc fiftyPlugins true
        (cstr "/Carla/0/this_method_name_is_longer_than_32_chars") [] =
      some (afterLookup 0 (dispatchMethod exampleEnv exampleOsc ⟨200, 0, cstr "plugin"⟩
        (cstr "this_method_name_is_longer_than_") [])) :=
  (decoded_method_is_first_32_characters exampleEnv exampleOsc fiftyPlugins true
    (cstr "/Carla/0/this_method_name_is_longer_than_32_chars") [] 0 4
    ⟨200, 0, cstr "plugin"⟩ (by decide) (by decide) (by decide) (by decide)).1 (by decide)

theorem dispatchMethod_unimplemented (env : Env) (self : CarlaEngineOsc)
    (plugin : CarlaPlugin) (method : CStr) (argv : List OscArg)
    (h : method ∈ unimplementedMethodNames) :
    dispatchMethod env self plugin method argv = ⟨0, self, []⟩ := by
  simp only [unimplementedMethodNames, List.mem_cons, List.not_mem_nil, or_false] at h
  rcases h with h | h | h | h <;> subst h <;> rfl

/-- C24: for a resolved plugin and a path that decodes to `set_option`,
`set_ctrl_channel`, `set_custom_data` or `set_chunk`, `handleMessage` returns 0 with
the dispatcher unchanged whatever the arguments, and after the lookup makes no call
at all: no plugin call, the plugin's own `handleOscMessage` included. -/
theorem unimplemented_commands_have_no_effect (env : Env) (self : CarlaEngineOsc)
    (engine : CarlaEngine) (isTCP : Bool) (path : CStr) (argv : List OscArg) (i off : Nat)
    (p : CarlaPlugin) (hdec : decodesTo self isTCP path i off)
    (hle : i ≤ engine.curPluginCount) (hp : engine.plugins i = some p) (hid : p.id = i)
    (hm : (path.drop (self.fName.length + off)).take 32 ∈ unimplementedMethodNames) :
    handleMessage env self engine isTCP path argv =
      some ⟨0, self, [Effect.getPlugin i]⟩ := by
  have hall : ∀ x ∈ unimplementedMethodNames, x ≠ [] := by decide
  have hstart : self.fName.length + off < path.length := by
    by_contra hge
    apply hall _ hm
    rw [List.drop_of_length_le (by omega)]
    rfl
  rw [handleMessage_of_decodesTo env self engine isTCP path argv i off hdec,
    handlePluginId_resolved env self engine path _ i argv p hle hp hid hstart,
    dispatchMethod_unimplemented env self p _ argv hm]
  rfl

/-- C24 at a sample input: `set_chunk` with a string for plugin 4 of fifty. -/
theorem unimplemented_commands_have_no_effect_witness :
    handleMessage exampleEnv exampleOsc fiftyPlugins true (cstr "/Carla/4/set_chunk")
        [OscArg.str (cstr "AAAA")] =
      some ⟨0, exampleOsc, [Effect.getPlugin 4]⟩ :=
  unimplemented_commands_have_no_effect exampleEnv exampleOsc fiftyPlugins true
    (cstr "/Carla/4/set_chunk") [OscArg.str (cstr "AAAA")] 4 4 ⟨204, 4, cstr "plugin"⟩
    (by decide) (by decide) (by decide) (by decide) (by decide)

theorem echo_ite {c : Prop} [Decidable c] {a b : Outcome} (ha : EchoShape a)
    (hb : EchoShape b) : EchoShape (if c then a else b) := by
  split <;> assumption

theorem echo_dropped (self : CarlaEngineOsc) (d : Diag) : EchoShape (dropped self d) := by
  intro p op h
  simp [dropped] at h

theorem echo_assertFailed (self : CarlaEngineOsc) (r : Int) :
    EchoShape (assertFailed self r) := by
  intro p op h
  simp [assertFailed] at h

theorem echo_called (self : CarlaEngineOsc) (plugin : CarlaPlugin) (op : PluginOp)
    (h : op.echoSuppressed) : EchoShape (called self plugin op) := by
  intro p op' hm
  simp only [called, List.mem_singleton, Effect.plugin.injEq] at hm
  rw [hm.2]
  exact h

theorem echo_SetActive (self : CarlaEngineOsc) (plugin : CarlaPlugin)
    (argv : List OscArg) : EchoShape (handleMsgSetActive self plugin argv) := by
  unfold handleMsgSetActive
  split
  · exact echo_dropped _ _
  · exact echo_called _ _ _ ⟨rfl, rfl⟩

theorem echo_SetDryWet (self : CarlaEngineOsc) (plugin : CarlaPlugin)
    (argv : List OscArg) : EchoShape (handleMsgSetDryWet self plugin argv) := by
  unfold handleMsgSetDryWet
  split
  · exact echo_dropped _ _
  · exact echo_called _ _ _ ⟨rfl, rfl⟩

theorem echo_SetVolume (self : CarlaEngineOsc) (plugin : CarlaPlugin)
    (argv : List OscArg) : EchoShape (handleMsgSetVolume self plugin argv) := by
  unfold handleMsgSetVolume
  split
  · exact echo_dropped _ _
  · exact echo_called _ _ _ ⟨rfl, rfl⟩

theorem echo_SetBalanceLeft (self : CarlaEngineOsc) (plugin : CarlaPlugin)
    (argv : List OscArg) : EchoShape (handleMsgSetBalanceLeft self plugin argv) := by
  unfold handleMsgSetBalanceLeft
  split
  · exact echo_dropped _ _
  · exact echo_called _ _ _ ⟨rfl, rfl⟩

theorem echo_SetBalanceRight (self : CarlaEngineOsc) (plugin : CarlaPlugin)
    (argv : List OscArg) : EchoShape (handleMsgSetBalanceRight self plugin argv) := by
  unfold handleMsgSetBalanceRight
  split
  · exact echo_dropped _ _
  · exact echo_called _ _ _ ⟨rfl, rfl⟩

theorem echo_SetPanning (self : CarlaEngineOsc) (plugin : CarlaPlugin)
    (argv : List OscArg) : EchoShape (handleMsgSetPanning self plugin argv) := by
  unfold handleMsgSetPanning
  split
  · exact echo_dropped _ _
  · exact echo_called _ _ _ ⟨rfl, rfl⟩

theorem echo_SetParameterValue (self : CarlaEngineOsc) (plugin : CarlaPlugin)
    (argv : List OscArg) : EchoShape (handleMsgSetParameterValue self plugin argv) := by
  unfold handleMsgSetParameterValue
  split
  · exact echo_dropped _ _
  · dsimp only
    repeat' apply echo_ite
    all_goals first | exact echo_called _ _ _ ⟨rfl, rfl⟩ | exact echo_assertFailed _ _

theorem echo_SetProgram (self : CarlaEngineOsc) (plugin : CarlaPlugin)
    (argv : List OscArg) : EchoShape (handleMsgSetProgram self plugin argv) := by
  unfold handleMsgSetProgram
  split
  · exact echo_dropped _ _
  · dsimp only
    repeat' apply echo_ite
    all_goals first | exact echo_called _ _ _ ⟨rfl, rfl⟩ | exact echo_assertFailed _ _

theorem echo_SetMidiProgram (self : CarlaEngineOsc) (plugin : CarlaPlugin)
    (argv : List OscArg) : EchoShape (handleMsgSetMidiProgram self plugin argv) := by
  unfold handleMsgSetMidiProgram
  split
  · exact echo_dropped _ _
  · dsimp only
    repeat' apply echo_ite
    all_goals first | exact echo_called _ _ _ ⟨rfl, rfl⟩ | exact echo_assertFailed _ _

theorem echo_SetParameterMidiCC (env : Env) (self : CarlaEngineOsc) (plugin : CarlaPlugin)
    (argv : List OscArg) : EchoShape (handleMsgSetParameterMidiCC env self plugin argv) := by
  unfold handleMsgSetParameterMidiCC
  split
  · exact echo_dropped _ _
  · dsimp only
    repeat' apply echo_ite
    all_goals first | exact echo_called _ _ _ ⟨rfl, rfl⟩ | exact echo_assertFailed _ _

theorem echo_SetParameterMidiChannel (env : Env) (self : CarlaEngineOsc) (plugin : CarlaPlugin)
    (argv : List OscArg) : EchoShape (handleMsgSetParameterMidiChannel env self plugin argv) := by
  unfold handleMsgSetParameterMidiChannel
  split
  · exact echo_dropped _ _
  · dsimp only
    repeat' apply echo_ite
    all_goals first | exact echo_called _ _ _ ⟨rfl, rfl⟩ | exact echo_assertFailed _ _

theorem echo_NoteOn (env : Env) (self : CarlaEngineOsc) (plugin : CarlaPlugin)
    (argv : List OscArg) : EchoShape (handleMsgNoteOn env self plugin argv) := by
  unfold handleMsgNoteOn
  split
  · exact echo_dropped _ _
  · dsimp only
    repeat' apply echo_ite
    all_goals first | exact echo_called _ _ _ ⟨rfl, rfl⟩ | exact echo_assertFailed _ _

theorem echo_NoteOff (env : Env) (self : CarlaEngineOsc) (plugin : CarlaPlugin)
    (argv : List OscArg) : EchoShape (handleMsgNoteOff env self plugin argv) := by
  unfold handleMsgNoteOff
  split
  · exact echo_dropped _ _
  · dsimp only
    repeat' apply echo_ite
    all_goals first | exact echo_called _ _ _ ⟨rfl, rfl⟩ | exact echo_assertFailed _ _

theorem echo_dispatchMethod (env : Env) (self : CarlaEngineOsc) (plugin : CarlaPlugin)
    (method : CStr) (argv : List OscArg) :
    EchoShape (dispatchMethod env self plugin method argv) := by
  unfold dispatchMethod
  repeat' apply echo_ite
  all_goals first
    | (intro p op h; simp at h; done)
    | (intro p op h
       simp only [List.mem_singleton, Effect.plugin.injEq] at h
       rw [h.2]
       exact trivial)
    | exact echo_SetActive self plugin argv
    | exact echo_SetDryWet self plugin argv
    | exact echo_SetVolume self plugin argv
    | exact echo_SetBalanceLeft self plugin argv
    | exact echo_SetBalanceRight self plugin argv
    | exact echo_SetPanning self plugin argv
    | exact echo_SetParameterValue self plugin argv
    | exact echo_SetProgram self plugin argv
    | exact echo_SetMidiProgram self plugin argv
    | exact echo_SetParameterMidiCC env self plugin argv
    | exact echo_SetParameterMidiChannel env self plugin argv
    | exact echo_NoteOn env self plugin argv
    | exact echo_NoteOff env self plugin argv

theorem handlePluginId_echo (env : Env) (self : CarlaEngineOsc) (engine : CarlaEngine)
    (path : CStr) (start i : Nat) (argv : List OscArg) (out : Outcome) (p : CarlaPlugin)
    (op : PluginOp) (h : handlePluginId env self engine path start i argv = some out)
    (hm : Effect.plugin p op ∈ out.effects) : op.echoSuppressed := by
  unfold handlePluginId at h
  split at h
  · cases h; simp at hm
  · split at h
    · cases h; simp at hm
    · next plugin hp =>
      dsimp only at h
      split_ifs at h with c1 c2 c3
      · cases h; simp at hm
      · cases h; simp at hm
      · simp only [Option.some.injEq] at h
        subst h
        simp only [List.mem_cons, reduceCtorEq, false_or] at hm
        exact echo_dispatchMethod env self plugin _ argv p op hm

/-- C25: every plugin call `handleMessage` makes through a plugin handler is
echo-suppressed: each mutator (`setActive`, `setDryWet`, `setVolume`,
`setBalanceLeft`, `setBalanceRight`, `setPanning`, `setParameterValue`,
`setParameterMidiCC`, `setParameterMidiChannel`, `setProgram`, `setMidiProgram`,
`sendMidiSingleNote`) gets its send-over-OSC flag false and its callback flag true. -/
theorem plugin_mutators_are_echo_suppressed (env : Env) (self : CarlaEngineOsc)
    (engine : CarlaEngine) (isTCP : Bool) (path : CStr) (argv : List OscArg) :
    (∀ plugin method, EchoShape (dispatchMethod env self plugin method argv)) ∧
    (∀ out p op, handleMessage env self engine isTCP path argv = some out →
      Effect.plugin p op ∈ out.effects → op.echoSuppressed) := by
  refine ⟨fun plugin method => echo_dispatchMethod env self plugin method argv, ?_⟩
  intro out p op h hm
  by_cases hr : reachesDecoder self isTCP path
  · rw [handleMessage_of_reachesDecoder env self engine isTCP path argv hr] at h
    unfold afterRootCheck at h
    cases hd : decodePluginId path self.fName.length with
    | readPastEnd => rw [hd] at h; cases h
    | invalid => rw [hd] at h; cases h; simp at hm
    | over999 => rw [hd] at h; cases h; simp at hm
    | ok i off =>
      rw [hd] at h
      exact handlePluginId_echo env self engine path _ i argv out p op h hm
  · have := pluginCalls_nil_of_not_reachesDecoder env self engine isTCP path argv out hr h
    rw [← mem_pluginCalls, this] at hm
    cases hm

theorem toI16_of_fits (v : Int) (h0 : -2 ^ 15 ≤ v) (h1 : v < 2 ^ 15) : toI16 v = v := by
  unfold toI16
  rw [Int.emod_eq_of_lt (by omega) (by omega)]
  omega

theorem wireArgs_argAt (argv : List OscArg) (hw : wireArgs argv) (k : Nat) :
    (-2 ^ 31 ≤ (argAt argv k).i ∧ (argAt argv k).i < 2 ^ 31) ∧
    (-2 ^ 63 ≤ (argAt argv k).h ∧ (argAt argv k).h < 2 ^ 63) := by
  unfold argAt
  by_cases h : k < argv.length
  · rw [List.getD_eq_getElem _ _ h]
    exact hw _ (List.getElem_mem h)
  · rw [List.getD_eq_default _ _ (by omega)]
    decide

theorem wire_ite {argv : List OscArg} {c : Prop} [Decidable c] {a b : Outcome}
    (ha : c → WireShape argv a) (hb : ¬ c → WireShape argv b) :
    WireShape argv (if c then a else b) := by
  split
  · next h => exact ha h
  · next h => exact hb h

theorem wire_diag (argv : List OscArg) (r : Int) (self : CarlaEngineOsc) (d : Diag) :
    WireShape argv ⟨r, self, [Effect.diag d]⟩ := by
  intro e he
  simp only [List.mem_singleton] at he
  subst he
  exact trivial

theorem wire_engine (argv : List OscArg) (self : CarlaEngineOsc) (op : EngineOp)
    (h : wireFaithful argv (Effect.engine op)) : WireShape argv (engineCalled self op) := by
  intro e he
  simp only [engineCalled, List.mem_singleton] at he
  subst he
  exact h

theorem wire_handleMsgControl (self : CarlaEngineOsc) (method : CStr) (argv : List OscArg)
    (hw : wireArgs argv) : WireShape argv (handleMsgControl self method argv) := by
  have w0 := wireArgs_argAt argv hw 0
  have w1 := wireArgs_argAt argv hw 1
  have w2 := wireArgs_argAt argv hw 2
  have w3 := wireArgs_argAt argv hw 3
  have w6 := wireArgs_argAt argv hw 6
  unfold handleMsgControl
  dsimp only
  repeat' (apply wire_ite <;> intro hc)
  all_goals first
    | exact wire_diag _ _ _ _
    | (apply wire_engine
       simp only [not_not, ge_iff_le] at *
       first
         | exact trivial
         | exact toU32_of_nonneg _ (by omega) (by omega)
         | exact ⟨toU32_of_nonneg _ (by omega) (by omega),
             toU32_of_nonneg _ (by omega) (by omega)⟩
         | exact ⟨toU32_of_nonneg _ (by omega) (by omega),
             toU32_of_nonneg _ (by omega) (by omega),
             toU32_of_nonneg _ (by omega) (by omega),
             toU32_of_nonneg _ (by omega) (by omega)⟩
         | exact ⟨fun _ => toU64_of_nonneg _ (by omega) (by omega),
             fun h => absurd (by assumption) h⟩
         | exact ⟨fun h => absurd h (by assumption),
             fun _ => toU64_of_nonneg _ (by omega) (by omega)⟩)

theorem wire_plugin (argv : List OscArg) (self : CarlaEngineOsc) (plugin : CarlaPlugin)
    (op : PluginOp) (h : wireFaithful argv (Effect.plugin plugin op)) :
    WireShape argv (called self plugin op) := by
  intro e he
  simp only [called, List.mem_singleton] at he
  subst he
  exact h

theorem checkOscTypes_none_length (argv : List OscArg) (n : Nat) (sig : CStr)
    (h : checkOscTypes argv n sig = none) : argv.length = n := by
  unfold checkOscTypes at h
  by_contra hne
  rw [if_pos hne] at h
  cases h

theorem wire_SetActive (env : Env) (self : CarlaEngineOsc) (plugin : CarlaPlugin)
    (argv : List OscArg) (_hl : limitsFit env) (_hw : wireArgs argv) :
    WireShape argv (handleMsgSetActive self plugin argv) := by
  unfold handleMsgSetActive
  split
  · exact wire_diag _ _ _ _
  · exact wire_plugin _ _ _ _ trivial

theorem wire_SetDryWet (env : Env) (self : CarlaEngineOsc) (plugin : CarlaPlugin)
    (argv : List OscArg) (_hl : limitsFit env) (_hw : wireArgs argv) :
    WireShape argv (handleMsgSetDryWet self plugin argv) := by
  unfold handleMsgSetDryWet
  split
  · exact wire_diag _ _ _ _
  · exact wire_plugin _ _ _ _ trivial

theorem wire_SetVolume (env : Env) (self : CarlaEngineOsc) (plugin : CarlaPlugin)
    (argv : List OscArg) (_hl : limitsFit env) (_hw : wireArgs argv) :
    WireShape argv (handleMsgSetVolume self plugin argv) := by
  unfold handleMsgSetVolume
  split
  · exact wire_diag _ _ _ _
  · exact wire_plugin _ _ _ _ trivial

theorem wire_SetBalanceLeft (env : Env) (self : CarlaEngineOsc) (plugin : CarlaPlugin)
    (argv : List OscArg) (_hl : limitsFit env) (_hw : wireArgs argv) :
    WireShape argv (handleMsgSetBalanceLeft self plugin argv) := by
  unfold handleMsgSetBalanceLeft
  split
  · exact wire_diag _ _ _ _
  · exact wire_plugin _ _ _ _ trivial

theorem wire_SetBalanceRight (env : Env) (self : CarlaEngineOsc) (plugin : CarlaPlugin)
    (argv : List OscArg) (_hl : limitsFit env) (_hw : wireArgs argv) :
    WireShape argv (handleMsgSetBalanceRight self plugin argv) := by
  unfold handleMsgSetBalanceRight
  split
  · exact wire_diag _ _ _ _
  · exact wire_plugin _ _ _ _ trivial

theorem wire_SetPanning (env : Env) (self : CarlaEngineOsc) (plugin : CarlaPlugin)
    (argv : List OscArg) (_hl : limitsFit env) (_hw : wireArgs argv) :
    WireShape argv (handleMsgSetPanning self plugin argv) := by
  unfold handleMsgSetPanning
  split
  · exact wire_diag _ _ _ _
  · exact wire_plugin _ _ _ _ trivial

theorem wire_SetParameterValue (env : Env) (self : CarlaEngineOsc) (plugin : CarlaPlugin)
    (argv : List OscArg) (_hl : limitsFit env) (hw : wireArgs argv) :
    WireShape argv (handleMsgSetParameterValue self plugin argv) := by
  have w0 := wireArgs_argAt argv hw 0
  unfold handleMsgSetParameterValue
  split
  · exact wire_diag _ _ _ _
  · dsimp only
    repeat' (apply wire_ite <;> intro hc)
    all_goals first
      | exact wire_diag _ _ _ _
      | (apply wire_plugin
         simp only [not_not, ge_iff_le] at *
         exact toU32_of_nonneg _ (by omega) (by omega))

theorem wire_SetProgram (env : Env) (self : CarlaEngineOsc) (plugin : CarlaPlugin)
    (argv : List OscArg) (_hl : limitsFit env) (_hw : wireArgs argv) :
    WireShape argv (handleMsgSetProgram self plugin argv) := by
  unfold handleMsgSetProgram
  split
  · exact wire_diag _ _ _ _
  · dsimp only
    apply wire_ite <;> intro hc
    · exact wire_diag _ _ _ _
    · exact wire_plugin _ _ _ _ trivial

theorem wire_SetMidiProgram (env : Env) (self : CarlaEngineOsc) (plugin : CarlaPlugin)
    (argv : List OscArg) (_hl : limitsFit env) (_hw : wireArgs argv) :
    WireShape argv (handleMsgSetMidiProgram self plugin argv) := by
  unfold handleMsgSetMidiProgram
  split
  · exact wire_diag _ _ _ _
  · dsimp only
    apply wire_ite <;> intro hc
    · exact wire_diag _ _ _ _
    · exact wire_plugin _ _ _ _ trivial

theorem wire_SetParameterMidiCC (env : Env) (self : CarlaEngineOsc) (plugin : CarlaPlugin)
    (argv : List OscArg) (hl : limitsFit env) (hw : wireArgs argv) :
    WireShape argv (handleMsgSetParameterMidiCC env self plugin argv) := by
  have w0 := wireArgs_argAt argv hw 0
  have w1 := wireArgs_argAt argv hw 1
  obtain ⟨l1, l2, l3, l4⟩ := hl
  unfold handleMsgSetParameterMidiCC
  split
  · exact wire_diag _ _ _ _
  · dsimp only
    repeat' (apply wire_ite <;> intro hc)
    all_goals first
      | exact wire_diag _ _ _ _
      | (apply wire_plugin
         simp only [not_not, ge_iff_le] at *
         exact ⟨toU32_of_nonneg _ (by omega) (by omega),
           toI16_of_fits _ (by omega) (by omega)⟩)

theorem wire_SetParameterMidiChannel (env : Env) (self : CarlaEngineOsc) (plugin : CarlaPlugin)
    (argv : List OscArg) (hl : limitsFit env) (hw : wireArgs argv) :
    WireShape argv (handleMsgSetParameterMidiChannel env self plugin argv) := by
  have w0 := wireArgs_argAt argv hw 0
  have w1 := wireArgs_argAt argv hw 1
  obtain ⟨l1, l2, l3, l4⟩ := hl
  unfold handleMsgSetParameterMidiChannel
  split
  · exact wire_diag _ _ _ _
  · dsimp only
    repeat' (apply wire_ite <;> intro hc)
    all_goals first
      | exact wire_diag _ _ _ _
      | (apply wire_plugin
         simp only [not_not, ge_iff_le] at *
         exact ⟨toU32_of_nonneg _ (by omega) (by omega),
           toU8_of_byte _ (by omega) (by omega)⟩)

theorem wire_NoteOn (env : Env) (self : CarlaEngineOsc) (plugin : CarlaPlugin)
    (argv : List OscArg) (hl : limitsFit env) (hw : wireArgs argv) :
    WireShape argv (handleMsgNoteOn env self plugin argv) := by
  have w0 := wireArgs_argAt argv hw 0
  have w1 := wireArgs_argAt argv hw 1
  have w2 := wireArgs_argAt argv hw 2
  obtain ⟨l1, l2, l3, l4⟩ := hl
  unfold handleMsgNoteOn
  split
  · exact wire_diag _ _ _ _
  · dsimp only
    repeat' (apply wire_ite <;> intro hc)
    all_goals first
      | exact wire_diag _ _ _ _
      | (apply wire_plugin
         simp only [not_not, ge_iff_le] at *
         exact ⟨toU8_of_byte _ (by omega) (by omega), toU8_of_byte _ (by omega) (by omega),
           Or.inl (toU8_of_byte _ (by omega) (by omega))⟩)

theorem wire_NoteOff (env : Env) (self : CarlaEngineOsc) (plugin : CarlaPlugin)
    (argv : List OscArg) (hl : limitsFit env) (hw : wireArgs argv) :
    WireShape argv (handleMsgNoteOff env self plugin argv) := by
  have w0 := wireArgs_argAt argv hw 0
  have w1 := wireArgs_argAt argv hw 1
  obtain ⟨l1, l2, l3, l4⟩ := hl
  unfold handleMsgNoteOff
  split
  · exact wire_diag _ _ _ _
  · next hnone =>
    have hlen := checkOscTypes_none_length _ _ _ hnone
    dsimp only
    repeat' (apply wire_ite <;> intro hc)
    all_goals first
      | exact wire_diag _ _ _ _
      | (apply wire_plugin
         simp only [not_not, ge_iff_le] at *
         exact ⟨toU8_of_byte _ (by omega) (by omega), toU8_of_byte _ (by omega) (by omega),
           Or.inr ⟨hlen, rfl⟩⟩)

theorem wire_dispatchMethod (env : Env) (self : CarlaEngineOsc) (plugin : CarlaPlugin)
    (method : CStr) (argv : List OscArg) (hl : limitsFit env) (hw : wireArgs argv) :
    WireShape argv (dispatchMethod env self plugin method argv) := by
  unfold dispatchMethod
  repeat' (apply wire_ite <;> intro hc)
  all_goals first
    | (intro e he; cases he; done)
    | (intro e he
       simp only [List.mem_singleton] at he
       subst he
       exact trivial)
    | exact wire_SetActive env self plugin argv hl hw
    | exact wire_SetDryWet env self plugin argv hl hw
    | exact wire_SetVolume env self plugin argv hl hw
    | exact wire_SetBalanceLeft env self plugin argv hl hw
    | exact wire_SetBalanceRight env self plugin argv hl hw
    | exact wire_SetPanning env self plugin argv hl hw
    | exact wire_SetParameterValue env self plugin argv hl hw
    | exact wire_SetProgram env self plugin argv hl hw
    | exact wire_SetMidiProgram env self plugin argv hl hw
    | exact wire_SetParameterMidiCC env self plugin argv hl hw
    | exact wire_SetParameterMidiChannel env self plugin argv hl hw
    | exact wire_NoteOn env self plugin argv hl hw
    | exact wire_NoteOff env self plugin argv hl hw

theorem wire_registerPluginLoop (argv : List OscArg) (engine : CarlaEngine) (n i : Nat)
    (e : Effect) (h : e ∈ registerPluginLoop engine i n) : wireFaithful argv e := by
  induction n generalizing i with
  | zero => cases h
  | succ n ih =>
    unfold registerPluginLoop at h
    rw [List.mem_append] at h
    rcases h with h | h
    · cases hp : engine.plugins i <;> rw [hp] at h <;> simp at h <;> rcases h with h | h <;>
        subst h <;> exact trivial
    · exact ih (i + 1) h

theorem wire_handleMsgRegister (env : Env) (self : CarlaEngineOsc) (engine : CarlaEngine)
    (isTCP : Bool) (argv : List OscArg) :
    WireShape argv (handleMsgRegister env self engine isTCP argv) := by
  unfold handleMsgRegister
  split
  · exact wire_diag _ _ _ _
  · dsimp only
    split
    · intro e he
      simp only [List.mem_cons, List.mem_singleton, List.not_mem_nil, or_false] at he
      rcases he with he | he <;> subst he <;> exact trivial
    · intro e he
      simp only [List.mem_cons] at he
      rcases he with he | he
      · subst he; exact trivial
      · split at he
        · unfold registerSnapshot at he
          rw [List.mem_cons, List.mem_append, List.mem_singleton] at he
          rcases he with he | he | he
          · subst he; exact trivial
          · exact wire_registerPluginLoop argv engine _ _ e he
          · subst he; exact trivial
        · cases he

theorem wire_handleMsgUnregister (self : CarlaEngineOsc) (isTCP : Bool) (argv : List OscArg) :
    WireShape argv (handleMsgUnregister self isTCP argv) := by
  unfold handleMsgUnregister
  split
  · exact wire_diag _ _ _ _
  · dsimp only
    split
    · exact wire_diag _ _ _ _
    · split
      · intro e he
        simp only [List.mem_singleton] at he
        subst he
        exact trivial
      · exact wire_diag _ _ _ _

theorem wire_handlePluginId (env : Env) (self : CarlaEngineOsc) (engine : CarlaEngine)
    (path : CStr) (start i : Nat) (argv : List OscArg) (out : Outcome)
    (hl : limitsFit env) (hw : wireArgs argv)
    (h : handlePluginId env self engine path start i argv = some out) :
    WireShape argv out := by
  have two : ∀ (r : Int) (d : Diag),
      WireShape argv ⟨r, self, [Effect.getPlugin i, Effect.diag d]⟩ := by
    intro r d e he
    simp only [List.mem_cons, List.mem_singleton, List.not_mem_nil, or_false] at he
    rcases he with he | he <;> subst he <;> exact trivial
  unfold handlePluginId at h
  split at h
  · cases h; exact wire_diag _ _ _ _
  · split at h
    · cases h; exact two _ _
    · next plugin hp =>
      dsimp only at h
      split_ifs at h with c1 c2 c3
      · cases h; exact two _ _
      · cases h; exact two _ _
      · simp only [Option.some.injEq] at h
        subst h
        intro e he
        simp only [List.mem_cons] at he
        rcases he with he | he
        · subst he; exact trivial
        · exact wire_dispatchMethod env self plugin _ argv hl hw e he

/-- C28: with the integer views of the arguments holding values of their wire types
and the MIDI limits fitting the types converted to, every converted number that any
call made by `handleMessage` receives (unsigned 32-bit index, id or options, unsigned
8-bit channel, note or velocity, signed 16-bit controller number, unsigned 64-bit
frame) equals the number in the argument it was read from: each conversion acts on a
value the assertions before it have confined to the target type. -/
theorem conversions_preserve_wire_values (env : Env) (self : CarlaEngineOsc)
    (engine : CarlaEngine) (isTCP : Bool) (path : CStr) (argv : List OscArg) (out : Outcome)
    (hl : limitsFit env) (hw : wireArgs argv)
    (h : handleMessage env self engine isTCP path argv = some out) :
    ∀ e ∈ out.effects, wireFaithful argv e := by
  by_cases hr : reachesDecoder self isTCP path
  · rw [handleMessage_of_reachesDecoder env self engine isTCP path argv hr] at h
    unfold afterRootCheck at h
    cases hd : decodePluginId path self.fName.length with
    | readPastEnd => rw [hd] at h; cases h
    | invalid => rw [hd] at h; cases h; exact wire_diag _ _ _ _
    | over999 => rw [hd] at h; cases h; exact wire_diag _ _ _ _
    | ok i off =>
      rw [hd] at h
      exact wire_handlePluginId env self engine path _ i argv out hl hw h
  · rcases handleMessage_of_not_reachesDecoder env self engine isTCP path argv hr with
      e | ⟨_, e⟩ | ⟨_, e⟩ | ⟨_, e⟩ | e
    · rw [e] at h; cases h; exact wire_diag _ _ _ _
    · rw [e] at h; cases h; exact wire_handleMsgRegister env self engine isTCP argv
    · rw [e] at h; cases h; exact wire_handleMsgUnregister self isTCP argv
    · rw [e] at h; cases h; exact wire_handleMsgControl self _ argv hw
    · rw [e] at h; cases h; exact wire_diag _ _ _ _

/-- C28 at a sample input: `note_on` hands channel 9, note 60 and velocity 100 on as
they came. -/
theorem conversions_preserve_wire_values_witness :
    wireFaithful [OscArg.int32 9, OscArg.int32 60, OscArg.int32 100]
      (Effect.plugin ⟨203, 3, cstr "plugin"⟩
        (PluginOp.sendMidiSingleNote 9 60 100 true false true)) :=
  conversions_preserve_wire_values exampleEnv exampleOsc fiftyPlugins true
    (cstr "/Carla/3/note_on") [OscArg.int32 9, OscArg.int32 60, OscArg.int32 100]
    ⟨0, exampleOsc, [Effect.getPlugin 3, Effect.plugin ⟨203, 3, cstr "plugin"⟩
      (PluginOp.sendMidiSingleNote 9 60 100 true false true)]⟩
    (by decide) (by decide) (by decide) _ (by decide)

/-! ### The decoder and the terminator of the path -/

/-- C27, at failing inputs.  With root name `Carla`, the path `/Carla` passes the test
"message is for this client", yet the first probe of the decoder, at index 7, lies
after the terminator at index 6; `/Carla/12` passes too and the probe at index 10 lies
after the terminator at index 9; `/Carla/5` decodes to plugin 5 with offset 4, and the
copy of the method starts at index 9, after the terminator at index 8. -/
theorem decoder_probes_past_terminator :
    (reachesDecoder exampleOsc true (cstr "/Carla") ∧
      (cstr "/Carla").length < exampleOsc.fName.length + 2 ∧
      pathAt (cstr "/Carla") (exampleOsc.fName.length + 2) = none ∧
      decodePluginId (cstr "/Carla") exampleOsc.fName.length = Decoded.readPastEnd ∧
      handleMessage exampleEnv exampleOsc fiftyPlugins true (cstr "/Carla") [] = none) ∧
    (reachesDecoder exampleOsc true (cstr "/Carla/12") ∧
      (cstr "/Carla/12").length < exampleOsc.fName.length + 5 ∧
      pathAt (cstr "/Carla/12") (exampleOsc.fName.length + 5) = none ∧
      decodePluginId (cstr "/Carla/12") exampleOsc.fName.length = Decoded.readPastEnd ∧
      handleMessage exampleEnv exampleOsc fiftyPlugins true (cstr "/Carla/12") [] = none) ∧
    (decodesTo exampleOsc true (cstr "/Carla/5") 5 4 ∧
      (cstr "/Carla/5").length < exampleOsc.fName.length + 4 ∧
      pathAt (cstr "/Carla/5") (exampleOsc.fName.length + 4) = none ∧
      handleMessage exampleEnv exampleOsc fiftyPlugins true (cstr "/Carla/5") [] = none) := by
  decide

/-- A path with at least five characters after the root name keeps every probe of the
decoder at or before its terminator. -/
theorem decodePluginId_in_bounds (path : CStr) (nameSize : Nat)
    (h : nameSize + 5 ≤ path.length) : decodePluginId path nameSize ≠ Decoded.readPastEnd := by
  have hp : ∀ k, k ≤ 5 → ∃ c, pathAt path (nameSize + k) = some c := by
    intro k hk
    unfold pathAt
    by_cases h1 : nameSize + k < path.length
    · simp [h1]
    · have h2 : nameSize + k = path.length := by omega
      simp [h2]
  obtain ⟨c2, e2⟩ := hp 2 (by omega)
  obtain ⟨c3, e3⟩ := hp 3 (by omega)
  obtain ⟨c4, e4⟩ := hp 4 (by omega)
  obtain ⟨c5, e5⟩ := hp 5 (by omega)
  unfold decodePluginId
  rw [e2, e3, e4, e5]
  dsimp only
  split_ifs <;> simp

/-! ### The sweep of the image cache -/

theorem timerLoop_append (now t : Nat) (pre : List Item) :
    ∀ suf : List Item,
      timerLoop now t pre.length (pre ++ suf) = pre.filterMap (sweepItem now t) ++ suf := by
  induction pre using List.reverseRecOn with
  | nil => intro suf; rfl
  | append_singleton p x ih =>
    intro suf
    have hlen : (p ++ [x]).length = p.length + 1 := by simp
    have hget : (p ++ [x] ++ suf).get? p.length = some x := by
      rw [List.append_assoc, List.get?_eq_getElem?,
        List.getElem?_append_right (le_refl _)]
      simp
    rw [hlen]
    unfold timerLoop
    rw [hget]
    dsimp only
    rw [List.filterMap_append]
    by_cases hr : x.refCount ≤ 1
    · by_cases he : removalTest now t x.lastUseTime = true
      · have herase : (p ++ [x] ++ suf).eraseIdx p.length = p ++ suf := by
          rw [List.append_assoc, List.eraseIdx_append_of_length_le (le_refl _)]
          simp
        rw [if_pos hr, if_pos he, herase, ih suf]
        simp [sweepItem, hr, he]
      · rw [if_pos hr, if_neg he, List.append_assoc, ih ([x] ++ suf)]
        simp [sweepItem, hr, he]
    · have hset : (p ++ [x] ++ suf).set p.length { x with lastUseTime := now } =
          p ++ ([{ x with lastUseTime := now }] ++ suf) := by
        rw [List.append_assoc, List.set_append_right _ _ (le_refl _)]
        simp
      rw [if_neg hr, hset, ih]
      simp [sweepItem, hr]

/-- The sweep handles every entry on its own and keeps the survivors in their order:
the array after `timerCallback` is the array before it with each entry replaced by what
`sweepItem` leaves of it. -/
theorem timerCallback_images (self : Pimpl) (now : Nat) :
    (self.timerCallback now).images =
      self.images.filterMap (sweepItem now self.cacheTimeout) := by
  have h := timerLoop_append now self.cacheTimeout self.images []
  simp only [List.append_nil] at h
  exact h

/-- An entry with other references survives the sweep with its last-use time set to
`now`. -/
theorem sweepItem_referenced (now t : Nat) (item : Item) (h : 1 < item.refCount) :
    sweepItem now t item = some { item with lastUseTime := now } := by
  unfold sweepItem
  rw [if_neg (by omega)]

/-- Away from the ends of the counter's range (the entry last used at 1000 ms or later,
and its last-use time plus the timeout below `2 ^ 32`), an entry that only the cache
references and whose last use is not after `now` is removed exactly when more than
`cacheTimeout` milliseconds have passed. -/
theorem removalTest_iff (now t last : Nat) (h1 : 1000 ≤ last) (h2 : last + t < 2 ^ 32)
    (h3 : last ≤ now) :
    removalTest now t last = true ↔ now - last > t := by
  unfold removalTest
  have e1 : (last + t) % 2 ^ 32 = last + t := Nat.mod_eq_of_lt h2
  have e2 : (last + 2 ^ 32 - 1000) % 2 ^ 32 = last - 1000 := by
    have : last + 2 ^ 32 - 1000 = (last - 1000) + 2 ^ 32 := by omega
    rw [this, Nat.add_mod_right]
    exact Nat.mod_eq_of_lt (by omega)
  rw [e1, e2]
  simp only [Bool.or_eq_true, decide_eq_true_eq]
  omega

/-- C29, at failing inputs.  `lateCache` holds one entry that only the cache references,
last used at 4294967196; at `now = 4294967246` the counter has neither wrapped nor gone
backwards and 50 ms have passed, fewer than the timeout of 5000, yet the sweep removes
the entry and stops the timer: the sum `lastUseTime + cacheTimeout` wraps to 4900.
`earlyCache` holds one last used at 500; at `now = 2500` the sweep removes it after
2000 ms: the difference `lastUseTime - 1000` wraps to 4294966796. -/
theorem sweep_removes_entry_before_timeout :
    ((4294967196 : Nat) ≤ 4294967246 ∧ ¬ (4294967246 - 4294967196 > lateCache.cacheTimeout) ∧
      lateCache.images = [⟨1, 11, 4294967196⟩] ∧
      (4294967196 + lateCache.cacheTimeout) % 2 ^ 32 = 4900 ∧
      lateCache.timerCallback 4294967246 = ⟨[], 5000, false⟩) ∧
    ((500 : Nat) ≤ 2500 ∧ ¬ (2500 - 500 > earlyCache.cacheTimeout) ∧
      earlyCache.images = [⟨1, 11, 500⟩] ∧
      (500 + 2 ^ 32 - 1000) % 2 ^ 32 = 4294966796 ∧
      earlyCache.timerCallback 2500 = ⟨[], 5000, false⟩) := by
  decide

end Carla
